import Mathlib

/-!
Verification of the reconciliation engine in `library/firewall_lib.py`.

The Python module reconciles a declarative rule set (services, ports,
trusted interfaces, masqueraded interfaces, forward ports) against the
state of a firewall daemon with a runtime layer and a permanent layer.
The definitions below are a shallow embedding of that module: the daemon
is modelled as an explicit state (association lists keyed by zone name),
the mutable `FirewallClientZoneSettings` objects of the Python code are
modelled with an explicit heap of numbered settings objects (so that the
reference/aliasing behaviour of `changed_zones` is preserved), and
`module.fail_json` / `module.exit_json` are modelled as early exits of a
state monad that keeps the state accumulated so far.
-/

namespace FW

/-! ## Association lists (string- or nat-keyed maps used throughout) -/

/-- Lookup in an association list (first binding wins, like a Python dict). -/
def alookup {α β : Type} [DecidableEq α] (k : α) : List (α × β) → Option β
  | [] => none
  | (k', v) :: t => if k = k' then some v else alookup k t

/-- Set a key in an association list, replacing an existing binding in place
(insertion order is preserved, like a Python dict). -/
def aset {α β : Type} [DecidableEq α] (k : α) (v : β) : List (α × β) → List (α × β)
  | [] => [(k, v)]
  | (k', v') :: t => if k = k' then (k, v) :: t else (k', v') :: aset k v t

/-- Remove a key from an association list. -/
def aerase {α β : Type} [DecidableEq α] (k : α) : List (α × β) → List (α × β)
  | [] => []
  | (k', v') :: t => if k = k' then aerase k t else (k', v') :: aerase k t

/-! ## Data model -/

/-- A runtime (port, protocol) pair, as produced by splitting `port/protocol`. -/
abbrev PortProto := String × String

/-- A forward-port rule as passed to the daemon:
(port, protocol, to_port, to_addr); empty to-fields are normalized to `none`. -/
structure FwdPort where
  port : String
  protocol : String
  toPort : Option String
  toAddr : Option String
deriving DecidableEq, Repr

/-- The runtime projection of one zone: the rules active right now. -/
structure ZoneRuntime where
  services : List String
  ports : List PortProto
  forwardPorts : List FwdPort
deriving DecidableEq, Repr

/-- A permanent-layer settings object (`FirewallClientZoneSettings`). -/
structure ZoneSettings where
  services : List String
  ports : List PortProto
  interfaces : List String
  forwardPorts : List FwdPort
deriving DecidableEq, Repr

/-- The observable state of the firewall daemon.
`runtime` maps a zone name to its runtime rules, `permanent` maps a zone
name to its persisted settings; `ifaceZone` records which runtime zone an
interface is currently bound to (absent = unowned). -/
structure DaemonState where
  connected : Bool
  defaultZone : String
  runtime : List (String × ZoneRuntime)
  ifaceZone : List (String × String)
  permanent : List (String × ZoneSettings)
deriving DecidableEq, Repr

/-- Parsed forward-port rule string:
(interface, port, protocol, to_port, to_addr). -/
abbrev ParsedFwd := String × String × String × Option String × Option String

/-! ## Errors and module termination -/

/-- The ways the module terminates with `module.fail_json` (or, for
`pyError`, with an uncaught Python exception). -/
inductive Err
  | malformedRule (msg : String)
  | unknownZoneRuntime (zone : String)
  | unknownZonePermanent (zone : String)
  | daemonFault (msg : String)
  | pyError (msg : String)
deriving DecidableEq, Repr

/-- Early termination of `main`: either `module.fail_json` (`fail`) or
`module.exit_json` (`exit`, carrying the reported changed flag). -/
inductive Stop
  | fail (e : Err)
  | exit (changed : Bool)
deriving DecidableEq, Repr

/-! ## Call trace

Every call that reaches the daemon (or the NetworkManager side channel)
is recorded, so that fetch-once / commit-once properties are observable. -/

inductive Call
  | getSettings (zone : String)
  | addService (zone item : String)
  | removeService (zone item : String)
  | addPort (zone port protocol : String)
  | removePort (zone port protocol : String)
  | changeZoneOfInterface (zone iface : String)
  | removeInterface (zone iface : String)
  | addForwardPort (zone : String) (fp : FwdPort)
  | removeForwardPort (zone : String) (fp : FwdPort)
  | nmSetZone (zone iface : String)
  | update (zone : String) (s : ZoneSettings)
deriving DecidableEq, Repr

/-! ## The NetworkManager side channel (`firewall.core.fw_nm`) -/

/-- Result of `nm_get_connection_of_interface`: no connection, a raised
exception, or a connection (for which `nm_set_zone_of_connection` either
succeeds or raises). -/
inductive NMConn
  | noConn
  | lookupRaises
  | conn (setRaises : Bool)
deriving DecidableEq, Repr

/-- The optional NetworkManager capability: `HAS_FIREWALLD_NM`,
`nm_is_imported()`, and the per-interface connection lookup. -/
structure NMModel where
  hasFirewalldNM : Bool
  imported : Bool
  connOf : String → NMConn

/-- Result of `try_set_zone_of_interface`: a returned boolean, or an
uncaught exception from `nm_set_zone_of_connection`. -/
inductive TryResult
  | ok (b : Bool)
  | raised
deriving DecidableEq, Repr

/-- `try_set_zone_of_interface(_zone, interface)`: lookup failures are
swallowed (`except Exception: pass`), but the `nm_set_zone_of_connection`
call itself is outside the `try` block, so a failure there propagates. -/
def try_set_zone_of_interface (nm : NMModel) (_zone interface : String) : TryResult :=
  if !nm.hasFirewalldNM then .ok false
  else if nm.imported then
    match nm.connOf interface with
    | .lookupRaises => .ok false
    | .noConn => .ok false
    | .conn setRaises => if setRaises then .raised else .ok true
  else .ok false

/-! ## Rule parsing (the RuleSet Normalizer) -/

/-- Split a character list on a separator character.  Mirrors Python's
`str.split(sep)` — both separators used by the source (`"/"` and `";"`)
are single characters, so char-level splitting is exact. -/
def splitCharList (sep : Char) : List Char → List (List Char)
  | [] => [[]]
  | c :: t =>
      let r := splitCharList sep t
      if c = sep then [] :: r
      else
        match r with
        | h :: t' => (c :: h) :: t'
        | [] => [[c]]

/-- Python `s.split(sep)` for a single-character separator. -/
def pySplit (sep : Char) (s : String) : List String :=
  (splitCharList sep s.toList).map (fun l => String.mk l)

/-- Python tuple unpacking `a, b = s.split(sep)`: raises `ValueError`
(an uncaught exception, not `fail_json`) unless the split yields exactly
two fields. -/
def split2 (sep : Char) (s : String) : Except Err (String × String) :=
  match pySplit sep s with
  | [a, b] => .ok (a, b)
  | _ => .error (.pyError ("ValueError: unpacking split of " ++ s))

/-- The port loop of `main`: `_port, _protocol = port_proto.split("/")`.
The subsequent `if _protocol is None` check in the source can never fire
(`split` never yields `None`), so it has no counterpart here. -/
def parse_port (s : String) : Except Err PortProto :=
  match split2 '/' s with
  | .ok pp => .ok pp
  | .error e => .error e

/-- Shared tail of `parse_forward_port`: split the port field on `/` and
normalize empty to-port / to-addr fields to `none`. -/
def parseFwdFields (i pp tp ta : String) : Except Err ParsedFwd :=
  match split2 '/' pp with
  | .ok (p, proto) =>
      .ok (i, p, proto, (if tp = "" then none else some tp),
           (if ta = "" then none else some ta))
  | .error e => .error e

/-- `parse_forward_port(module, item, item_type)`: split on `;`;
4 fields give an explicit interface, 3 fields (with `item_type` absent)
give an empty interface, anything else is an improper-format failure. -/
def parse_forward_port (item : String) (item_type : Option String) : Except Err ParsedFwd :=
  match pySplit ';' item with
  | [i, pp, tp, ta] => parseFwdFields i pp tp ta
  | [pp, tp, ta] =>
      if item_type = none then parseFwdFields "" pp tp ta
      else .error (.malformedRule ("improper forward_port format: " ++ item))
  | _ => .error (.malformedRule ("improper forward_port format: " ++ item))

/-- Parse every port string of the `port` parameter, failing at the first
malformed one (as the Python loop does). -/
def parsePorts : List String → Except Err (List PortProto)
  | [] => .ok []
  | s :: t =>
      match parse_port s with
      | .ok pp =>
          match parsePorts t with
          | .ok rest => .ok (pp :: rest)
          | .error e => .error e
      | .error e => .error e

/-- Parse every forward-port string of the `forward_port` parameter. -/
def parseFwds : List String → Except Err (List ParsedFwd)
  | [] => .ok []
  | s :: t =>
      match parse_forward_port s none with
      | .ok pf =>
          match parseFwds t with
          | .ok rest => .ok (pf :: rest)
          | .error e => .error e
      | .error e => .error e

/-! ## The engine state and monad -/

/-- The state of one `main` invocation: the daemon state, the trace of
calls issued so far, the heap of live settings objects (`nextRef` is the
next fresh object id), the aggregate `changed` flag, and `changed_zones`
(zone name to settings-object reference). -/
structure Engine where
  ds : DaemonState
  trace : List Call
  heap : List (Nat × ZoneSettings)
  nextRef : Nat
  changed : Bool
  changedZones : List (String × Nat)
deriving DecidableEq, Repr

/-- The engine monad: a state transformer over `Engine` whose early exits
(`fail_json` / `exit_json`) keep the state accumulated so far. -/
abbrev M (α : Type) : Type := Engine → Except Stop α × Engine

instance instMonadM : Monad M where
  pure a := fun e => (Except.ok a, e)
  bind x f := fun e =>
    match x e with
    | (Except.ok a, e') => f a e'
    | (Except.error s, e') => (Except.error s, e')

/-- `module.fail_json(...)`. -/
def failJson {α : Type} (err : Err) : M α := fun e => (Except.error (.fail err), e)

/-- `module.exit_json(changed=b)`. -/
def exitJson {α : Type} (b : Bool) : M α := fun e => (Except.error (.exit b), e)

def getEng : M Engine := fun e => (Except.ok e, e)

def modifyEng (f : Engine → Engine) : M Unit := fun e => (Except.ok (), f e)

/-- Lift a parsing result into the monad (`fail_json` on error). -/
def liftE {α : Type} : Except Err α → M α
  | .ok a => pure a
  | .error err => failJson err

/-- Record a daemon (or NetworkManager) call in the trace. -/
def emit (c : Call) : M Unit :=
  modifyEng fun e => { e with trace := e.trace ++ [c] }

/-- `changed = True`. -/
def setChanged : M Unit :=
  modifyEng fun e => { e with changed := true }

/-- `changed_zones[z] = <the settings object r>`. -/
def registerChanged (z : String) (r : Nat) : M Unit :=
  modifyEng fun e => { e with changedZones := aset z r e.changedZones }

/-! ## Daemon calls (runtime layer) -/

/-- Access a zone's runtime projection; an unknown zone makes the daemon
raise, which the installed exception handler turns into `fail_json`. -/
def getRuntimeZone (z : String) : M ZoneRuntime := do
  let e ← getEng
  match alookup z e.ds.runtime with
  | some r => pure r
  | none => failJson (.daemonFault ("INVALID_ZONE: " ++ z))

def setRuntimeZone (z : String) (r : ZoneRuntime) : M Unit :=
  modifyEng fun e => { e with ds := { e.ds with runtime := aset z r e.ds.runtime } }

def queryService (z item : String) : M Bool := do
  let r ← getRuntimeZone z
  pure (r.services.contains item)

def addService (z item : String) : M Unit := do
  let r ← getRuntimeZone z
  setRuntimeZone z { r with services := r.services ++ [item] }
  emit (.addService z item)

def removeService (z item : String) : M Unit := do
  let r ← getRuntimeZone z
  setRuntimeZone z { r with services := r.services.erase item }
  emit (.removeService z item)

def queryPort (z port protocol : String) : M Bool := do
  let r ← getRuntimeZone z
  pure (r.ports.contains (port, protocol))

def addPort (z port protocol : String) : M Unit := do
  let r ← getRuntimeZone z
  setRuntimeZone z { r with ports := r.ports ++ [(port, protocol)] }
  emit (.addPort z port protocol)

def removePort (z port protocol : String) : M Unit := do
  let r ← getRuntimeZone z
  setRuntimeZone z { r with ports := r.ports.erase (port, protocol) }
  emit (.removePort z port protocol)

/-- `fw.queryInterface(zone, interface)`: is the interface currently bound
to this runtime zone? -/
def queryInterface (z iface : String) : M Bool := do
  let _ ← getRuntimeZone z
  let e ← getEng
  pure (alookup iface e.ds.ifaceZone = some z)

/-- `fw.changeZoneOfInterface(zone, interface)`: rebind the interface. -/
def changeZoneOfInterface (z iface : String) : M Unit := do
  let _ ← getRuntimeZone z
  modifyEng fun e =>
    { e with ds := { e.ds with ifaceZone := aset iface z e.ds.ifaceZone } }
  emit (.changeZoneOfInterface z iface)

/-- `fw.removeInterface(zone, interface)`: unbind the interface if it is
bound to this zone. -/
def removeInterface (z iface : String) : M Unit := do
  let _ ← getRuntimeZone z
  modifyEng fun e =>
    { e with ds := { e.ds with ifaceZone :=
        (if alookup iface e.ds.ifaceZone = some z then aerase iface e.ds.ifaceZone
         else e.ds.ifaceZone) } }
  emit (.removeInterface z iface)

/-- `fw.getZoneOfInterface(interface)`: the owning zone, or `""` when the
interface is unowned. -/
def getZoneOfInterface (iface : String) : M String := do
  let e ← getEng
  pure ((alookup iface e.ds.ifaceZone).getD "")

def queryForwardPort (z : String) (fp : FwdPort) : M Bool := do
  let r ← getRuntimeZone z
  pure (r.forwardPorts.contains fp)

def addForwardPort (z : String) (fp : FwdPort) : M Unit := do
  let r ← getRuntimeZone z
  setRuntimeZone z { r with forwardPorts := r.forwardPorts ++ [fp] }
  emit (.addForwardPort z fp)

def removeForwardPort (z : String) (fp : FwdPort) : M Unit := do
  let r ← getRuntimeZone z
  setRuntimeZone z { r with forwardPorts := r.forwardPorts.erase fp }
  emit (.removeForwardPort z fp)

/-! ## Daemon calls (permanent layer) -/

/-- `fw.config().getZoneByName(z)`: resolves the permanent zone object;
raises (hence `fail_json`) when the zone is unknown. -/
def getZoneByName (z : String) : M Unit := do
  let e ← getEng
  match alookup z e.ds.permanent with
  | some _ => pure ()
  | none => failJson (.daemonFault ("INVALID_ZONE (config): " ++ z))

/-- `zone_object.getSettings()`: fetch a fresh settings object for the
zone and return its heap reference. -/
def getSettings (z : String) : M Nat := do
  let e ← getEng
  match alookup z e.ds.permanent with
  | some s => do
      let r := e.nextRef
      modifyEng fun e' =>
        { e' with heap := aset r s e'.heap, nextRef := e'.nextRef + 1 }
      emit (.getSettings z)
      pure r
  | none => failJson (.daemonFault ("INVALID_ZONE (config): " ++ z))

/-- Read the settings object behind a heap reference (references produced
by `getSettings` are always live; the default is never reached). -/
def readRef (r : Nat) : M ZoneSettings := do
  let e ← getEng
  pure ((alookup r e.heap).getD ⟨[], [], [], []⟩)

def writeRef (r : Nat) (s : ZoneSettings) : M Unit :=
  modifyEng fun e => { e with heap := aset r s e.heap }

def settingsQueryService (r : Nat) (item : String) : M Bool := do
  pure ((← readRef r).services.contains item)

def settingsAddService (r : Nat) (item : String) : M Unit := do
  let s ← readRef r
  writeRef r { s with services := s.services ++ [item] }

def settingsRemoveService (r : Nat) (item : String) : M Unit := do
  let s ← readRef r
  writeRef r { s with services := s.services.erase item }

def settingsQueryPort (r : Nat) (port protocol : String) : M Bool := do
  pure ((← readRef r).ports.contains (port, protocol))

def settingsAddPort (r : Nat) (port protocol : String) : M Unit := do
  let s ← readRef r
  writeRef r { s with ports := s.ports ++ [(port, protocol)] }

def settingsRemovePort (r : Nat) (port protocol : String) : M Unit := do
  let s ← readRef r
  writeRef r { s with ports := s.ports.erase (port, protocol) }

def settingsQueryInterface (r : Nat) (iface : String) : M Bool := do
  pure ((← readRef r).interfaces.contains iface)

def settingsAddInterface (r : Nat) (iface : String) : M Unit := do
  let s ← readRef r
  writeRef r { s with interfaces := s.interfaces ++ [iface] }

def settingsRemoveInterface (r : Nat) (iface : String) : M Unit := do
  let s ← readRef r
  writeRef r { s with interfaces := s.interfaces.erase iface }

def settingsQueryForwardPort (r : Nat) (fp : FwdPort) : M Bool := do
  pure ((← readRef r).forwardPorts.contains fp)

def settingsAddForwardPort (r : Nat) (fp : FwdPort) : M Unit := do
  let s ← readRef r
  writeRef r { s with forwardPorts := s.forwardPorts ++ [fp] }

def settingsRemoveForwardPort (r : Nat) (fp : FwdPort) : M Unit := do
  let s ← readRef r
  writeRef r { s with forwardPorts := s.forwardPorts.erase fp }

/-- `_fw_zone.update(changed_zones[_zone])`: commit a mutated settings
object back to the permanent layer of zone `z` (preceded, as in the
source's commit loop, by `fw.config().getZoneByName(_zone)`). -/
def update (z : String) (r : Nat) : M Unit := do
  getZoneByName z
  let s ← readRef r
  modifyEng fun e =>
    { e with ds := { e.ds with permanent := aset z s e.ds.permanent } }
  emit (.update z s)

/-! ## The Dual-Layer Reconciler (the per-category loops of `main`) -/

/-- The `# service` loop (source lines 283-299).  Note that the runtime
removal in the `disabled` branch does not set the changed flag: the
source has no `changed = True` after `fw.removeService`. -/
def processService (zone : String) (fwRef : Nat) (desired : String) :
    List String → M Unit
  | [] => pure ()
  | item :: rest => do
      if desired = "enabled" then
        if !(← queryService zone item) then
          addService zone item
          setChanged
        if !(← settingsQueryService fwRef item) then
          settingsAddService fwRef item
          setChanged
          registerChanged zone fwRef
      else if desired = "disabled" then
        if (← queryService zone item) then
          removeService zone item
        if (← settingsQueryService fwRef item) then
          settingsRemoveService fwRef item
          setChanged
          registerChanged zone fwRef
      processService zone fwRef desired rest

/-- The `# port` loop (source lines 301-318). -/
def processPort (zone : String) (fwRef : Nat) (desired : String) :
    List PortProto → M Unit
  | [] => pure ()
  | (p, proto) :: rest => do
      if desired = "enabled" then
        if !(← queryPort zone p proto) then
          addPort zone p proto
          setChanged
        if !(← settingsQueryPort fwRef p proto) then
          settingsAddPort fwRef p proto
          setChanged
          registerChanged zone fwRef
      else if desired = "disabled" then
        if (← queryPort zone p proto) then
          removePort zone p proto
          setChanged
        if (← settingsQueryPort fwRef p proto) then
          settingsRemovePort fwRef p proto
          setChanged
          registerChanged zone fwRef
      processPort zone fwRef desired rest

/-- One item of the `# trust` / `# masq` loops (source lines 334-357 and
373-396): first the NetworkManager fast path, then the daemon path.  A
raise from `nm_set_zone_of_connection` is an uncaught Python exception. -/
def trustMasqItem (checkMode : Bool) (nm : NMModel) (tz : String) (ref : Nat)
    (desired : String) (item : String) : M Unit := do
  if desired = "enabled" then
    match try_set_zone_of_interface nm tz item with
    | .raised => failJson (.pyError "nm_set_zone_of_connection raised")
    | .ok true => do
        emit (.nmSetZone tz item)
        setChanged
    | .ok false => do
        if !(← queryInterface tz item) then
          changeZoneOfInterface tz item
          setChanged
        if !(← settingsQueryInterface ref item) then
          settingsAddInterface ref item
          setChanged
          registerChanged tz ref
  else if desired = "disabled" then
    match try_set_zone_of_interface nm "" item with
    | .raised => failJson (.pyError "nm_set_zone_of_connection raised")
    | .ok true => do
        emit (.nmSetZone "" item)
        if checkMode then exitJson true
    | .ok false => do
        if (← queryInterface tz item) then
          removeInterface tz item
          setChanged
        if (← settingsQueryInterface ref item) then
          settingsRemoveInterface ref item
          setChanged
          registerChanged tz ref

def processTrustMasq (checkMode : Bool) (nm : NMModel) (tz : String) (ref : Nat)
    (desired : String) : List String → M Unit
  | [] => pure ()
  | item :: rest => do
      trustMasqItem checkMode nm tz ref desired item
      processTrustMasq checkMode nm tz ref desired rest

/-- The `# trust` / `# masq` blocks (source lines 321-332 and 360-371):
when the list is non-empty, resolve the target zone (`trusted` resp.
`external`) and its settings object — reusing the object in
`changed_zones` if present, fetching fresh settings otherwise — then
process the items. -/
def categoryBlock (checkMode : Bool) (nm : NMModel) (zone : String) (fwRef : Nat)
    (target : String) (desired : String) (items : List String) : M Unit := do
  match items with
  | [] => pure ()
  | _ :: _ => do
      let refT ←
        (if zone ≠ target then do
          getZoneByName target
          let e ← getEng
          match alookup target e.changedZones with
          | some r => pure r
          | none => getSettings target
         else pure fwRef)
      let tz := if zone ≠ target then target else zone
      processTrustMasq checkMode nm tz refT desired items

/-- The `# forward_port` loop (source lines 399-442).  Each item first
resolves its zone: the zone owning the interface (when an interface was
given), else the nominal zone; an unowned interface yields the empty
string, in which case the nominal settings object is used but the
runtime calls and the `changed_zones` key use the empty zone name. -/
def processForwardPort (zone : String) (fwRef : Nat) (desired : String) :
    List ParsedFwd → M Unit
  | [] => pure ()
  | (iface, p, proto, tp, ta) :: rest => do
      let tz ← (if iface ≠ "" then getZoneOfInterface iface else pure zone)
      let ref ←
        (if tz ≠ "" ∧ tz ≠ zone then do
          getZoneByName tz
          let e ← getEng
          match alookup tz e.changedZones with
          | some r => pure r
          | none => getSettings tz
         else pure fwRef)
      let fp : FwdPort := ⟨p, proto, tp, ta⟩
      if desired = "enabled" then
        if !(← queryForwardPort tz fp) then
          addForwardPort tz fp
          setChanged
        if !(← settingsQueryForwardPort ref fp) then
          settingsAddForwardPort ref fp
          setChanged
          registerChanged tz ref
      else if desired = "disabled" then
        if (← queryForwardPort tz fp) then
          removeForwardPort tz fp
          setChanged
        if (← settingsQueryForwardPort ref fp) then
          settingsRemoveForwardPort ref fp
          setChanged
          registerChanged tz ref
      processForwardPort zone fwRef desired rest

/-! ## The Batch Committer and `main` -/

/-- The commit loop (source lines 445-448): one `update` per entry of
`changed_zones`, in insertion order. -/
def commitAll : List (String × Nat) → M Unit
  | [] => pure ()
  | (z, r) :: rest => do
      update z r
      commitAll rest

/-- The module parameters of one invocation (plus Ansible's check mode). -/
structure Params where
  service : List String
  port : List String
  trust : List String
  masq : List String
  forward_port : List String
  zone : Option String
  state : String
  check_mode : Bool

/-- The setup part of `main` (source lines 240-278): parse the port and
forward-port strings, require a running daemon, validate an explicitly
given zone against both layers' zone lists (an absent zone name defaults
to the daemon's default zone without validation), and fetch the nominal
zone's settings object. -/
def resolveNominalZone (p : Params) : M String :=
  match p.zone with
  | some z => do
      let e ← getEng
      if !((e.ds.runtime.map Prod.fst).contains z) then
        failJson (.unknownZoneRuntime z)
      if !((e.ds.permanent.map Prod.fst).contains z) then
        failJson (.unknownZonePermanent z)
      pure z
  | none => do
      let e ← getEng
      pure e.ds.defaultZone

def setupPhase (p : Params) : M (String × Nat × List PortProto × List ParsedFwd) := do
  let ports ← liftE (parsePorts p.port)
  let fwds ← liftE (parseFwds p.forward_port)
  let e ← getEng
  if !e.ds.connected then
    failJson (.daemonFault "firewalld service must be running")
  let zone ← resolveNominalZone p
  getZoneByName zone
  let fwRef ← getSettings zone
  pure (zone, fwRef, ports, fwds)

/-- The reconciliation part of `main` (source lines 283-442): the five
category loops in their fixed order. -/
def rulesPhase (checkMode : Bool) (nm : NMModel) (zone : String) (fwRef : Nat)
    (desired : String) (service : List String) (ports : List PortProto)
    (trust masq : List String) (fwds : List ParsedFwd) : M Unit := do
  processService zone fwRef desired service
  processPort zone fwRef desired ports
  categoryBlock checkMode nm zone fwRef "trusted" desired trust
  categoryBlock checkMode nm zone fwRef "external" desired masq
  processForwardPort zone fwRef desired fwds

/-- The final part of `main` (source lines 444-454): commit all mutated
zones if anything changed, then exit with the aggregate flag. -/
def finishPhase : M Unit := do
  let e ← getEng
  if e.changed then do
    commitAll e.changedZones
    exitJson true
  exitJson false

/-- `main()`, from parameter parsing to `exit_json`. -/
def mainM (p : Params) (nm : NMModel) : M Unit := do
  let (zone, fwRef, ports, fwds) ← setupPhase p
  rulesPhase p.check_mode nm zone fwRef p.state p.service ports p.trust p.masq fwds
  finishPhase

/-- The reported result of one invocation. -/
inductive Outcome
  | ok (changed : Bool)
  | failed (e : Err)
deriving DecidableEq, Repr

/-- Result of one invocation: outcome plus the final engine state. -/
structure RunResult where
  outcome : Outcome
  eng : Engine
deriving DecidableEq, Repr

def initEngine (ds : DaemonState) : Engine :=
  ⟨ds, [], [], 0, false, []⟩

/-- Run `main` against a daemon state.  `mainM` always terminates through
`exit_json` or `fail_json`; the `.ok` branch is unreachable. -/
def runMain (p : Params) (nm : NMModel) (ds : DaemonState) : RunResult :=
  match mainM p nm (initEngine ds) with
  | (Except.error (.exit b), e) => ⟨.ok b, e⟩
  | (Except.error (.fail err), e) => ⟨.failed err, e⟩
  | (Except.ok _, e) => ⟨.ok false, e⟩

/-! ## Evaluation lemmas for the engine monad -/

theorem bind_eval {α β : Type} (x : M α) (f : α → M β) (e : Engine) :
    (x >>= f) e
      = match x e with
        | (Except.ok a, e') => f a e'
        | (Except.error s, e') => (Except.error s, e') := rfl

theorem pure_eval {α : Type} (a : α) (e : Engine) :
    (pure a : M α) e = (Except.ok a, e) := rfl

theorem getEng_eval (e : Engine) : getEng e = (Except.ok e, e) := rfl

theorem failJson_eval {α : Type} (err : Err) (e : Engine) :
    (failJson err : M α) e = (Except.error (.fail err), e) := rfl

theorem exitJson_eval {α : Type} (b : Bool) (e : Engine) :
    (exitJson b : M α) e = (Except.error (.exit b), e) := rfl

theorem modifyEng_eval (f : Engine → Engine) (e : Engine) :
    modifyEng f e = (Except.ok (), f e) := rfl

/-! ## Evaluation lemmas for the daemon primitives -/

theorem getRuntimeZone_eval {z : String} {e : Engine} {r : ZoneRuntime}
    (h : alookup z e.ds.runtime = some r) : getRuntimeZone z e = (Except.ok r, e) := by
  simp [getRuntimeZone, bind_eval, getEng_eval, h, pure_eval]

theorem getRuntimeZone_fail {z : String} {e : Engine}
    (h : alookup z e.ds.runtime = none) :
    getRuntimeZone z e = (Except.error (.fail (.daemonFault ("INVALID_ZONE: " ++ z))), e) := by
  simp [getRuntimeZone, bind_eval, getEng_eval, h, failJson_eval]

theorem queryService_eval {z : String} {e : Engine} {r : ZoneRuntime} (item : String)
    (h : alookup z e.ds.runtime = some r) :
    queryService z item e = (Except.ok (r.services.contains item), e) := by
  simp [queryService, bind_eval, getRuntimeZone_eval h, pure_eval]

theorem addService_eval {z : String} {e : Engine} {r : ZoneRuntime} (item : String)
    (h : alookup z e.ds.runtime = some r) :
    addService z item e =
      (Except.ok (),
       { e with ds := { e.ds with runtime := aset z { r with services := r.services ++ [item] } e.ds.runtime },
                trace := e.trace ++ [.addService z item] }) := by
  simp [addService, bind_eval, getRuntimeZone_eval h, setRuntimeZone, modifyEng_eval,
    emit, pure_eval]

theorem removeService_eval {z : String} {e : Engine} {r : ZoneRuntime} (item : String)
    (h : alookup z e.ds.runtime = some r) :
    removeService z item e =
      (Except.ok (),
       { e with ds := { e.ds with runtime := aset z { r with services := r.services.erase item } e.ds.runtime },
                trace := e.trace ++ [.removeService z item] }) := by
  simp [removeService, bind_eval, getRuntimeZone_eval h, setRuntimeZone, modifyEng_eval,
    emit, pure_eval]

theorem queryPort_eval {z : String} {e : Engine} {r : ZoneRuntime} (p proto : String)
    (h : alookup z e.ds.runtime = some r) :
    queryPort z p proto e = (Except.ok (r.ports.contains (p, proto)), e) := by
  simp [queryPort, bind_eval, getRuntimeZone_eval h, pure_eval]

theorem addPort_eval {z : String} {e : Engine} {r : ZoneRuntime} (p proto : String)
    (h : alookup z e.ds.runtime = some r) :
    addPort z p proto e =
      (Except.ok (),
       { e with ds := { e.ds with runtime := aset z { r with ports := r.ports ++ [(p, proto)] } e.ds.runtime },
                trace := e.trace ++ [.addPort z p proto] }) := by
  simp [addPort, bind_eval, getRuntimeZone_eval h, setRuntimeZone, modifyEng_eval,
    emit, pure_eval]

theorem removePort_eval {z : String} {e : Engine} {r : ZoneRuntime} (p proto : String)
    (h : alookup z e.ds.runtime = some r) :
    removePort z p proto e =
      (Except.ok (),
       { e with ds := { e.ds with runtime := aset z { r with ports := r.ports.erase (p, proto) } e.ds.runtime },
                trace := e.trace ++ [.removePort z p proto] }) := by
  simp [removePort, bind_eval, getRuntimeZone_eval h, setRuntimeZone, modifyEng_eval,
    emit, pure_eval]

theorem queryInterface_eval {z : String} {e : Engine} {r : ZoneRuntime} (iface : String)
    (h : alookup z e.ds.runtime = some r) :
    queryInterface z iface e =
      (Except.ok (decide (alookup iface e.ds.ifaceZone = some z)), e) := by
  simp [queryInterface, bind_eval, getRuntimeZone_eval h, getEng_eval, pure_eval]

theorem changeZoneOfInterface_eval {z : String} {e : Engine} {r : ZoneRuntime} (iface : String)
    (h : alookup z e.ds.runtime = some r) :
    changeZoneOfInterface z iface e =
      (Except.ok (),
       { e with ds := { e.ds with ifaceZone := aset iface z e.ds.ifaceZone },
                trace := e.trace ++ [.changeZoneOfInterface z iface] }) := by
  simp [changeZoneOfInterface, bind_eval, getRuntimeZone_eval h, modifyEng_eval,
    emit, pure_eval]

theorem removeInterface_eval {z : String} {e : Engine} {r : ZoneRuntime} (iface : String)
    (h : alookup z e.ds.runtime = some r) :
    removeInterface z iface e =
      (Except.ok (),
       { e with ds := { e.ds with ifaceZone :=
            (if alookup iface e.ds.ifaceZone = some z then aerase iface e.ds.ifaceZone
             else e.ds.ifaceZone) },
                trace := e.trace ++ [.removeInterface z iface] }) := by
  simp [removeInterface, bind_eval, getRuntimeZone_eval h, modifyEng_eval, emit, pure_eval]

theorem getZoneOfInterface_eval (iface : String) (e : Engine) :
    getZoneOfInterface iface e =
      (Except.ok ((alookup iface e.ds.ifaceZone).getD ""), e) := by
  simp [getZoneOfInterface, bind_eval, getEng_eval, pure_eval]

theorem queryForwardPort_eval {z : String} {e : Engine} {r : ZoneRuntime} (fp : FwdPort)
    (h : alookup z e.ds.runtime = some r) :
    queryForwardPort z fp e = (Except.ok (r.forwardPorts.contains fp), e) := by
  simp [queryForwardPort, bind_eval, getRuntimeZone_eval h, pure_eval]

theorem addForwardPort_eval {z : String} {e : Engine} {r : ZoneRuntime} (fp : FwdPort)
    (h : alookup z e.ds.runtime = some r) :
    addForwardPort z fp e =
      (Except.ok (),
       { e with ds := { e.ds with runtime := aset z { r with forwardPorts := r.forwardPorts ++ [fp] } e.ds.runtime },
                trace := e.trace ++ [.addForwardPort z fp] }) := by
  simp [addForwardPort, bind_eval, getRuntimeZone_eval h, setRuntimeZone, modifyEng_eval,
    emit, pure_eval]

theorem removeForwardPort_eval {z : String} {e : Engine} {r : ZoneRuntime} (fp : FwdPort)
    (h : alookup z e.ds.runtime = some r) :
    removeForwardPort z fp e =
      (Except.ok (),
       { e with ds := { e.ds with runtime := aset z { r with forwardPorts := r.forwardPorts.erase fp } e.ds.runtime },
                trace := e.trace ++ [.removeForwardPort z fp] }) := by
  simp [removeForwardPort, bind_eval, getRuntimeZone_eval h, setRuntimeZone, modifyEng_eval,
    emit, pure_eval]

theorem getZoneByName_eval {z : String} {e : Engine} {s : ZoneSettings}
    (h : alookup z e.ds.permanent = some s) : getZoneByName z e = (Except.ok (), e) := by
  simp [getZoneByName, bind_eval, getEng_eval, h, pure_eval]

theorem getZoneByName_fail {z : String} {e : Engine}
    (h : alookup z e.ds.permanent = none) :
    getZoneByName z e
      = (Except.error (.fail (.daemonFault ("INVALID_ZONE (config): " ++ z))), e) := by
  simp [getZoneByName, bind_eval, getEng_eval, h, failJson_eval]

theorem getSettings_eval {z : String} {e : Engine} {s : ZoneSettings}
    (h : alookup z e.ds.permanent = some s) :
    getSettings z e =
      (Except.ok e.nextRef,
       { e with heap := aset e.nextRef s e.heap, nextRef := e.nextRef + 1,
                trace := e.trace ++ [.getSettings z] }) := by
  simp [getSettings, bind_eval, getEng_eval, h, modifyEng_eval, emit, pure_eval]

theorem readRef_eval {r : Nat} {e : Engine} {s : ZoneSettings}
    (h : alookup r e.heap = some s) : readRef r e = (Except.ok s, e) := by
  simp [readRef, bind_eval, getEng_eval, h, pure_eval]

theorem writeRef_eval (r : Nat) (s : ZoneSettings) (e : Engine) :
    writeRef r s e = (Except.ok (), { e with heap := aset r s e.heap }) := rfl

theorem settingsQueryService_eval {r : Nat} {e : Engine} {s : ZoneSettings} (item : String)
    (h : alookup r e.heap = some s) :
    settingsQueryService r item e = (Except.ok (s.services.contains item), e) := by
  simp [settingsQueryService, bind_eval, readRef_eval h, pure_eval]

theorem settingsAddService_eval {r : Nat} {e : Engine} {s : ZoneSettings} (item : String)
    (h : alookup r e.heap = some s) :
    settingsAddService r item e =
      (Except.ok (), { e with heap := aset r { s with services := s.services ++ [item] } e.heap }) := by
  simp [settingsAddService, bind_eval, readRef_eval h, writeRef_eval]

theorem settingsRemoveService_eval {r : Nat} {e : Engine} {s : ZoneSettings} (item : String)
    (h : alookup r e.heap = some s) :
    settingsRemoveService r item e =
      (Except.ok (), { e with heap := aset r { s with services := s.services.erase item } e.heap }) := by
  simp [settingsRemoveService, bind_eval, readRef_eval h, writeRef_eval]

theorem settingsQueryPort_eval {r : Nat} {e : Engine} {s : ZoneSettings} (p proto : String)
    (h : alookup r e.heap = some s) :
    settingsQueryPort r p proto e = (Except.ok (s.ports.contains (p, proto)), e) := by
  simp [settingsQueryPort, bind_eval, readRef_eval h, pure_eval]

theorem settingsAddPort_eval {r : Nat} {e : Engine} {s : ZoneSettings} (p proto : String)
    (h : alookup r e.heap = some s) :
    settingsAddPort r p proto e =
      (Except.ok (), { e with heap := aset r { s with ports := s.ports ++ [(p, proto)] } e.heap }) := by
  simp [settingsAddPort, bind_eval, readRef_eval h, writeRef_eval]

theorem settingsRemovePort_eval {r : Nat} {e : Engine} {s : ZoneSettings} (p proto : String)
    (h : alookup r e.heap = some s) :
    settingsRemovePort r p proto e =
      (Except.ok (), { e with heap := aset r { s with ports := s.ports.erase (p, proto) } e.heap }) := by
  simp [settingsRemovePort, bind_eval, readRef_eval h, writeRef_eval]

theorem settingsQueryInterface_eval {r : Nat} {e : Engine} {s : ZoneSettings} (iface : String)
    (h : alookup r e.heap = some s) :
    settingsQueryInterface r iface e = (Except.ok (s.interfaces.contains iface), e) := by
  simp [settingsQueryInterface, bind_eval, readRef_eval h, pure_eval]

theorem settingsAddInterface_eval {r : Nat} {e : Engine} {s : ZoneSettings} (iface : String)
    (h : alookup r e.heap = some s) :
    settingsAddInterface r iface e =
      (Except.ok (), { e with heap := aset r { s with interfaces := s.interfaces ++ [iface] } e.heap }) := by
  simp [settingsAddInterface, bind_eval, readRef_eval h, writeRef_eval]

theorem settingsRemoveInterface_eval {r : Nat} {e : Engine} {s : ZoneSettings} (iface : String)
    (h : alookup r e.heap = some s) :
    settingsRemoveInterface r iface e =
      (Except.ok (), { e with heap := aset r { s with interfaces := s.interfaces.erase iface } e.heap }) := by
  simp [settingsRemoveInterface, bind_eval, readRef_eval h, writeRef_eval]

theorem settingsQueryForwardPort_eval {r : Nat} {e : Engine} {s : ZoneSettings} (fp : FwdPort)
    (h : alookup r e.heap = some s) :
    settingsQueryForwardPort r fp e = (Except.ok (s.forwardPorts.contains fp), e) := by
  simp [settingsQueryForwardPort, bind_eval, readRef_eval h, pure_eval]

theorem settingsAddForwardPort_eval {r : Nat} {e : Engine} {s : ZoneSettings} (fp : FwdPort)
    (h : alookup r e.heap = some s) :
    settingsAddForwardPort r fp e =
      (Except.ok (), { e with heap := aset r { s with forwardPorts := s.forwardPorts ++ [fp] } e.heap }) := by
  simp [settingsAddForwardPort, bind_eval, readRef_eval h, writeRef_eval]

theorem settingsRemoveForwardPort_eval {r : Nat} {e : Engine} {s : ZoneSettings} (fp : FwdPort)
    (h : alookup r e.heap = some s) :
    settingsRemoveForwardPort r fp e =
      (Except.ok (), { e with heap := aset r { s with forwardPorts := s.forwardPorts.erase fp } e.heap }) := by
  simp [settingsRemoveForwardPort, bind_eval, readRef_eval h, writeRef_eval]

theorem setChanged_eval (e : Engine) :
    setChanged e = (Except.ok (), { e with changed := true }) := rfl

theorem registerChanged_eval (z : String) (r : Nat) (e : Engine) :
    registerChanged z r e = (Except.ok (), { e with changedZones := aset z r e.changedZones }) := rfl

theorem emit_eval (c : Call) (e : Engine) :
    emit c e = (Except.ok (), { e with trace := e.trace ++ [c] }) := rfl

theorem update_eval {z : String} {e : Engine} {s0 s : ZoneSettings} {r : Nat}
    (hz : alookup z e.ds.permanent = some s0)
    (hr : alookup r e.heap = some s) :
    update z r e =
      (Except.ok (),
       { e with ds := { e.ds with permanent := aset z s e.ds.permanent },
                trace := e.trace ++ [.update z s] }) := by
  simp [update, bind_eval, getZoneByName_eval hz, readRef_eval hr, modifyEng_eval,
    emit, pure_eval]

/-! ## Association-list lemmas -/

theorem aset_cons_pos {α β : Type} [DecidableEq α] {k : α} {hd : α × β} (v : β)
    (t : List (α × β)) (hk : k = hd.1) : aset k v (hd :: t) = (k, v) :: t := by
  simp [aset, hk]

theorem aset_cons_neg {α β : Type} [DecidableEq α] {k : α} {hd : α × β} (v : β)
    (t : List (α × β)) (hk : ¬ k = hd.1) : aset k v (hd :: t) = hd :: aset k v t := by
  simp [aset, hk]

theorem alookup_cons_pos {α β : Type} [DecidableEq α] {k : α} {hd : α × β}
    (t : List (α × β)) (hk : k = hd.1) : alookup k (hd :: t) = some hd.2 := by
  simp [alookup, hk]

theorem alookup_cons_neg {α β : Type} [DecidableEq α] {k : α} {hd : α × β}
    (t : List (α × β)) (hk : ¬ k = hd.1) : alookup k (hd :: t) = alookup k t := by
  simp [alookup, hk]

theorem alookup_aset_self {α β : Type} [DecidableEq α] (k : α) (v : β)
    (l : List (α × β)) : alookup k (aset k v l) = some v := by
  induction l with
  | nil => simp [aset, alookup]
  | cons hd t ih =>
      by_cases hk : k = hd.1
      · rw [aset_cons_pos v t hk]
        simp [alookup]
      · rw [aset_cons_neg v t hk, alookup_cons_neg _ hk]
        exact ih

theorem alookup_aset_ne {α β : Type} [DecidableEq α] {k k' : α} (v : β)
    (l : List (α × β)) (h : k ≠ k') : alookup k (aset k' v l) = alookup k l := by
  induction l with
  | nil => simp [aset, alookup, h]
  | cons hd t ih =>
      by_cases hk : k' = hd.1
      · rw [aset_cons_pos v t hk, alookup_cons_neg _ (hk ▸ h),
          alookup_cons_neg _ (fun hh => h (hh.trans hk.symm))]
      · rw [aset_cons_neg v t hk]
        by_cases hkk : k = hd.1
        · rw [alookup_cons_pos _ hkk, alookup_cons_pos _ hkk]
        · rw [alookup_cons_neg _ hkk, alookup_cons_neg _ hkk]
          exact ih

theorem alookup_isSome_aset {α β : Type} [DecidableEq α] {r : α} {l : List (α × β)}
    (k : α) (v : β) (h : (alookup r l).isSome) : (alookup r (aset k v l)).isSome := by
  by_cases hk : r = k
  · subst hk; simp [alookup_aset_self]
  · rw [alookup_aset_ne v l hk]; exact h

theorem aset_keys {α β : Type} [DecidableEq α] (k : α) (v : β) (l : List (α × β)) :
    (aset k v l).map Prod.fst
      = if k ∈ l.map Prod.fst then l.map Prod.fst else l.map Prod.fst ++ [k] := by
  induction l with
  | nil => simp [aset]
  | cons hd t ih =>
      by_cases hk : k = hd.1
      · rw [aset_cons_pos v t hk]
        simp [hk]
      · rw [aset_cons_neg v t hk]
        simp only [List.map_cons, ih]
        by_cases hmem : k ∈ t.map Prod.fst
        · simp [hmem, hk]
        · simp [hmem, hk]

theorem aset_keys_nodup {α β : Type} [DecidableEq α] (k : α) (v : β)
    (l : List (α × β)) (h : (l.map Prod.fst).Nodup) :
    ((aset k v l).map Prod.fst).Nodup := by
  rw [aset_keys]
  split
  · exact h
  · next hmem => simp [List.nodup_append, h, hmem]

theorem alookup_mem {α β : Type} [DecidableEq α] {k : α} {v : β} {l : List (α × β)}
    (h : alookup k l = some v) : (k, v) ∈ l := by
  induction l with
  | nil => simp [alookup] at h
  | cons hd t ih =>
      by_cases hk : k = hd.1
      · rw [alookup_cons_pos _ hk] at h
        cases hd
        simp at hk h
        simp [hk, h]
      · rw [alookup_cons_neg _ hk] at h
        exact List.mem_cons_of_mem _ (ih h)

theorem countP_key_eq_one {α β : Type} [DecidableEq α] {z : α} {r : β}
    {l : List (α × β)} (hn : (l.map Prod.fst).Nodup) (h : alookup z l = some r) :
    l.countP (fun zr => decide (zr.1 = z)) = 1 := by
  induction l with
  | nil => simp [alookup] at h
  | cons hd t ih =>
      rw [List.map_cons, List.nodup_cons] at hn
      by_cases hk : z = hd.1
      · have h0 : List.countP (fun zr => decide (zr.1 = z)) t = 0 := by
          rw [List.countP_eq_zero]
          intro zr hmem
          simp only [decide_eq_true_eq]
          intro hfst
          exact hn.1 (hk ▸ hfst ▸ List.mem_map_of_mem Prod.fst hmem)
        rw [List.countP_cons, h0]
        simp [hk]
      · rw [alookup_cons_neg _ hk] at h
        have hne : ¬ hd.1 = z := fun hh => hk hh.symm
        rw [List.countP_cons]
        simp [hne, ih hn.2 h]

/-! ## Characterization of the setup phase -/

/-- Successful setup with an explicitly given zone: parsing succeeds, the
daemon is connected, the zone passes both list checks, and its settings
are fetched into fresh object `0`. -/
theorem setupPhase_ok {p : Params} {d : DaemonState} {z : String} {s0 : ZoneSettings}
    {ports : List PortProto} {fwds : List ParsedFwd}
    (hz : p.zone = some z)
    (hp : parsePorts p.port = .ok ports)
    (hf : parseFwds p.forward_port = .ok fwds)
    (hc : d.connected = true)
    (h1 : (d.runtime.map Prod.fst).contains z = true)
    (h2 : (d.permanent.map Prod.fst).contains z = true)
    (hs0 : alookup z d.permanent = some s0) :
    setupPhase p (initEngine d)
      = (Except.ok (z, 0, ports, fwds),
         ⟨d, [.getSettings z], [(0, s0)], 1, false, []⟩) := by
  have hzb : getZoneByName z (initEngine d) = (Except.ok (), initEngine d) :=
    getZoneByName_eval (e := initEngine d) hs0
  have hgs : getSettings z (initEngine d)
      = (Except.ok 0, ⟨d, [.getSettings z], [(0, s0)], 1, false, []⟩) := by
    rw [getSettings_eval (e := initEngine d) hs0]
    simp [initEngine, aset]
  simp [setupPhase, resolveNominalZone, liftE, bind_eval, pure_eval, getEng_eval, initEngine, hp, hf, hc,
    hz, ite_apply]
  rw [h1, h2]
  simp only [Bool.not_true, Bool.false_eq_true, if_false]
  rw [show (initEngine d) = (⟨d, [], [], 0, false, []⟩ : Engine) from rfl] at hzb hgs
  simp [hzb, hgs]

/-- Successful setup with no explicit zone: the daemon's default zone is
used without any zone-list validation. -/
theorem setupPhase_default {p : Params} {d : DaemonState} {s0 : ZoneSettings}
    {ports : List PortProto} {fwds : List ParsedFwd}
    (hz : p.zone = none)
    (hp : parsePorts p.port = .ok ports)
    (hf : parseFwds p.forward_port = .ok fwds)
    (hc : d.connected = true)
    (hs0 : alookup d.defaultZone d.permanent = some s0) :
    setupPhase p (initEngine d)
      = (Except.ok (d.defaultZone, 0, ports, fwds),
         ⟨d, [.getSettings d.defaultZone], [(0, s0)], 1, false, []⟩) := by
  have hzb : getZoneByName d.defaultZone (initEngine d) = (Except.ok (), initEngine d) :=
    getZoneByName_eval (e := initEngine d) hs0
  have hgs : getSettings d.defaultZone (initEngine d)
      = (Except.ok 0, ⟨d, [.getSettings d.defaultZone], [(0, s0)], 1, false, []⟩) := by
    rw [getSettings_eval (e := initEngine d) hs0]
    simp [initEngine, aset]
  simp [setupPhase, resolveNominalZone, liftE, bind_eval, pure_eval, getEng_eval, initEngine, hp, hf, hc, hz]
  rw [show (initEngine d) = (⟨d, [], [], 0, false, []⟩ : Engine) from rfl] at hzb hgs
  simp [hzb, hgs]

/-! ## Concrete fixtures used by the claim analyses -/

/-- NetworkManager integration absent (`HAS_FIREWALLD_NM = False`). -/
def nmOff : NMModel := ⟨false, false, fun _ => .noConn⟩

/-- NetworkManager active with a connection for every interface, and
`nm_set_zone_of_connection` succeeding. -/
def nmFast : NMModel := ⟨true, true, fun _ => .conn false⟩

/-- NetworkManager active with a connection for every interface, but
`nm_set_zone_of_connection` raising. -/
def nmRaise : NMModel := ⟨true, true, fun _ => .conn true⟩

def emptyRt : ZoneRuntime := ⟨[], [], []⟩

def emptySettings : ZoneSettings := ⟨[], [], [], []⟩

/-- A one-zone daemon fixture for exercising the round-trip law. -/
def c9ds : DaemonState :=
  ⟨true, "public", [("public", emptyRt)], [], [("public", emptySettings)]⟩

/-- Parameters enabling or disabling a single rule of one category,
against an explicit nominal zone, outside check mode. -/
def svcParams (st : String) : Params := ⟨["https"], [], [], [], [], some "public", st, false⟩

def trustParams (st : String) : Params := ⟨[], [], ["eth0"], [], [], some "public", st, false⟩

def fwdParams (st : String) : Params :=
  ⟨[], [], [], [], ["eth0;80/tcp;;"], some "public", st, false⟩

/-! ## Claim C1 — the changed flag on runtime service removal -/

/-- C1 (code evaluation at the failing input): the Dual-Layer Reconciler
does NOT mark the runtime layer as changed when it removes a present
service under intent `disabled`.  On a state where zone `public` has
service `https` in the runtime layer only, the run issues the
`removeService` call (so the runtime layer is mutated) yet reports
`changed = false`: the source's service/disabled branch lacks the
`changed = True` assignment that every other category has. -/
theorem c1_service_removal_unreported :
    (runMain (svcParams "disabled") nmOff
        ⟨true, "public", [("public", ⟨["https"], [], []⟩)], [], [("public", emptySettings)]⟩).outcome
      = .ok false ∧
    (runMain (svcParams "disabled") nmOff
        ⟨true, "public", [("public", ⟨["https"], [], []⟩)], [], [("public", emptySettings)]⟩).eng.trace
      = [.getSettings "public", .removeService "public" "https"] ∧
    (runMain (svcParams "disabled") nmOff
        ⟨true, "public", [("public", ⟨["https"], [], []⟩)], [], [("public", emptySettings)]⟩).eng.ds.runtime
      = [("public", emptyRt)] :=
  ⟨rfl, rfl, rfl⟩

/-! ## Claim C7 — port string parsing -/

/-- C7 (code evaluation at the failing inputs): `"80/tcp"` parses to the
pair `("80", "tcp")` as the claim states, but `"80"` (no `/`) does not
produce a `MalformedRule` failure — the tuple unpacking of
`port_proto.split("/")` raises an uncaught `ValueError` (the source's
`if _protocol is None` guard is unreachable) — and `"80/"` (empty
protocol) is accepted as `("80", "")` instead of being rejected.  The
port field of ForwardPort strings behaves the same way. -/
theorem c7_port_parse_eval :
    parse_port "80/tcp" = .ok ("80", "tcp") ∧
    parse_port "80" = .error (.pyError "ValueError: unpacking split of 80") ∧
    parse_port "80/" = .ok ("80", "") ∧
    parse_forward_port "eth0;80;;" none
      = .error (.pyError "ValueError: unpacking split of 80") ∧
    parse_forward_port "eth0;80/;;" none = .ok ("eth0", "80", "", none, none) :=
  ⟨rfl, rfl, rfl, rfl, rfl⟩

/-! ## Claim C8 — forward-port string parsing -/

/-- C8: `parse_forward_port` splits on `;`; exactly 4 fields give an
explicit interface, exactly 3 give the empty interface, any other count
is a `MalformedRule` failure, empty to-port/to-addr normalize to `none`,
and the two example strings of the specification parse as stated. -/
theorem c8_forward_port_parsing :
    parse_forward_port "eth0;8080/tcp;9090;10.0.0.5" none
      = .ok ("eth0", "8080", "tcp", some "9090", some "10.0.0.5") ∧
    parse_forward_port "8080/tcp;;" none = .ok ("", "8080", "tcp", none, none) ∧
    (∀ item a b c d, pySplit ';' item = [a, b, c, d] →
      parse_forward_port item none = parseFwdFields a b c d) ∧
    (∀ item a b c, pySplit ';' item = [a, b, c] →
      parse_forward_port item none = parseFwdFields "" a b c) ∧
    (∀ item, (pySplit ';' item).length ≠ 4 → (pySplit ';' item).length ≠ 3 →
      parse_forward_port item none
        = .error (.malformedRule ("improper forward_port format: " ++ item))) := by
  refine ⟨rfl, rfl, ?_, ?_, ?_⟩
  · intro item a b c d h
    simp [parse_forward_port, h]
  · intro item a b c h
    simp [parse_forward_port, h]
  · intro item h4 h3
    unfold parse_forward_port
    rcases h : pySplit ';' item with _ | ⟨a, _ | ⟨b, _ | ⟨c, _ | ⟨d, _ | e⟩⟩⟩⟩ <;>
      simp_all

/-- C8 witness: the general clauses of `c8_forward_port_parsing`
instantiated at concrete strings. -/
theorem c8_forward_port_parsing_witness :
    parse_forward_port "eth0;1/t;2;3" none = parseFwdFields "eth0" "1/t" "2" "3" ∧
    parse_forward_port "1/t;2;3" none = parseFwdFields "" "1/t" "2" "3" ∧
    parse_forward_port "a;b" none
      = .error (.malformedRule ("improper forward_port format: " ++ "a;b")) :=
  ⟨c8_forward_port_parsing.2.2.1 "eth0;1/t;2;3" "eth0" "1/t" "2" "3" rfl,
   c8_forward_port_parsing.2.2.2.1 "1/t;2;3" "1/t" "2" "3" rfl,
   c8_forward_port_parsing.2.2.2.2 "a;b" (by decide) (by decide)⟩

/-! ## Claim C2 — idempotence, counterexample under the fast path -/

/-- C2 counterexample: with the connection-manager fast path available, a
trust rule under intent `enabled` reports `changed = true` on the second
run as well — `try_set_zone_of_interface` returns true whenever a
connection exists, regardless of the zone it already has — so the claim's
"changed = false on the second run ... including when the
connection-manager fast-path is available" is false. -/
theorem c2_counterexample :
    (runMain (trustParams "enabled") nmFast
        ⟨true, "public", [("public", emptyRt), ("trusted", emptyRt)], [],
         [("public", emptySettings), ("trusted", emptySettings)]⟩).outcome = .ok true ∧
    (runMain (trustParams "enabled") nmFast
        ((runMain (trustParams "enabled") nmFast
          ⟨true, "public", [("public", emptyRt), ("trusted", emptyRt)], [],
           [("public", emptySettings), ("trusted", emptySettings)]⟩).eng.ds)).outcome
      = .ok true :=
  ⟨rfl, rfl⟩

/-! ## Claim C3 — settings fetched at most once, counterexample -/

/-- C3 counterexample: a zone's permanent settings object can be fetched
twice in one pass.  Two forward-port rules resolve to zone `dmz` (via
interface `eth0`); with intent `disabled` and the rules absent, the first
rule fetches `dmz`'s settings but makes no mutation, so `dmz` is never
registered in `changed_zones` and the second rule fetches the settings
again: the trace holds two `getSettings "dmz"` calls. -/
theorem c3_counterexample :
    ((runMain ⟨[], [], [], [], ["eth0;80/tcp;;", "eth0;81/tcp;;"], some "public",
        "disabled", false⟩ nmOff
        ⟨true, "public", [("public", emptyRt), ("dmz", emptyRt)], [("eth0", "dmz")],
         [("public", emptySettings), ("dmz", emptySettings)]⟩).eng.trace.count
      (.getSettings "dmz")) = 2 ∧
    (runMain ⟨[], [], [], [], ["eth0;80/tcp;;", "eth0;81/tcp;;"], some "public",
        "disabled", false⟩ nmOff
        ⟨true, "public", [("public", emptyRt), ("dmz", emptyRt)], [("eth0", "dmz")],
         [("public", emptySettings), ("dmz", emptySettings)]⟩).outcome = .ok false :=
  ⟨rfl, rfl⟩

/-! ## Claim C4 — unknown-zone validation, counterexample -/

/-- C4 counterexample: the fixed `trusted` zone is not validated against
the zone lists.  With zone `trusted` absent from both layers, a trust
rule does not fail with an UnknownZone error; the failure surfaces later
as a daemon fault from `fw.config().getZoneByName("trusted")`. -/
theorem c4_counterexample :
    (runMain (trustParams "enabled") nmOff
        ⟨true, "public", [("public", emptyRt)], [], [("public", emptySettings)]⟩).outcome
      = .failed (.daemonFault "INVALID_ZONE (config): trusted") :=
  rfl

/-! ## Claim C5 — unowned-interface forward-port rules, counterexample -/

/-- C5 counterexample: a forward-port rule whose interface is unowned is
NOT applied to the nominal zone.  The zone lookup yields `""` and the
runtime query is issued against the zone named `""`, which faults; the
nominal zone `public` is left untouched and no runtime operation targets
it. -/
theorem c5_counterexample :
    (runMain (fwdParams "enabled") nmOff
        ⟨true, "public", [("public", emptyRt)], [], [("public", emptySettings)]⟩).outcome
      = .failed (.daemonFault "INVALID_ZONE: ") ∧
    (runMain (fwdParams "enabled") nmOff
        ⟨true, "public", [("public", emptyRt)], [], [("public", emptySettings)]⟩).eng.ds
      = ⟨true, "public", [("public", emptyRt)], [], [("public", emptySettings)]⟩ :=
  ⟨rfl, rfl⟩

/-! ## Claim C6 — the fast path can raise, counterexample -/

/-- C6 counterexample: `try_set_zone_of_interface` is not exception
free: when the connection lookup succeeds but setting the connection's
zone attribute fails, the failure propagates (the `nm_set_zone_of_connection`
call sits outside the `try` block), and a trust rule then aborts the
whole run with that error instead of falling back to the daemon path. -/
theorem c6_counterexample :
    try_set_zone_of_interface nmRaise "trusted" "eth0" = .raised ∧
    (runMain (trustParams "enabled") nmRaise
        ⟨true, "public", [("public", emptyRt), ("trusted", emptyRt)], [],
         [("public", emptySettings), ("trusted", emptySettings)]⟩).outcome
      = .failed (.pyError "nm_set_zone_of_connection raised") :=
  ⟨rfl, rfl⟩

/-- C6 amended: lookup failures and an absent or inactive integration are
swallowed — `try_set_zone_of_interface` returns `false` when
`HAS_FIREWALLD_NM` is false, when `nm_is_imported()` is false, when the
interface has no connection, and when the connection lookup raises — but
a failure of `nm_set_zone_of_connection` (setting the connection's zone
attribute) is NOT swallowed: it propagates out of the function. -/
theorem c6_amended :
    (∀ (nm : NMModel) (z i : String), nm.hasFirewalldNM = false →
      try_set_zone_of_interface nm z i = .ok false) ∧
    (∀ (nm : NMModel) (z i : String), nm.imported = false →
      try_set_zone_of_interface nm z i = .ok false) ∧
    (∀ (nm : NMModel) (z i : String), nm.connOf i = .noConn →
      try_set_zone_of_interface nm z i = .ok false) ∧
    (∀ (nm : NMModel) (z i : String), nm.connOf i = .lookupRaises →
      try_set_zone_of_interface nm z i = .ok false) ∧
    (∀ (nm : NMModel) (z i : String), nm.hasFirewalldNM = true → nm.imported = true →
      nm.connOf i = .conn true → try_set_zone_of_interface nm z i = .raised) := by
  refine ⟨?_, ?_, ?_, ?_, ?_⟩ <;>
    intro nm z i <;> intros <;>
    simp_all [try_set_zone_of_interface]

/-- C6 amended, witness: the clauses of `c6_amended` at concrete models. -/
theorem c6_amended_witness :
    try_set_zone_of_interface nmOff "trusted" "eth0" = .ok false ∧
    try_set_zone_of_interface ⟨true, false, fun _ => .conn false⟩ "trusted" "eth0" = .ok false ∧
    try_set_zone_of_interface ⟨true, true, fun _ => .noConn⟩ "trusted" "eth0" = .ok false ∧
    try_set_zone_of_interface ⟨true, true, fun _ => .lookupRaises⟩ "trusted" "eth0" = .ok false ∧
    try_set_zone_of_interface nmRaise "trusted" "eth0" = .raised :=
  ⟨c6_amended.1 nmOff "trusted" "eth0" rfl,
   c6_amended.2.1 ⟨true, false, fun _ => .conn false⟩ "trusted" "eth0" rfl,
   c6_amended.2.2.1 ⟨true, true, fun _ => .noConn⟩ "trusted" "eth0" rfl,
   c6_amended.2.2.2.1 ⟨true, true, fun _ => .lookupRaises⟩ "trusted" "eth0" rfl,
   c6_amended.2.2.2.2 nmRaise "trusted" "eth0" rfl rfl rfl⟩

/-! ## Claim C9 — enabled-then-disabled round trip, counterexample -/

/-- C9 counterexample: the round-trip law fails when the rule is already
present: with service `https` present in both layers, `enabled` is a
no-op and `disabled` then removes the service from both layers, so the
final state differs from the initial one. -/
theorem c9_counterexample :
    (runMain (svcParams "enabled") nmOff
        ⟨true, "public", [("public", ⟨["https"], [], []⟩)], [],
         [("public", ⟨["https"], [], [], []⟩)]⟩).outcome = .ok false ∧
    (runMain (svcParams "disabled") nmOff
        ((runMain (svcParams "enabled") nmOff
          ⟨true, "public", [("public", ⟨["https"], [], []⟩)], [],
           [("public", ⟨["https"], [], [], []⟩)]⟩).eng.ds)).eng.ds
      ≠ ⟨true, "public", [("public", ⟨["https"], [], []⟩)], [],
         [("public", ⟨["https"], [], [], []⟩)]⟩ :=
  ⟨rfl, by decide⟩

/-! ## Claim C4 — amended -/

/-- C4 amended: only an explicitly supplied nominal zone is validated
against the zone lists; that validation checks both the runtime zone
list and the permanent zone-name list and fails with the corresponding
UnknownZone error before any daemon mutation (the returned engine is
exactly the initial one: empty trace, unchanged state).  Zones resolved
implicitly — `trusted`, `external`, the default zone, or a zone resolved
from an interface — are not validated this way; their absence surfaces
later as a daemon fault (see the counterexample). -/
theorem c4_amended (p : Params) (nm : NMModel) (ds : DaemonState) (z : String)
    (ports : List PortProto) (fwds : List ParsedFwd)
    (hz : p.zone = some z)
    (hp : parsePorts p.port = .ok ports)
    (hf : parseFwds p.forward_port = .ok fwds)
    (hc : ds.connected = true) :
    ((ds.runtime.map Prod.fst).contains z = false →
      runMain p nm ds = ⟨.failed (.unknownZoneRuntime z), initEngine ds⟩) ∧
    ((ds.runtime.map Prod.fst).contains z = true →
      (ds.permanent.map Prod.fst).contains z = false →
      runMain p nm ds = ⟨.failed (.unknownZonePermanent z), initEngine ds⟩) := by
  constructor
  · intro h1
    simp [runMain, mainM, setupPhase, resolveNominalZone, bind_eval, pure_eval, getEng_eval,
      failJson_eval, liftE, hp, hf, hz, initEngine, hc, ite_apply]
    rw [h1]
    simp
  · intro h1 h2
    simp [runMain, mainM, setupPhase, resolveNominalZone, bind_eval, pure_eval, getEng_eval,
      failJson_eval, liftE, hp, hf, hz, initEngine, hc, ite_apply]
    rw [h1, h2]
    simp

/-- C4 amended, witness: a concrete run with an explicit zone missing
from the runtime list, and one with the zone missing only from the
permanent list. -/
theorem c4_amended_witness :
    runMain (svcParams "enabled") nmOff
        ⟨true, "dmz", [("dmz", emptyRt)], [], [("dmz", emptySettings)]⟩
      = ⟨.failed (.unknownZoneRuntime "public"),
         initEngine ⟨true, "dmz", [("dmz", emptyRt)], [], [("dmz", emptySettings)]⟩⟩ ∧
    runMain (svcParams "enabled") nmOff
        ⟨true, "dmz", [("public", emptyRt)], [], [("dmz", emptySettings)]⟩
      = ⟨.failed (.unknownZonePermanent "public"),
         initEngine ⟨true, "dmz", [("public", emptyRt)], [], [("dmz", emptySettings)]⟩⟩ :=
  ⟨(c4_amended (svcParams "enabled") nmOff
      ⟨true, "dmz", [("dmz", emptyRt)], [], [("dmz", emptySettings)]⟩
      "public" [] [] rfl rfl rfl rfl).1 rfl,
   (c4_amended (svcParams "enabled") nmOff
      ⟨true, "dmz", [("public", emptyRt)], [], [("dmz", emptySettings)]⟩
      "public" [] [] rfl rfl rfl rfl).2 rfl rfl⟩

/-! ## Claim C5 — amended -/

/-- C5 amended: a ForwardPort rule with a non-empty interface resolves to
the zone currently owning that interface, queried live from the daemon,
and the rule's runtime and permanent operations are applied to that zone
(clause 1: the full run adds the forward port to the owner zone `Z` in
both layers and commits `Z`, never touching the nominal zone's rules).
When the interface is unowned, the lookup yields the empty zone name and
only the in-memory settings object falls back to the nominal zone's: the
runtime operations are issued against the zone named `""`, so the rule is
NOT applied to the nominal zone (clause 2: with no zone named `""`, the
run faults on `""` and leaves the daemon state exactly as it was after
the initial settings fetch, with no operation targeting the nominal
zone). -/
theorem c5_amended :
    (∀ (item i p proto : String) (tp ta : Option String) (z0 Z : String)
       (nm : NMModel) (ds : DaemonState) (s0 sZ : ZoneSettings) (zrZ : ZoneRuntime),
      parse_forward_port item none = .ok (i, p, proto, tp, ta) →
      i ≠ "" →
      alookup i ds.ifaceZone = some Z →
      Z ≠ "" → Z ≠ z0 →
      ds.connected = true →
      (ds.runtime.map Prod.fst).contains z0 = true →
      (ds.permanent.map Prod.fst).contains z0 = true →
      alookup z0 ds.permanent = some s0 →
      alookup Z ds.permanent = some sZ →
      alookup Z ds.runtime = some zrZ →
      (⟨p, proto, tp, ta⟩ : FwdPort) ∉ zrZ.forwardPorts →
      (⟨p, proto, tp, ta⟩ : FwdPort) ∉ sZ.forwardPorts →
      runMain ⟨[], [], [], [], [item], some z0, "enabled", false⟩ nm ds
        = ⟨.ok true,
           ⟨{ ds with
                runtime := aset Z { zrZ with forwardPorts := zrZ.forwardPorts ++ [⟨p, proto, tp, ta⟩] } ds.runtime,
                permanent := aset Z { sZ with forwardPorts := sZ.forwardPorts ++ [⟨p, proto, tp, ta⟩] } ds.permanent },
            [.getSettings z0, .getSettings Z, .addForwardPort Z ⟨p, proto, tp, ta⟩,
             .update Z { sZ with forwardPorts := sZ.forwardPorts ++ [⟨p, proto, tp, ta⟩] }],
            [(0, s0), (1, { sZ with forwardPorts := sZ.forwardPorts ++ [⟨p, proto, tp, ta⟩] })],
            2, true, [(Z, 1)]⟩⟩) ∧
    (∀ (item i p proto : String) (tp ta : Option String) (z0 : String)
       (nm : NMModel) (ds : DaemonState) (s0 : ZoneSettings),
      parse_forward_port item none = .ok (i, p, proto, tp, ta) →
      i ≠ "" →
      alookup i ds.ifaceZone = none →
      ds.connected = true →
      (ds.runtime.map Prod.fst).contains z0 = true →
      (ds.permanent.map Prod.fst).contains z0 = true →
      alookup z0 ds.permanent = some s0 →
      alookup "" ds.runtime = none →
      runMain ⟨[], [], [], [], [item], some z0, "enabled", false⟩ nm ds
        = ⟨.failed (.daemonFault "INVALID_ZONE: "),
           ⟨ds, [.getSettings z0], [(0, s0)], 1, false, []⟩⟩) := by
  constructor
  · intro item i p proto tp ta z0 Z nm ds s0 sZ zrZ hparse hi hown hZ hZz hc h1 h2 hs0 hsZ
      hrZ habs habs2
    have hfw : parseFwds [item] = .ok [(i, p, proto, tp, ta)] := by
      simp [parseFwds, hparse]
    have hsetup := setupPhase_ok (p := ⟨[], [], [], [], [item], some z0, "enabled", false⟩)
      (d := ds) rfl rfl hfw hc h1 h2 hs0
    simp [runMain, mainM, bind_eval, hsetup, rulesPhase, processService, processPort,
      categoryBlock, pure_eval, processForwardPort, hi, getZoneOfInterface_eval, hown,
      hZ, hZz, getZoneByName_eval (e := (⟨ds, [.getSettings z0], [(0, s0)], 1, false, []⟩ : Engine)) hsZ,
      getEng_eval, alookup,
      getSettings_eval (e := (⟨ds, [.getSettings z0], [(0, s0)], 1, false, []⟩ : Engine)) hsZ,
      aset, queryForwardPort_eval, habs, habs2,
      addForwardPort_eval, setChanged_eval,
      settingsQueryForwardPort_eval, settingsAddForwardPort_eval, registerChanged_eval,
      finishPhase, commitAll, update_eval, exitJson_eval, hsZ, hrZ]
  · intro item i p proto tp ta z0 nm ds s0 hparse hi hun hc h1 h2 hs0 hempty
    have hfw : parseFwds [item] = .ok [(i, p, proto, tp, ta)] := by
      simp [parseFwds, hparse]
    have hsetup := setupPhase_ok (p := ⟨[], [], [], [], [item], some z0, "enabled", false⟩)
      (d := ds) rfl rfl hfw hc h1 h2 hs0
    simp [runMain, mainM, bind_eval, hsetup, rulesPhase, processService, processPort,
      categoryBlock, pure_eval, processForwardPort, hi, getZoneOfInterface_eval, hun,
      getRuntimeZone_fail (e := (⟨ds, [.getSettings z0], [(0, s0)], 1, false, []⟩ : Engine)) hempty,
      queryForwardPort]

/-- C5 amended, witness: both clauses of `c5_amended` at a concrete
state — interface `eth0` owned by `dmz` (clause 1), and interface `eth1`
unowned (clause 2). -/
theorem c5_amended_witness :
    runMain ⟨[], [], [], [], ["eth0;80/tcp;;"], some "public", "enabled", false⟩ nmOff
        ⟨true, "public", [("public", emptyRt), ("dmz", emptyRt)], [("eth0", "dmz")],
         [("public", emptySettings), ("dmz", emptySettings)]⟩
      = ⟨.ok true,
         ⟨⟨true, "public",
           aset "dmz" ⟨[], [], [⟨"80", "tcp", none, none⟩]⟩
             [("public", emptyRt), ("dmz", emptyRt)],
           [("eth0", "dmz")],
           aset "dmz" ⟨[], [], [], [⟨"80", "tcp", none, none⟩]⟩
             [("public", emptySettings), ("dmz", emptySettings)]⟩,
          [.getSettings "public", .getSettings "dmz",
           .addForwardPort "dmz" ⟨"80", "tcp", none, none⟩,
           .update "dmz" ⟨[], [], [], [⟨"80", "tcp", none, none⟩]⟩],
          [(0, emptySettings), (1, ⟨[], [], [], [⟨"80", "tcp", none, none⟩]⟩)],
          2, true, [("dmz", 1)]⟩⟩ ∧
    runMain ⟨[], [], [], [], ["eth1;80/tcp;;"], some "public", "enabled", false⟩ nmOff
        ⟨true, "public", [("public", emptyRt)], [], [("public", emptySettings)]⟩
      = ⟨.failed (.daemonFault "INVALID_ZONE: "),
         ⟨⟨true, "public", [("public", emptyRt)], [], [("public", emptySettings)]⟩,
          [.getSettings "public"], [(0, emptySettings)], 1, false, []⟩⟩ :=
  ⟨c5_amended.1 "eth0;80/tcp;;" "eth0" "80" "tcp" none none "public" "dmz" nmOff
      ⟨true, "public", [("public", emptyRt), ("dmz", emptyRt)], [("eth0", "dmz")],
       [("public", emptySettings), ("dmz", emptySettings)]⟩
      emptySettings emptySettings emptyRt
      rfl (by decide) rfl (by decide) (by decide) rfl rfl rfl rfl rfl rfl
      (by decide) (by decide),
   c5_amended.2 "eth1;80/tcp;;" "eth1" "80" "tcp" none none "public" nmOff
      ⟨true, "public", [("public", emptyRt)], [], [("public", emptySettings)]⟩
      emptySettings
      rfl (by decide) rfl rfl rfl rfl rfl rfl⟩

/-! ## Round-trip lemmas for association lists and erase -/

theorem erase_append_self {α : Type} [BEq α] [LawfulBEq α] (x : α) :
    ∀ (l : List α), x ∉ l → (l ++ [x]).erase x = l := by
  intro l
  induction l with
  | nil => intro _; simp
  | cons a t ih =>
      intro h
      simp only [List.mem_cons, not_or] at h
      rw [List.cons_append, List.erase_cons_tail, ih h.2]
      simp only [beq_iff_eq]
      exact fun hh => h.1 hh.symm

theorem aset_aset {α β : Type} [DecidableEq α] (k : α) (v v' : β) :
    ∀ (l : List (α × β)), aset k v (aset k v' l) = aset k v l := by
  intro l
  induction l with
  | nil => simp [aset]
  | cons hd t ih =>
      by_cases hk : k = hd.1
      · rw [aset_cons_pos v' t hk, aset_cons_pos v t hk]
        rw [show aset k v ((k, v') :: t) = (k, v) :: t from aset_cons_pos v t rfl]
      · rw [aset_cons_neg v' t hk, aset_cons_neg v t hk, aset_cons_neg v _ hk, ih]

theorem aset_of_alookup_eq {α β : Type} [DecidableEq α] {k : α} {v : β} :
    ∀ {l : List (α × β)}, alookup k l = some v → aset k v l = l := by
  intro l
  induction l with
  | nil => intro h; simp [alookup] at h
  | cons hd t ih =>
      intro h
      by_cases hk : k = hd.1
      · rw [alookup_cons_pos _ hk] at h
        cases h
        rw [aset_cons_pos _ _ hk]
        cases hd
        simp at hk
        simp [hk]
      · rw [alookup_cons_neg _ hk] at h
        rw [aset_cons_neg _ _ hk, ih h]

theorem aerase_aset {α β : Type} [DecidableEq α] (k : α) (v : β) :
    ∀ (l : List (α × β)), aerase k (aset k v l) = aerase k l := by
  intro l
  induction l with
  | nil => simp [aset, aerase]
  | cons hd t ih =>
      by_cases hk : k = hd.1
      · rw [aset_cons_pos v t hk]
        simp [aerase, hk]
      · rw [aset_cons_neg v t hk]
        simp [aerase, hk, ih]

theorem aerase_of_alookup_none {α β : Type} [DecidableEq α] {k : α} :
    ∀ {l : List (α × β)}, alookup k l = none → aerase k l = l := by
  intro l
  induction l with
  | nil => intro _; simp [aerase]
  | cons hd t ih =>
      intro h
      by_cases hk : k = hd.1
      · rw [alookup_cons_pos _ hk] at h
        simp at h
      · rw [alookup_cons_neg _ hk] at h
        simp [aerase, hk, ih h]

theorem alookup_mem_keys {α β : Type} [DecidableEq α] {k : α} {v : β}
    {l : List (α × β)} (h : alookup k l = some v) : k ∈ l.map Prod.fst :=
  List.mem_map_of_mem Prod.fst (alookup_mem h)

theorem map_fst_aset_of_mem {α β : Type} [DecidableEq α] {k : α} (v : β)
    {l : List (α × β)} (h : k ∈ l.map Prod.fst) :
    (aset k v l).map Prod.fst = l.map Prod.fst := by
  rw [aset_keys, if_pos h]

/-! ## Engine invariant for the commit analysis -/

/-- Is a trace entry a permanent-layer commit? -/
def isUpd : Call → Bool
  | .update _ _ => true
  | _ => false

/-- Invariant maintained by the setup and reconciliation phases: the
ChangeSet has no duplicate zone keys, no commit call has been issued yet,
the ChangeSet is empty while the aggregate flag is still false, and every
registered settings reference is live in the heap. -/
structure Inv (e : Engine) : Prop where
  nodup : (e.changedZones.map Prod.fst).Nodup
  noUpd : ∀ c ∈ e.trace, isUpd c = false
  emptyIfUnchanged : e.changed = false → e.changedZones = []
  live : ∀ z r, alookup z e.changedZones = some r → (alookup r e.heap).isSome

theorem Inv.init (ds : DaemonState) : Inv (initEngine ds) := by
  constructor <;> simp [initEngine, alookup]

theorem Inv.ds_trace {e : Engine} (hI : Inv e) (d : DaemonState) (c : Call)
    (hc : isUpd c = false) : Inv { e with ds := d, trace := e.trace ++ [c] } := by
  constructor
  · exact hI.nodup
  · intro c' hc'
    rcases List.mem_append.1 hc' with h | h
    · exact hI.noUpd c' h
    · simp at h; subst h; exact hc
  · exact hI.emptyIfUnchanged
  · exact hI.live

theorem Inv.trace_snoc {e : Engine} (hI : Inv e) (c : Call) (hc : isUpd c = false) :
    Inv { e with trace := e.trace ++ [c] } := by
  have := hI.ds_trace e.ds c hc
  simpa using this

theorem Inv.heap_set {e : Engine} (hI : Inv e) (k : Nat) (v : ZoneSettings) :
    Inv { e with heap := aset k v e.heap } := by
  constructor
  · exact hI.nodup
  · exact hI.noUpd
  · exact hI.emptyIfUnchanged
  · intro z r h
    exact alookup_isSome_aset k v (hI.live z r h)

theorem Inv.getsettings_shape {e : Engine} (hI : Inv e) (z : String) (s : ZoneSettings) :
    Inv { e with heap := aset e.nextRef s e.heap, nextRef := e.nextRef + 1,
                 trace := e.trace ++ [Call.getSettings z] } := by
  constructor
  · exact hI.nodup
  · intro c' hc'
    rcases List.mem_append.1 hc' with h | h
    · exact hI.noUpd c' h
    · simp at h; subst h; rfl
  · exact hI.emptyIfUnchanged
  · intro z' r h
    exact alookup_isSome_aset _ s (hI.live z' r h)

theorem Inv.set_changed {e : Engine} (hI : Inv e) : Inv { e with changed := true } := by
  constructor
  · exact hI.nodup
  · exact hI.noUpd
  · intro h; simp at h
  · exact hI.live

theorem Inv.mutate_register {e : Engine} (hI : Inv e) (r : Nat) (v : ZoneSettings)
    (z : String) :
    Inv { e with heap := aset r v e.heap, changed := true,
                 changedZones := aset z r e.changedZones } := by
  constructor
  · exact aset_keys_nodup z r e.changedZones hI.nodup
  · exact hI.noUpd
  · intro h; simp at h
  · intro z' r' h
    by_cases hz : z' = z
    · subst hz
      rw [alookup_aset_self] at h
      cases h
      simp [alookup_aset_self]
    · rw [alookup_aset_ne r e.changedZones hz] at h
      exact alookup_isSome_aset r v (hI.live z' r' h)

/-! ## Total evaluation lemmas for the settings-object operations -/

theorem readRef_total (r : Nat) (e : Engine) :
    readRef r e = (Except.ok ((alookup r e.heap).getD ⟨[], [], [], []⟩), e) := rfl

theorem settingsQueryService_total (r : Nat) (item : String) (e : Engine) :
    settingsQueryService r item e
      = (Except.ok (((alookup r e.heap).getD ⟨[], [], [], []⟩).services.contains item), e) := rfl

theorem settingsAddService_total (r : Nat) (item : String) (e : Engine) :
    settingsAddService r item e
      = (Except.ok (),
         { e with heap := aset r (let o := (alookup r e.heap).getD ⟨[], [], [], []⟩;
            { o with services := o.services ++ [item] }) e.heap }) := rfl

theorem settingsRemoveService_total (r : Nat) (item : String) (e : Engine) :
    settingsRemoveService r item e
      = (Except.ok (),
         { e with heap := aset r (let o := (alookup r e.heap).getD ⟨[], [], [], []⟩;
            { o with services := o.services.erase item }) e.heap }) := rfl

theorem settingsQueryPort_total (r : Nat) (p proto : String) (e : Engine) :
    settingsQueryPort r p proto e
      = (Except.ok (((alookup r e.heap).getD ⟨[], [], [], []⟩).ports.contains (p, proto)), e) := rfl

theorem settingsAddPort_total (r : Nat) (p proto : String) (e : Engine) :
    settingsAddPort r p proto e
      = (Except.ok (),
         { e with heap := aset r (let o := (alookup r e.heap).getD ⟨[], [], [], []⟩;
            { o with ports := o.ports ++ [(p, proto)] }) e.heap }) := rfl

theorem settingsRemovePort_total (r : Nat) (p proto : String) (e : Engine) :
    settingsRemovePort r p proto e
      = (Except.ok (),
         { e with heap := aset r (let o := (alookup r e.heap).getD ⟨[], [], [], []⟩;
            { o with ports := o.ports.erase (p, proto) }) e.heap }) := rfl

theorem settingsQueryInterface_total (r : Nat) (iface : String) (e : Engine) :
    settingsQueryInterface r iface e
      = (Except.ok (((alookup r e.heap).getD ⟨[], [], [], []⟩).interfaces.contains iface), e) := rfl

theorem settingsAddInterface_total (r : Nat) (iface : String) (e : Engine) :
    settingsAddInterface r iface e
      = (Except.ok (),
         { e with heap := aset r (let o := (alookup r e.heap).getD ⟨[], [], [], []⟩;
            { o with interfaces := o.interfaces ++ [iface] }) e.heap }) := rfl

theorem settingsRemoveInterface_total (r : Nat) (iface : String) (e : Engine) :
    settingsRemoveInterface r iface e
      = (Except.ok (),
         { e with heap := aset r (let o := (alookup r e.heap).getD ⟨[], [], [], []⟩;
            { o with interfaces := o.interfaces.erase iface }) e.heap }) := rfl

theorem settingsQueryForwardPort_total (r : Nat) (fp : FwdPort) (e : Engine) :
    settingsQueryForwardPort r fp e
      = (Except.ok (((alookup r e.heap).getD ⟨[], [], [], []⟩).forwardPorts.contains fp), e) := rfl

theorem settingsAddForwardPort_total (r : Nat) (fp : FwdPort) (e : Engine) :
    settingsAddForwardPort r fp e
      = (Except.ok (),
         { e with heap := aset r (let o := (alookup r e.heap).getD ⟨[], [], [], []⟩;
            { o with forwardPorts := o.forwardPorts ++ [fp] }) e.heap }) := rfl

theorem settingsRemoveForwardPort_total (r : Nat) (fp : FwdPort) (e : Engine) :
    settingsRemoveForwardPort r fp e
      = (Except.ok (),
         { e with heap := aset r (let o := (alookup r e.heap).getD ⟨[], [], [], []⟩;
            { o with forwardPorts := o.forwardPorts.erase fp }) e.heap }) := rfl

/-! ## Invariant preservation through the reconciliation phase -/

theorem inv_processService (zone : String) (fwRef : Nat) (d : String) :
    ∀ (items : List String) (e : Engine), Inv e →
      Inv (processService zone fwRef d items e).2 := by
  intro items
  induction items with
  | nil => intro e hI; simpa [processService, pure_eval] using hI
  | cons item rest ih =>
      intro e hI
      by_cases hd1 : d = "enabled"
      · subst hd1
        cases hz : alookup zone e.ds.runtime with
        | none =>
            simp [processService, bind_eval, queryService, getRuntimeZone,
              getEng_eval, failJson_eval, hz, pure_eval]
            exact hI
        | some r =>
            by_cases hpm : item ∈ ((alookup fwRef e.heap).getD ⟨[], [], [], []⟩).services
            · by_cases hmem : item ∈ r.services
              · simp [processService, bind_eval, queryService_eval item hz,
                  settingsQueryService_total, pure_eval, hmem, hpm]
                exact ih e hI
              · simp [processService, bind_eval, queryService_eval item hz,
                  settingsQueryService_total, pure_eval, hmem, hpm,
                  addService_eval item hz, setChanged_eval]
                exact ih _ ((hI.ds_trace _ (.addService zone item) rfl).set_changed)
            · by_cases hmem : item ∈ r.services
              · simp [processService, bind_eval, queryService_eval item hz,
                  settingsQueryService_total, pure_eval, hmem, hpm,
                  settingsAddService_total, setChanged_eval, registerChanged_eval]
                exact ih _ (hI.mutate_register _ _ _)
              · simp [processService, bind_eval, queryService_eval item hz,
                  settingsQueryService_total, pure_eval, hmem, hpm,
                  addService_eval item hz, setChanged_eval,
                  settingsAddService_total, registerChanged_eval]
                exact ih _ (((hI.ds_trace _ (.addService zone item) rfl).set_changed).mutate_register _ _ _)
      · by_cases hd2 : d = "disabled"
        · subst hd2
          cases hz : alookup zone e.ds.runtime with
          | none =>
              simp [processService, hd1, bind_eval, queryService, getRuntimeZone,
                getEng_eval, failJson_eval, hz, pure_eval]
              exact hI
          | some r =>
              by_cases hpm : item ∈ ((alookup fwRef e.heap).getD ⟨[], [], [], []⟩).services
              · by_cases hmem : item ∈ r.services
                · simp [processService, hd1, bind_eval, queryService_eval item hz,
                    settingsQueryService_total, pure_eval, hmem, hpm,
                    removeService_eval item hz, setChanged_eval, registerChanged_eval,
                    settingsRemoveService_total]
                  exact ih _ ((hI.ds_trace _ (.removeService zone item) rfl).mutate_register _ _ _)
                · simp [processService, hd1, bind_eval, queryService_eval item hz,
                    settingsQueryService_total, pure_eval, hmem, hpm,
                    setChanged_eval, registerChanged_eval, settingsRemoveService_total]
                  exact ih _ (hI.mutate_register _ _ _)
              · by_cases hmem : item ∈ r.services
                · simp [processService, hd1, bind_eval, queryService_eval item hz,
                    settingsQueryService_total, pure_eval, hmem, hpm,
                    removeService_eval item hz]
                  exact ih _ (hI.ds_trace _ (.removeService zone item) rfl)
                · simp [processService, hd1, bind_eval, queryService_eval item hz,
                    settingsQueryService_total, pure_eval, hmem, hpm]
                  exact ih e hI
        · simp [processService, hd1, hd2, bind_eval, pure_eval]
          exact ih e hI

theorem inv_seq {α β : Type} {x : M α} {f : α → M β}
    (hx : ∀ e, Inv e → Inv (x e).2) (hf : ∀ a e, Inv e → Inv (f a e).2) :
    ∀ e, Inv e → Inv ((x >>= f) e).2 := by
  intro e hI
  rw [bind_eval]
  rcases hxe : x e with ⟨res, e1⟩
  have hI1 : Inv e1 := by
    have := hx e hI
    rw [hxe] at this
    exact this
  cases res with
  | ok a => simpa using hf a e1 hI1
  | error s => simpa using hI1

theorem inv_processPort (zone : String) (fwRef : Nat) (d : String) :
    ∀ (items : List PortProto) (e : Engine), Inv e →
      Inv (processPort zone fwRef d items e).2 := by
  intro items
  induction items with
  | nil => intro e hI; simpa [processPort, pure_eval] using hI
  | cons pp rest ih =>
      obtain ⟨p, proto⟩ := pp
      intro e hI
      by_cases hd1 : d = "enabled"
      · subst hd1
        cases hz : alookup zone e.ds.runtime with
        | none =>
            simp [processPort, bind_eval, queryPort, getRuntimeZone,
              getEng_eval, failJson_eval, hz, pure_eval]
            exact hI
        | some r =>
            by_cases hpm : (p, proto) ∈ ((alookup fwRef e.heap).getD ⟨[], [], [], []⟩).ports
            · by_cases hmem : (p, proto) ∈ r.ports
              · simp [processPort, bind_eval, queryPort_eval p proto hz,
                  settingsQueryPort_total, pure_eval, hmem, hpm]
                exact ih e hI
              · simp [processPort, bind_eval, queryPort_eval p proto hz,
                  settingsQueryPort_total, pure_eval, hmem, hpm,
                  addPort_eval p proto hz, setChanged_eval]
                exact ih _ ((hI.ds_trace _ (.addPort zone p proto) rfl).set_changed)
            · by_cases hmem : (p, proto) ∈ r.ports
              · simp [processPort, bind_eval, queryPort_eval p proto hz,
                  settingsQueryPort_total, pure_eval, hmem, hpm,
                  settingsAddPort_total, setChanged_eval, registerChanged_eval]
                exact ih _ (hI.mutate_register _ _ _)
              · simp [processPort, bind_eval, queryPort_eval p proto hz,
                  settingsQueryPort_total, pure_eval, hmem, hpm,
                  addPort_eval p proto hz, setChanged_eval,
                  settingsAddPort_total, registerChanged_eval]
                exact ih _ (((hI.ds_trace _ (.addPort zone p proto) rfl).set_changed).mutate_register _ _ _)
      · by_cases hd2 : d = "disabled"
        · subst hd2
          cases hz : alookup zone e.ds.runtime with
          | none =>
              simp [processPort, hd1, bind_eval, queryPort, getRuntimeZone,
                getEng_eval, failJson_eval, hz, pure_eval]
              exact hI
          | some r =>
              by_cases hpm : (p, proto) ∈ ((alookup fwRef e.heap).getD ⟨[], [], [], []⟩).ports
              · by_cases hmem : (p, proto) ∈ r.ports
                · simp [processPort, hd1, bind_eval, queryPort_eval p proto hz,
                    settingsQueryPort_total, pure_eval, hmem, hpm,
                    removePort_eval p proto hz, setChanged_eval, registerChanged_eval,
                    settingsRemovePort_total]
                  exact ih _ (((hI.ds_trace _ (.removePort zone p proto) rfl).set_changed).mutate_register _ _ _)
                · simp [processPort, hd1, bind_eval, queryPort_eval p proto hz,
                    settingsQueryPort_total, pure_eval, hmem, hpm,
                    setChanged_eval, registerChanged_eval, settingsRemovePort_total]
                  exact ih _ (hI.mutate_register _ _ _)
              · by_cases hmem : (p, proto) ∈ r.ports
                · simp [processPort, hd1, bind_eval, queryPort_eval p proto hz,
                    settingsQueryPort_total, pure_eval, hmem, hpm,
                    removePort_eval p proto hz, setChanged_eval]
                  exact ih _ ((hI.ds_trace _ (.removePort zone p proto) rfl).set_changed)
                · simp [processPort, hd1, bind_eval, queryPort_eval p proto hz,
                    settingsQueryPort_total, pure_eval, hmem, hpm]
                  exact ih e hI
        · simp [processPort, hd1, hd2, bind_eval, pure_eval]
          exact ih e hI

theorem inv_trustMasqItem (cm : Bool) (nm : NMModel) (tz : String) (ref : Nat)
    (d : String) (item : String) :
    ∀ e, Inv e → Inv (trustMasqItem cm nm tz ref d item e).2 := by
  intro e hI
  by_cases hd1 : d = "enabled"
  · subst hd1
    cases htry : try_set_zone_of_interface nm tz item with
    | raised =>
        simp [trustMasqItem, htry, bind_eval, failJson_eval]
        exact hI
    | ok b =>
        cases b with
        | true =>
            simp [trustMasqItem, htry, bind_eval, emit_eval, setChanged_eval]
            exact (hI.trace_snoc (.nmSetZone tz item) rfl).set_changed
        | false =>
            cases hz : alookup tz e.ds.runtime with
            | none =>
                simp [trustMasqItem, htry, bind_eval, queryInterface, getRuntimeZone,
                  getEng_eval, failJson_eval, hz, pure_eval]
                exact hI
            | some r =>
                by_cases hpm : item ∈ ((alookup ref e.heap).getD ⟨[], [], [], []⟩).interfaces
                · by_cases hmem : alookup item e.ds.ifaceZone = some tz
                  · simp [trustMasqItem, htry, bind_eval, queryInterface_eval item hz,
                      settingsQueryInterface_total, pure_eval, hmem, hpm]
                    exact hI
                  · simp [trustMasqItem, htry, bind_eval, queryInterface_eval item hz,
                      settingsQueryInterface_total, pure_eval, hmem, hpm,
                      changeZoneOfInterface_eval item hz, setChanged_eval]
                    exact (hI.ds_trace _ (.changeZoneOfInterface tz item) rfl).set_changed
                · by_cases hmem : alookup item e.ds.ifaceZone = some tz
                  · simp [trustMasqItem, htry, bind_eval, queryInterface_eval item hz,
                      settingsQueryInterface_total, pure_eval, hmem, hpm,
                      settingsAddInterface_total, setChanged_eval, registerChanged_eval]
                    exact hI.mutate_register _ _ _
                  · simp [trustMasqItem, htry, bind_eval, queryInterface_eval item hz,
                      settingsQueryInterface_total, pure_eval, hmem, hpm,
                      changeZoneOfInterface_eval item hz, setChanged_eval,
                      settingsAddInterface_total, registerChanged_eval]
                    exact ((hI.ds_trace _ (.changeZoneOfInterface tz item) rfl).set_changed).mutate_register _ _ _
  · by_cases hd2 : d = "disabled"
    · subst hd2
      cases htry : try_set_zone_of_interface nm "" item with
      | raised =>
          simp [trustMasqItem, hd1, htry, bind_eval, failJson_eval]
          exact hI
      | ok b =>
          cases b with
          | true =>
              by_cases hcm : cm = true
              · simp [trustMasqItem, hd1, htry, bind_eval, emit_eval, hcm, exitJson_eval]
                exact hI.trace_snoc (.nmSetZone "" item) rfl
              · simp [trustMasqItem, hd1, htry, bind_eval, emit_eval, hcm, pure_eval]
                exact hI.trace_snoc (.nmSetZone "" item) rfl
          | false =>
              cases hz : alookup tz e.ds.runtime with
              | none =>
                  simp [trustMasqItem, hd1, htry, bind_eval, queryInterface, getRuntimeZone,
                    getEng_eval, failJson_eval, hz, pure_eval]
                  exact hI
              | some r =>
                  by_cases hpm : item ∈ ((alookup ref e.heap).getD ⟨[], [], [], []⟩).interfaces
                  · by_cases hmem : alookup item e.ds.ifaceZone = some tz
                    · simp [trustMasqItem, hd1, htry, bind_eval, queryInterface_eval item hz,
                        settingsQueryInterface_total, pure_eval, hmem, hpm,
                        removeInterface_eval item hz, setChanged_eval,
                        settingsRemoveInterface_total, registerChanged_eval]
                      exact ((hI.ds_trace _ (.removeInterface tz item) rfl).set_changed).mutate_register _ _ _
                    · simp [trustMasqItem, hd1, htry, bind_eval, queryInterface_eval item hz,
                        settingsQueryInterface_total, pure_eval, hmem, hpm,
                        settingsRemoveInterface_total, setChanged_eval, registerChanged_eval]
                      exact hI.mutate_register _ _ _
                  · by_cases hmem : alookup item e.ds.ifaceZone = some tz
                    · simp [trustMasqItem, hd1, htry, bind_eval, queryInterface_eval item hz,
                        settingsQueryInterface_total, pure_eval, hmem, hpm,
                        removeInterface_eval item hz, setChanged_eval]
                      exact (hI.ds_trace _ (.removeInterface tz item) rfl).set_changed
                    · simp [trustMasqItem, hd1, htry, bind_eval, queryInterface_eval item hz,
                        settingsQueryInterface_total, pure_eval, hmem, hpm]
                      exact hI
    · simp [trustMasqItem, hd1, hd2, pure_eval]
      exact hI

theorem inv_processTrustMasq (cm : Bool) (nm : NMModel) (tz : String) (ref : Nat)
    (d : String) :
    ∀ (items : List String) (e : Engine), Inv e →
      Inv (processTrustMasq cm nm tz ref d items e).2 := by
  intro items
  induction items with
  | nil => intro e hI; simpa [processTrustMasq, pure_eval] using hI
  | cons item rest ih =>
      intro e hI
      have : processTrustMasq cm nm tz ref d (item :: rest) e
          = (trustMasqItem cm nm tz ref d item >>= fun _ =>
             processTrustMasq cm nm tz ref d rest) e := rfl
      rw [this]
      exact inv_seq (inv_trustMasqItem cm nm tz ref d item) (fun _ => ih) e hI

theorem inv_categoryBlock (cm : Bool) (nm : NMModel) (zone : String) (fwRef : Nat)
    (target : String) (d : String) (items : List String) :
    ∀ e, Inv e → Inv (categoryBlock cm nm zone fwRef target d items e).2 := by
  intro e hI
  cases items with
  | nil => simpa [categoryBlock, pure_eval] using hI
  | cons item rest =>
      by_cases hzt : zone ≠ target
      · cases hperm : alookup target e.ds.permanent with
        | none =>
            simp [categoryBlock, hzt, bind_eval, getZoneByName_fail hperm, getEng_eval]
            exact hI
        | some s =>
            cases hcz : alookup target e.changedZones with
            | some r =>
                simp [categoryBlock, hzt, bind_eval, getZoneByName_eval hperm,
                  getEng_eval, hcz, pure_eval]
                exact inv_processTrustMasq cm nm target r d (item :: rest) e hI
            | none =>
                simp [categoryBlock, hzt, bind_eval, getZoneByName_eval hperm,
                  getEng_eval, hcz, getSettings_eval hperm, pure_eval]
                exact inv_processTrustMasq cm nm target e.nextRef d (item :: rest) _
                  (hI.getsettings_shape target s)
      · simp [categoryBlock, hzt, bind_eval, pure_eval]
        exact inv_processTrustMasq cm nm zone fwRef d (item :: rest) e hI

theorem inv_processForwardPort (zone : String) (fwRef : Nat) (d : String) :
    ∀ (items : List ParsedFwd) (e : Engine), Inv e →
      Inv (processForwardPort zone fwRef d items e).2 := by
  intro items
  induction items with
  | nil => intro e hI; simpa [processForwardPort, pure_eval] using hI
  | cons pf rest ih =>
      obtain ⟨iface, p, proto, tp, ta⟩ := pf
      intro e hI
      simp only [processForwardPort]
      refine inv_seq ?_ ?_ e hI
      · -- zone resolution never touches the engine
        intro e1 hI1
        by_cases hif : iface ≠ "" <;>
          simp [hif, getZoneOfInterface_eval, pure_eval] <;> exact hI1
      · -- settings-object resolution, then the dual-layer diff
        intro tz e1 hI1
        refine inv_seq ?_ ?_ e1 hI1
        · intro e2 hI2
          by_cases hcond : tz ≠ "" ∧ tz ≠ zone
          · cases hperm : alookup tz e2.ds.permanent with
            | none =>
                simp [hcond, bind_eval, getZoneByName_fail hperm]
                exact hI2
            | some s =>
                cases hcz : alookup tz e2.changedZones with
                | some r =>
                    simp [hcond, bind_eval, getZoneByName_eval hperm, getEng_eval,
                      hcz, pure_eval]
                    exact hI2
                | none =>
                    simp [hcond, bind_eval, getZoneByName_eval hperm, getEng_eval,
                      hcz, getSettings_eval hperm, pure_eval]
                    exact hI2.getsettings_shape tz s
          · simp [hcond, pure_eval]
            exact hI2
        · intro ref e2 hI2
          by_cases hd1 : d = "enabled"
          · subst hd1
            cases hz : alookup tz e2.ds.runtime with
            | none =>
                simp [bind_eval, queryForwardPort, getRuntimeZone, getEng_eval,
                  failJson_eval, hz, pure_eval]
                exact hI2
            | some r =>
                by_cases hpm : (⟨p, proto, tp, ta⟩ : FwdPort)
                    ∈ ((alookup ref e2.heap).getD ⟨[], [], [], []⟩).forwardPorts
                · by_cases hmem : (⟨p, proto, tp, ta⟩ : FwdPort) ∈ r.forwardPorts
                  · simp [bind_eval, queryForwardPort_eval _ hz,
                      settingsQueryForwardPort_total, pure_eval, hmem, hpm]
                    exact ih e2 hI2
                  · simp [bind_eval, queryForwardPort_eval _ hz,
                      settingsQueryForwardPort_total, pure_eval, hmem, hpm,
                      addForwardPort_eval _ hz, setChanged_eval]
                    exact ih _ ((hI2.ds_trace _ (.addForwardPort tz ⟨p, proto, tp, ta⟩) rfl).set_changed)
                · by_cases hmem : (⟨p, proto, tp, ta⟩ : FwdPort) ∈ r.forwardPorts
                  · simp [bind_eval, queryForwardPort_eval _ hz,
                      settingsQueryForwardPort_total, pure_eval, hmem, hpm,
                      settingsAddForwardPort_total, setChanged_eval, registerChanged_eval]
                    exact ih _ (hI2.mutate_register _ _ _)
                  · simp [bind_eval, queryForwardPort_eval _ hz,
                      settingsQueryForwardPort_total, pure_eval, hmem, hpm,
                      addForwardPort_eval _ hz, setChanged_eval,
                      settingsAddForwardPort_total, registerChanged_eval]
                    exact ih _ (((hI2.ds_trace _ (.addForwardPort tz ⟨p, proto, tp, ta⟩) rfl).set_changed).mutate_register _ _ _)
          · by_cases hd2 : d = "disabled"
            · subst hd2
              cases hz : alookup tz e2.ds.runtime with
              | none =>
                  simp [hd1, bind_eval, queryForwardPort, getRuntimeZone, getEng_eval,
                    failJson_eval, hz, pure_eval]
                  exact hI2
              | some r =>
                  by_cases hpm : (⟨p, proto, tp, ta⟩ : FwdPort)
                      ∈ ((alookup ref e2.heap).getD ⟨[], [], [], []⟩).forwardPorts
                  · by_cases hmem : (⟨p, proto, tp, ta⟩ : FwdPort) ∈ r.forwardPorts
                    · simp [hd1, bind_eval, queryForwardPort_eval _ hz,
                        settingsQueryForwardPort_total, pure_eval, hmem, hpm,
                        removeForwardPort_eval _ hz, setChanged_eval,
                        settingsRemoveForwardPort_total, registerChanged_eval]
                      exact ih _ (((hI2.ds_trace _ (.removeForwardPort tz ⟨p, proto, tp, ta⟩) rfl).set_changed).mutate_register _ _ _)
                    · simp [hd1, bind_eval, queryForwardPort_eval _ hz,
                        settingsQueryForwardPort_total, pure_eval, hmem, hpm,
                        settingsRemoveForwardPort_total, setChanged_eval, registerChanged_eval]
                      exact ih _ (hI2.mutate_register _ _ _)
                  · by_cases hmem : (⟨p, proto, tp, ta⟩ : FwdPort) ∈ r.forwardPorts
                    · simp [hd1, bind_eval, queryForwardPort_eval _ hz,
                        settingsQueryForwardPort_total, pure_eval, hmem, hpm,
                        removeForwardPort_eval _ hz, setChanged_eval]
                      exact ih _ ((hI2.ds_trace _ (.removeForwardPort tz ⟨p, proto, tp, ta⟩) rfl).set_changed)
                    · simp [hd1, bind_eval, queryForwardPort_eval _ hz,
                        settingsQueryForwardPort_total, pure_eval, hmem, hpm]
                      exact ih e2 hI2
            · simp [hd1, hd2, bind_eval, pure_eval]
              exact ih e2 hI2

/-! ## Exit-freedom: with check mode off, only `finishPhase` exits -/

/-- A computation that can terminate only through `fail_json` (or
normally), never through `exit_json`. -/
def NoExit {α : Type} (m : M α) : Prop :=
  ∀ e b, (m e).1 ≠ Except.error (.exit b)

theorem noexit_bind {α β : Type} {x : M α} {f : α → M β}
    (hx : NoExit x) (hf : ∀ a, NoExit (f a)) : NoExit (x >>= f) := by
  intro e b
  rw [bind_eval]
  rcases hxe : x e with ⟨res, e1⟩
  cases res with
  | ok a => simpa using hf a e1 b
  | error s =>
      have := hx e b
      rw [hxe] at this
      simpa using this

theorem noexit_ite {α : Type} {c : Prop} [Decidable c] {x y : M α}
    (hx : NoExit x) (hy : NoExit y) : NoExit (if c then x else y) := by
  by_cases hc : c <;> simp [hc, hx, hy]

theorem noexit_pure {α : Type} (a : α) : NoExit (pure a : M α) := by
  intro e b; simp [pure_eval]

theorem noexit_failJson {α : Type} (err : Err) : NoExit (failJson err : M α) := by
  intro e b; simp [failJson_eval]

theorem noexit_modifyEng (f : Engine → Engine) : NoExit (modifyEng f) := by
  intro e b; simp [modifyEng_eval]

theorem noexit_getEng : NoExit getEng := by
  intro e b; simp [getEng_eval]

theorem noexit_getRuntimeZone (z : String) : NoExit (getRuntimeZone z) := by
  intro e b
  cases h : alookup z e.ds.runtime <;>
    simp [getRuntimeZone, bind_eval, getEng_eval, pure_eval, failJson_eval, h]

theorem noexit_getZoneByName (z : String) : NoExit (getZoneByName z) := by
  intro e b
  cases h : alookup z e.ds.permanent <;>
    simp [getZoneByName, bind_eval, getEng_eval, pure_eval, failJson_eval, h]

theorem noexit_getSettings (z : String) : NoExit (getSettings z) := by
  intro e b
  cases h : alookup z e.ds.permanent <;>
    simp [getSettings, bind_eval, getEng_eval, pure_eval, failJson_eval,
      modifyEng_eval, emit, h]

theorem noexit_emit (c : Call) : NoExit (emit c) := noexit_modifyEng _

theorem noexit_setChanged : NoExit setChanged := noexit_modifyEng _

theorem noexit_registerChanged (z : String) (r : Nat) :
    NoExit (registerChanged z r) := noexit_modifyEng _

theorem noexit_setRuntimeZone (z : String) (r : ZoneRuntime) :
    NoExit (setRuntimeZone z r) := noexit_modifyEng _

theorem noexit_readRef (r : Nat) : NoExit (readRef r) := by
  intro e b; simp [readRef_total]

theorem noexit_writeRef (r : Nat) (s : ZoneSettings) : NoExit (writeRef r s) := by
  intro e b; simp [writeRef_eval]

theorem noexit_queryService (z item : String) : NoExit (queryService z item) :=
  noexit_bind (noexit_getRuntimeZone z) fun _ => noexit_pure _

theorem noexit_addService (z item : String) : NoExit (addService z item) :=
  noexit_bind (noexit_getRuntimeZone z) fun _ =>
    noexit_bind (noexit_setRuntimeZone _ _) fun _ => noexit_emit _

theorem noexit_removeService (z item : String) : NoExit (removeService z item) :=
  noexit_bind (noexit_getRuntimeZone z) fun _ =>
    noexit_bind (noexit_setRuntimeZone _ _) fun _ => noexit_emit _

theorem noexit_queryPort (z p proto : String) : NoExit (queryPort z p proto) :=
  noexit_bind (noexit_getRuntimeZone z) fun _ => noexit_pure _

theorem noexit_addPort (z p proto : String) : NoExit (addPort z p proto) :=
  noexit_bind (noexit_getRuntimeZone z) fun _ =>
    noexit_bind (noexit_setRuntimeZone _ _) fun _ => noexit_emit _

theorem noexit_removePort (z p proto : String) : NoExit (removePort z p proto) :=
  noexit_bind (noexit_getRuntimeZone z) fun _ =>
    noexit_bind (noexit_setRuntimeZone _ _) fun _ => noexit_emit _

theorem noexit_queryInterface (z iface : String) : NoExit (queryInterface z iface) :=
  noexit_bind (noexit_getRuntimeZone z) fun _ =>
    noexit_bind noexit_getEng fun _ => noexit_pure _

theorem noexit_changeZoneOfInterface (z iface : String) :
    NoExit (changeZoneOfInterface z iface) :=
  noexit_bind (noexit_getRuntimeZone z) fun _ =>
    noexit_bind (noexit_modifyEng _) fun _ => noexit_emit _

theorem noexit_removeInterface (z iface : String) : NoExit (removeInterface z iface) :=
  noexit_bind (noexit_getRuntimeZone z) fun _ =>
    noexit_bind (noexit_modifyEng _) fun _ => noexit_emit _

theorem noexit_getZoneOfInterface (iface : String) : NoExit (getZoneOfInterface iface) :=
  noexit_bind noexit_getEng fun _ => noexit_pure _

theorem noexit_queryForwardPort (z : String) (fp : FwdPort) :
    NoExit (queryForwardPort z fp) :=
  noexit_bind (noexit_getRuntimeZone z) fun _ => noexit_pure _

theorem noexit_addForwardPort (z : String) (fp : FwdPort) :
    NoExit (addForwardPort z fp) :=
  noexit_bind (noexit_getRuntimeZone z) fun _ =>
    noexit_bind (noexit_setRuntimeZone _ _) fun _ => noexit_emit _

theorem noexit_removeForwardPort (z : String) (fp : FwdPort) :
    NoExit (removeForwardPort z fp) :=
  noexit_bind (noexit_getRuntimeZone z) fun _ =>
    noexit_bind (noexit_setRuntimeZone _ _) fun _ => noexit_emit _

theorem noexit_settingsQueryService (r : Nat) (i : String) :
    NoExit (settingsQueryService r i) := by intro e b; simp [settingsQueryService_total]

theorem noexit_settingsAddService (r : Nat) (i : String) :
    NoExit (settingsAddService r i) := by intro e b; simp [settingsAddService_total]

theorem noexit_settingsRemoveService (r : Nat) (i : String) :
    NoExit (settingsRemoveService r i) := by intro e b; simp [settingsRemoveService_total]

theorem noexit_settingsQueryPort (r : Nat) (p proto : String) :
    NoExit (settingsQueryPort r p proto) := by intro e b; simp [settingsQueryPort_total]

theorem noexit_settingsAddPort (r : Nat) (p proto : String) :
    NoExit (settingsAddPort r p proto) := by intro e b; simp [settingsAddPort_total]

theorem noexit_settingsRemovePort (r : Nat) (p proto : String) :
    NoExit (settingsRemovePort r p proto) := by intro e b; simp [settingsRemovePort_total]

theorem noexit_settingsQueryInterface (r : Nat) (i : String) :
    NoExit (settingsQueryInterface r i) := by intro e b; simp [settingsQueryInterface_total]

theorem noexit_settingsAddInterface (r : Nat) (i : String) :
    NoExit (settingsAddInterface r i) := by intro e b; simp [settingsAddInterface_total]

theorem noexit_settingsRemoveInterface (r : Nat) (i : String) :
    NoExit (settingsRemoveInterface r i) := by
  intro e b; simp [settingsRemoveInterface_total]

theorem noexit_settingsQueryForwardPort (r : Nat) (fp : FwdPort) :
    NoExit (settingsQueryForwardPort r fp) := by
  intro e b; simp [settingsQueryForwardPort_total]

theorem noexit_settingsAddForwardPort (r : Nat) (fp : FwdPort) :
    NoExit (settingsAddForwardPort r fp) := by
  intro e b; simp [settingsAddForwardPort_total]

theorem noexit_settingsRemoveForwardPort (r : Nat) (fp : FwdPort) :
    NoExit (settingsRemoveForwardPort r fp) := by
  intro e b; simp [settingsRemoveForwardPort_total]

theorem noexit_liftE {α : Type} (x : Except Err α) : NoExit (liftE x) := by
  cases x with
  | ok a => intro e b; simp [liftE, pure_eval]
  | error err => intro e b; simp [liftE, failJson_eval]

theorem noexit_processService (zone : String) (fwRef : Nat) (d : String) :
    ∀ items, NoExit (processService zone fwRef d items) := by
  intro items
  induction items with
  | nil => intro e b; simp [processService, pure_eval]
  | cons item rest ih =>
      simp only [processService]
      repeat' first
        | exact ih
        | exact noexit_queryService zone item
        | exact noexit_addService zone item
        | exact noexit_removeService zone item
        | exact noexit_setChanged
        | exact noexit_settingsQueryService fwRef item
        | exact noexit_settingsAddService fwRef item
        | exact noexit_settingsRemoveService fwRef item
        | exact noexit_registerChanged zone fwRef
        | exact noexit_pure _
        | refine noexit_ite ?_ ?_
        | refine noexit_bind ?_ fun a => ?_

theorem noexit_processPort (zone : String) (fwRef : Nat) (d : String) :
    ∀ items, NoExit (processPort zone fwRef d items) := by
  intro items
  induction items with
  | nil => intro e b; simp [processPort, pure_eval]
  | cons pp rest ih =>
      obtain ⟨p, proto⟩ := pp
      simp only [processPort]
      repeat' first
        | exact ih
        | exact noexit_queryPort zone p proto
        | exact noexit_addPort zone p proto
        | exact noexit_removePort zone p proto
        | exact noexit_setChanged
        | exact noexit_settingsQueryPort fwRef p proto
        | exact noexit_settingsAddPort fwRef p proto
        | exact noexit_settingsRemovePort fwRef p proto
        | exact noexit_registerChanged zone fwRef
        | exact noexit_pure _
        | refine noexit_ite ?_ ?_
        | refine noexit_bind ?_ fun a => ?_

set_option maxHeartbeats 2000000 in
theorem noexit_trustMasqItem (nm : NMModel) (tz : String) (ref : Nat) (d item : String) :
    NoExit (trustMasqItem false nm tz ref d item) := by
  cases htry1 : try_set_zone_of_interface nm tz item with
  | raised =>
      cases htry2 : try_set_zone_of_interface nm "" item with
      | raised =>
          simp only [trustMasqItem, htry1, htry2, Bool.false_eq_true, if_false]
          repeat' first
            | exact noexit_failJson _
            | exact noexit_queryInterface tz item
            | exact noexit_changeZoneOfInterface tz item
            | exact noexit_removeInterface tz item
            | exact noexit_setChanged
            | exact noexit_emit _
            | exact noexit_settingsQueryInterface ref item
            | exact noexit_settingsAddInterface ref item
            | exact noexit_settingsRemoveInterface ref item
            | exact noexit_registerChanged tz ref
            | exact noexit_pure _
            | refine noexit_ite ?_ ?_
            | refine noexit_bind ?_ fun a => ?_
      | ok b2 =>
          simp only [trustMasqItem, htry1, htry2, Bool.false_eq_true, if_false]
          cases b2 <;>
          repeat' first
            | exact noexit_failJson _
            | exact noexit_queryInterface tz item
            | exact noexit_changeZoneOfInterface tz item
            | exact noexit_removeInterface tz item
            | exact noexit_setChanged
            | exact noexit_emit _
            | exact noexit_settingsQueryInterface ref item
            | exact noexit_settingsAddInterface ref item
            | exact noexit_settingsRemoveInterface ref item
            | exact noexit_registerChanged tz ref
            | exact noexit_pure _
            | refine noexit_ite ?_ ?_
            | refine noexit_bind ?_ fun a => ?_
  | ok b1 =>
      cases htry2 : try_set_zone_of_interface nm "" item with
      | raised =>
          simp only [trustMasqItem, htry1, htry2, Bool.false_eq_true, if_false]
          cases b1 <;>
          repeat' first
            | exact noexit_failJson _
            | exact noexit_queryInterface tz item
            | exact noexit_changeZoneOfInterface tz item
            | exact noexit_removeInterface tz item
            | exact noexit_setChanged
            | exact noexit_emit _
            | exact noexit_settingsQueryInterface ref item
            | exact noexit_settingsAddInterface ref item
            | exact noexit_settingsRemoveInterface ref item
            | exact noexit_registerChanged tz ref
            | exact noexit_pure _
            | refine noexit_ite ?_ ?_
            | refine noexit_bind ?_ fun a => ?_
      | ok b2 =>
          simp only [trustMasqItem, htry1, htry2, Bool.false_eq_true, if_false]
          cases b1 <;> cases b2 <;>
          repeat' first
            | exact noexit_failJson _
            | exact noexit_queryInterface tz item
            | exact noexit_changeZoneOfInterface tz item
            | exact noexit_removeInterface tz item
            | exact noexit_setChanged
            | exact noexit_emit _
            | exact noexit_settingsQueryInterface ref item
            | exact noexit_settingsAddInterface ref item
            | exact noexit_settingsRemoveInterface ref item
            | exact noexit_registerChanged tz ref
            | exact noexit_pure _
            | refine noexit_ite ?_ ?_
            | refine noexit_bind ?_ fun a => ?_

theorem noexit_processTrustMasq (nm : NMModel) (tz : String) (ref : Nat) (d : String) :
    ∀ items, NoExit (processTrustMasq false nm tz ref d items) := by
  intro items
  induction items with
  | nil => intro e b; simp [processTrustMasq, pure_eval]
  | cons item rest ih =>
      have heq : processTrustMasq false nm tz ref d (item :: rest)
          = (trustMasqItem false nm tz ref d item >>= fun _ =>
             processTrustMasq false nm tz ref d rest) := rfl
      rw [heq]
      exact noexit_bind (noexit_trustMasqItem nm tz ref d item) fun _ => ih

theorem noexit_categoryBlock (nm : NMModel) (zone : String) (fwRef : Nat)
    (target d : String) (items : List String) :
    NoExit (categoryBlock false nm zone fwRef target d items) := by
  cases items with
  | nil => intro e b; simp [categoryBlock, pure_eval]
  | cons item rest =>
      simp only [categoryBlock]
      repeat' first
        | exact noexit_processTrustMasq nm _ _ d (item :: rest)
        | exact noexit_getZoneByName target
        | exact noexit_getSettings target
        | exact noexit_getEng
        | exact noexit_pure _
        | refine noexit_ite ?_ ?_
        | refine noexit_bind ?_ fun a => ?_
        | split

set_option maxHeartbeats 2000000 in
theorem noexit_processForwardPort (zone : String) (fwRef : Nat) (d : String) :
    ∀ items, NoExit (processForwardPort zone fwRef d items) := by
  intro items
  induction items with
  | nil => intro e b; simp [processForwardPort, pure_eval]
  | cons pf rest ih =>
      obtain ⟨iface, p, proto, tp, ta⟩ := pf
      simp only [processForwardPort]
      repeat' first
        | exact ih
        | exact noexit_getZoneOfInterface iface
        | exact noexit_getZoneByName _
        | exact noexit_getSettings _
        | exact noexit_getEng
        | exact noexit_queryForwardPort _ _
        | exact noexit_addForwardPort _ _
        | exact noexit_removeForwardPort _ _
        | exact noexit_setChanged
        | exact noexit_settingsQueryForwardPort _ _
        | exact noexit_settingsAddForwardPort _ _
        | exact noexit_settingsRemoveForwardPort _ _
        | exact noexit_registerChanged _ _
        | exact noexit_pure _
        | refine noexit_ite ?_ ?_
        | refine noexit_bind ?_ fun a => ?_
        | split

/-! ## Invariance and exit-freedom of the setup and rules phases -/

theorem inv_ite {α : Type} {c : Prop} [Decidable c] {x y : M α}
    (hx : ∀ e, Inv e → Inv (x e).2) (hy : ∀ e, Inv e → Inv (y e).2) :
    ∀ e, Inv e → Inv ((if c then x else y) e).2 := by
  intro e hI
  by_cases hc : c <;> simp [hc] <;> [exact hx e hI; exact hy e hI]

theorem inv_liftE {α : Type} (x : Except Err α) : ∀ e, Inv e → Inv ((liftE x) e).2 := by
  intro e hI
  cases x <;> simp [liftE, pure_eval, failJson_eval] <;> exact hI

theorem inv_pure {α : Type} (a : α) : ∀ e, Inv e → Inv ((pure a : M α) e).2 := by
  intro e hI; simpa [pure_eval] using hI

theorem inv_failJson {α : Type} (err : Err) :
    ∀ e, Inv e → Inv ((failJson err : M α) e).2 := by
  intro e hI; simpa [failJson_eval] using hI

theorem inv_exitJson {α : Type} (b : Bool) :
    ∀ e, Inv e → Inv ((exitJson b : M α) e).2 := by
  intro e hI; simpa [exitJson_eval] using hI

theorem inv_getEng : ∀ e, Inv e → Inv (getEng e).2 := by
  intro e hI; simpa [getEng_eval] using hI

theorem inv_getZoneByName (z : String) : ∀ e, Inv e → Inv ((getZoneByName z) e).2 := by
  intro e hI
  cases h : alookup z e.ds.permanent <;>
    simp [getZoneByName, bind_eval, getEng_eval, pure_eval, failJson_eval, h] <;>
    exact hI

theorem inv_getSettings (z : String) : ∀ e, Inv e → Inv ((getSettings z) e).2 := by
  intro e hI
  cases h : alookup z e.ds.permanent with
  | none =>
      simp [getSettings, bind_eval, getEng_eval, failJson_eval, h]
      exact hI
  | some s =>
      simp [getSettings_eval h]
      exact hI.getsettings_shape z s

theorem inv_resolveNominalZone (p : Params) :
    ∀ e, Inv e → Inv ((resolveNominalZone p) e).2 := by
  cases hz : p.zone with
  | none =>
      simp only [resolveNominalZone, hz]
      exact inv_seq inv_getEng fun a => inv_pure _
  | some z =>
      simp only [resolveNominalZone, hz]
      repeat' first
        | exact inv_getEng
        | exact inv_failJson _
        | exact inv_pure _
        | refine inv_ite ?_ ?_
        | refine inv_seq ?_ fun a => ?_

theorem inv_setupPhase (p : Params) : ∀ e, Inv e → Inv (setupPhase p e).2 := by
  simp only [setupPhase]
  repeat' first
    | exact inv_liftE _
    | exact inv_getEng
    | exact inv_failJson _
    | exact inv_pure _
    | exact inv_resolveNominalZone p
    | exact inv_getZoneByName _
    | exact inv_getSettings _
    | refine inv_ite ?_ ?_
    | refine inv_seq ?_ fun a => ?_

theorem inv_rulesPhase (cm : Bool) (nm : NMModel) (zone : String) (fwRef : Nat)
    (d : String) (svc : List String) (ports : List PortProto)
    (trust masq : List String) (fwds : List ParsedFwd) :
    ∀ e, Inv e → Inv ((rulesPhase cm nm zone fwRef d svc ports trust masq fwds) e).2 := by
  simp only [rulesPhase]
  refine inv_seq (inv_processService zone fwRef d svc) fun _ => ?_
  refine inv_seq (inv_processPort zone fwRef d ports) fun _ => ?_
  refine inv_seq (inv_categoryBlock cm nm zone fwRef "trusted" d trust) fun _ => ?_
  refine inv_seq (inv_categoryBlock cm nm zone fwRef "external" d masq) fun _ => ?_
  exact inv_processForwardPort zone fwRef d fwds

theorem noexit_resolveNominalZone (p : Params) : NoExit (resolveNominalZone p) := by
  cases hz : p.zone with
  | none =>
      simp only [resolveNominalZone, hz]
      exact noexit_bind noexit_getEng fun a => noexit_pure _
  | some z =>
      simp only [resolveNominalZone, hz]
      repeat' first
        | exact noexit_getEng
        | exact noexit_failJson _
        | exact noexit_pure _
        | refine noexit_ite ?_ ?_
        | refine noexit_bind ?_ fun a => ?_

theorem noexit_setupPhase (p : Params) : NoExit (setupPhase p) := by
  simp only [setupPhase]
  repeat' first
    | exact noexit_liftE _
    | exact noexit_getEng
    | exact noexit_failJson _
    | exact noexit_pure _
    | exact noexit_resolveNominalZone p
    | exact noexit_getZoneByName _
    | exact noexit_getSettings _
    | refine noexit_ite ?_ ?_
    | refine noexit_bind ?_ fun a => ?_

theorem noexit_rulesPhase (nm : NMModel) (zone : String) (fwRef : Nat)
    (d : String) (svc : List String) (ports : List PortProto)
    (trust masq : List String) (fwds : List ParsedFwd) :
    NoExit (rulesPhase false nm zone fwRef d svc ports trust masq fwds) := by
  simp only [rulesPhase]
  refine noexit_bind (noexit_processService zone fwRef d svc) fun _ => ?_
  refine noexit_bind (noexit_processPort zone fwRef d ports) fun _ => ?_
  refine noexit_bind (noexit_categoryBlock nm zone fwRef "trusted" d trust) fun _ => ?_
  refine noexit_bind (noexit_categoryBlock nm zone fwRef "external" d masq) fun _ => ?_
  exact noexit_processForwardPort zone fwRef d fwds

theorem noexit_update (z : String) (r : Nat) : NoExit (update z r) :=
  noexit_bind (noexit_getZoneByName z) fun _ =>
    noexit_bind (noexit_readRef r) fun _ =>
      noexit_bind (noexit_modifyEng _) fun _ => noexit_emit _

theorem noexit_commitAll : ∀ (cz : List (String × Nat)), NoExit (commitAll cz) := by
  intro cz
  induction cz with
  | nil => intro e b; simp [commitAll, pure_eval]
  | cons zr rest ih =>
      obtain ⟨z, r⟩ := zr
      have heq : commitAll ((z, r) :: rest)
          = (update z r >>= fun _ => commitAll rest) := rfl
      rw [heq]
      exact noexit_bind (noexit_update z r) fun _ => ih

/-! ## Characterization of a successful commit phase -/

/-- Which trace entries commit zone `z`? -/
def isUpdateFor (z : String) : Call → Bool
  | .update z' _ => decide (z' = z)
  | _ => false

theorem update_total {z : String} {e : Engine} {s0 : ZoneSettings} (r : Nat)
    (hz : alookup z e.ds.permanent = some s0) :
    update z r e
      = (Except.ok (),
         { e with
            ds := { e.ds with
              permanent := aset z ((alookup r e.heap).getD ⟨[], [], [], []⟩) e.ds.permanent },
            trace := e.trace ++ [.update z ((alookup r e.heap).getD ⟨[], [], [], []⟩)] }) := by
  simp [update, bind_eval, getZoneByName_eval hz, readRef_total, modifyEng_eval,
    emit, pure_eval]

/-- A successful `commitAll` issues exactly the `update` calls of the
ChangeSet, in order, each carrying the final in-memory settings object of
its zone, and writes each object into the permanent layer; it touches
nothing else. -/
theorem commitAll_char : ∀ (cz : List (String × Nat)) (e : Engine),
    (commitAll cz e).1 = Except.ok () →
      (commitAll cz e).2.trace
        = e.trace ++ cz.map (fun zr =>
            Call.update zr.1 ((alookup zr.2 e.heap).getD ⟨[], [], [], []⟩)) ∧
      (commitAll cz e).2.heap = e.heap ∧
      (commitAll cz e).2.changedZones = e.changedZones ∧
      (∀ z, z ∉ cz.map Prod.fst →
        alookup z (commitAll cz e).2.ds.permanent = alookup z e.ds.permanent) ∧
      ((cz.map Prod.fst).Nodup → ∀ z r, alookup z cz = some r →
        alookup z (commitAll cz e).2.ds.permanent
          = some ((alookup r e.heap).getD ⟨[], [], [], []⟩)) := by
  intro cz
  induction cz with
  | nil =>
      intro e _
      refine ⟨by simp [commitAll, pure_eval], by simp [commitAll, pure_eval],
        by simp [commitAll, pure_eval], fun z _ => by simp [commitAll, pure_eval],
        fun _ z r hzr => by simp [alookup] at hzr⟩
  | cons zr rest ih =>
      obtain ⟨z0, r0⟩ := zr
      intro e hok
      cases hperm : alookup z0 e.ds.permanent with
      | none =>
          exfalso
          have : commitAll ((z0, r0) :: rest) e
              = (Except.error (.fail (.daemonFault ("INVALID_ZONE (config): " ++ z0))), e) := by
            simp [commitAll, bind_eval, update, getZoneByName_fail hperm]
          rw [this] at hok
          simp at hok
      | some s0 =>
          have hupd := update_total (e := e) r0 hperm
          have hstep : commitAll ((z0, r0) :: rest) e
              = commitAll rest
                  { e with
                    ds := { e.ds with
                      permanent := aset z0 ((alookup r0 e.heap).getD ⟨[], [], [], []⟩) e.ds.permanent },
                    trace := e.trace ++ [.update z0 ((alookup r0 e.heap).getD ⟨[], [], [], []⟩)] } := by
            simp [commitAll, bind_eval, hupd]
          rw [hstep] at hok ⊢
          obtain ⟨htr, hheap, hcz, hunreg, hreg⟩ := ih _ hok
          refine ⟨?_, by simp [hheap], by simp [hcz], ?_, ?_⟩
          · rw [htr]
            simp [List.append_assoc]
          · intro z hz
            simp only [List.map_cons, List.mem_cons] at hz
            push_neg at hz
            rw [hunreg z hz.2]
            simp
            rw [alookup_aset_ne _ _ hz.1]
          · intro hnd z r hzr
            simp only [List.map_cons, List.nodup_cons] at hnd
            by_cases hz : z = z0
            · subst hz
              simp [alookup] at hzr
              subst hzr
              rw [hunreg z hnd.1]
              simp
              rw [alookup_aset_self]
            · rw [alookup_cons_neg _ hz] at hzr
              have := hreg hnd.2 z r hzr
              rw [this]

theorem countP_noUpd {t : List Call} (h : ∀ c ∈ t, isUpd c = false) (z : String) :
    t.countP (isUpdateFor z) = 0 := by
  rw [List.countP_eq_zero]
  intro c hc
  have := h c hc
  cases c <;> simp_all [isUpd, isUpdateFor]

theorem countP_update_map (cz : List (String × Nat)) (g : String × Nat → ZoneSettings)
    (z : String) :
    ((cz.map fun zr => Call.update zr.1 (g zr)).countP (isUpdateFor z))
      = cz.countP (fun zr => decide (zr.1 = z)) := by
  rw [List.countP_map]
  congr 1

/-! ## Claim C3 — amended -/

/-- C3 amended: for every zone registered in the ChangeSet of a
non-check-mode run that terminates normally, the Batch Committer issues
exactly one commit (`update`) call for that zone, carrying the final
in-memory settings object of the zone's registered reference — the
object that accumulated every permanent-layer mutation of the pass — and
that object is exactly what the permanent layer then holds.  (The
fetched-at-most-once half of the original claim is false — see the
counterexample — a zone's settings may be re-fetched whenever an earlier
fetch led to no registered mutation; the spec's own two-rule scenario,
a service and a port on the same zone, does produce a single fetch and a
single commit reflecting both mutations, as the second clause shows.) -/
theorem c3_amended :
    (∀ (p : Params) (nm : NMModel) (ds : DaemonState) (b : Bool),
      p.check_mode = false →
      (runMain p nm ds).outcome = .ok b →
      ∀ z r, alookup z (runMain p nm ds).eng.changedZones = some r →
        ((runMain p nm ds).eng.trace.countP (isUpdateFor z) = 1 ∧
         ∃ s, alookup r (runMain p nm ds).eng.heap = some s ∧
              Call.update z s ∈ (runMain p nm ds).eng.trace ∧
              alookup z (runMain p nm ds).eng.ds.permanent = some s)) ∧
    runMain ⟨["https"], ["443/tcp"], [], [], [], some "public", "enabled", false⟩ nmOff
        ⟨true, "public", [("public", emptyRt)], [], [("public", emptySettings)]⟩
      = ⟨.ok true,
         ⟨⟨true, "public",
           [("public", ⟨["https"], [("443", "tcp")], []⟩)], [],
           [("public", ⟨["https"], [("443", "tcp")], [], []⟩)]⟩,
          [.getSettings "public", .addService "public" "https",
           .addPort "public" "443" "tcp",
           .update "public" ⟨["https"], [("443", "tcp")], [], []⟩],
          [(0, ⟨["https"], [("443", "tcp")], [], []⟩)],
          1, true, [("public", 0)]⟩⟩ := by
  constructor
  · intro p nm ds b hcm hok z r hz
    rcases hsu : setupPhase p (initEngine ds) with ⟨rsu, e1⟩
    have hInv1 : Inv e1 := by
      have h := inv_setupPhase p (initEngine ds) (Inv.init ds)
      rw [hsu] at h
      exact h
    cases rsu with
    | error s =>
        exfalso
        have hm : mainM p nm (initEngine ds) = (Except.error s, e1) := by
          simp [mainM, bind_eval, hsu]
        cases s with
        | exit b2 =>
            have hne := noexit_setupPhase p (initEngine ds) b2
            rw [hsu] at hne
            simp at hne
        | fail err =>
            rw [runMain, hm] at hok
            simp at hok
    | ok x =>
        obtain ⟨zone, fwRef, ports, fwds⟩ := x
        rcases hru : rulesPhase false nm zone fwRef p.state p.service ports p.trust
            p.masq fwds e1 with ⟨rru, e2⟩
        have hInv2 : Inv e2 := by
          have h := inv_rulesPhase false nm zone fwRef p.state p.service ports p.trust
            p.masq fwds e1 hInv1
          rw [hru] at h
          exact h
        cases rru with
        | error s =>
            exfalso
            have hm : mainM p nm (initEngine ds) = (Except.error s, e2) := by
              simp [mainM, bind_eval, hsu, hcm, hru]
            cases s with
            | exit b2 =>
                have hne := noexit_rulesPhase nm zone fwRef p.state p.service ports
                  p.trust p.masq fwds e1 b2
                rw [hru] at hne
                simp at hne
            | fail err =>
                rw [runMain, hm] at hok
                simp at hok
        | ok u =>
            cases u
            by_cases hch : e2.changed = true
            · rcases hco : commitAll e2.changedZones e2 with ⟨rco, e3⟩
              cases rco with
              | error s =>
                  exfalso
                  cases s with
                  | exit b2 =>
                      have hne := noexit_commitAll e2.changedZones e2 b2
                      rw [hco] at hne
                      simp at hne
                  | fail err =>
                      have hm : mainM p nm (initEngine ds)
                          = (Except.error (.fail err), e3) := by
                        simp [mainM, bind_eval, hsu, hcm, hru, finishPhase,
                          getEng_eval, hch, hco]
                      rw [runMain, hm] at hok
                      simp at hok
              | ok u2 =>
                  cases u2
                  have hm : mainM p nm (initEngine ds)
                      = (Except.error (.exit true), e3) := by
                    simp [mainM, bind_eval, hsu, hcm, hru, finishPhase,
                      getEng_eval, hch, hco, exitJson_eval]
                  have hrm : runMain p nm ds = ⟨.ok true, e3⟩ := by
                    rw [runMain, hm]
                  rw [hrm] at hz ⊢
                  obtain ⟨htr, hheap, hczz, hunreg, hreg⟩ :=
                    commitAll_char e2.changedZones e2 (by rw [hco])
                  rw [hco] at htr hheap hczz hunreg hreg
                  simp only at htr hheap hczz hunreg hreg
                  rw [hczz] at hz
                  have hlive := hInv2.live z r hz
                  obtain ⟨s, hs⟩ := Option.isSome_iff_exists.1 hlive
                  refine ⟨?_, s, ?_, ?_, ?_⟩
                  · rw [htr, List.countP_append, countP_noUpd hInv2.noUpd z,
                      countP_update_map, countP_key_eq_one hInv2.nodup hz]
                  · rw [hheap]
                    exact hs
                  · rw [htr]
                    refine List.mem_append_right _ ?_
                    have hmem := alookup_mem hz
                    have := List.mem_map_of_mem
                      (fun zr => Call.update zr.1
                        ((alookup zr.2 e2.heap).getD ⟨[], [], [], []⟩)) hmem
                    simpa [hs] using this
                  · rw [hreg hInv2.nodup z r hz, hs]
                    rfl
            · exfalso
              have hch2 : e2.changed = false := by
                cases hcv : e2.changed
                · rfl
                · exact absurd hcv hch
              have hm : mainM p nm (initEngine ds) = (Except.error (.exit false), e2) := by
                simp [mainM, bind_eval, hsu, hcm, hru, finishPhase, getEng_eval,
                  hch2, exitJson_eval]
              have hrm : runMain p nm ds = ⟨.ok false, e2⟩ := by rw [runMain, hm]
              rw [hrm] at hz
              have hempty := hInv2.emptyIfUnchanged hch2
              rw [hempty] at hz
              simp [alookup] at hz
  · rfl

/-- C3 amended, witness: the general clause instantiated at the two-rule
run of the second clause — zone `public` is registered with object `0`,
committed exactly once, and the committed object reflects both the
service and the port mutation. -/
theorem c3_amended_witness :
    ((runMain ⟨["https"], ["443/tcp"], [], [], [], some "public", "enabled", false⟩ nmOff
        ⟨true, "public", [("public", emptyRt)], [], [("public", emptySettings)]⟩).eng.trace.countP
      (isUpdateFor "public") = 1 ∧
     ∃ s, alookup 0 (runMain ⟨["https"], ["443/tcp"], [], [], [], some "public", "enabled", false⟩ nmOff
        ⟨true, "public", [("public", emptyRt)], [], [("public", emptySettings)]⟩).eng.heap = some s ∧
       Call.update "public" s ∈ (runMain ⟨["https"], ["443/tcp"], [], [], [], some "public", "enabled", false⟩ nmOff
        ⟨true, "public", [("public", emptyRt)], [], [("public", emptySettings)]⟩).eng.trace ∧
       alookup "public" (runMain ⟨["https"], ["443/tcp"], [], [], [], some "public", "enabled", false⟩ nmOff
        ⟨true, "public", [("public", emptyRt)], [], [("public", emptySettings)]⟩).eng.ds.permanent = some s) :=
  c3_amended.1 ⟨["https"], ["443/tcp"], [], [], [], some "public", "enabled", false⟩ nmOff
    ⟨true, "public", [("public", emptyRt)], [], [("public", emptySettings)]⟩ true
    rfl rfl "public" 0 rfl

/-! ## Claim C10 — check mode -/

theorem trustMasqItem_cm (nm : NMModel) (tz : String) (ref : Nat) (d item : String)
    (e : Engine) :
    trustMasqItem true nm tz ref d item e = trustMasqItem false nm tz ref d item e ∨
    (d = "disabled" ∧ try_set_zone_of_interface nm "" item = .ok true ∧
     trustMasqItem true nm tz ref d item e
       = (Except.error (.exit true), { e with trace := e.trace ++ [.nmSetZone "" item] })) := by
  by_cases hd1 : d = "enabled"
  · left
    simp [trustMasqItem, hd1]
  · by_cases hd2 : d = "disabled"
    · subst hd2
      cases htry : try_set_zone_of_interface nm "" item with
      | raised =>
          left
          simp [trustMasqItem, hd1, htry]
      | ok b =>
          cases b with
          | false =>
              left
              simp [trustMasqItem, hd1, htry]
          | true =>
              right
              refine ⟨rfl, rfl, ?_⟩
              simp [trustMasqItem, hd1, htry, bind_eval, emit_eval, exitJson_eval]
    · left
      simp [trustMasqItem, hd1, hd2]

theorem processTrustMasq_cm (nm : NMModel) (tz : String) (ref : Nat) (d : String) :
    ∀ (items : List String) (e : Engine),
      processTrustMasq true nm tz ref d items e
        = processTrustMasq false nm tz ref d items e ∨
      (d = "disabled" ∧ (∃ i ∈ items, try_set_zone_of_interface nm "" i = .ok true) ∧
       ∃ e', processTrustMasq true nm tz ref d items e = (Except.error (.exit true), e')) := by
  intro items
  induction items with
  | nil => intro e; left; rfl
  | cons item rest ih =>
      intro e
      have heqT : processTrustMasq true nm tz ref d (item :: rest) e
          = (trustMasqItem true nm tz ref d item >>= fun _ =>
             processTrustMasq true nm tz ref d rest) e := rfl
      have heqF : processTrustMasq false nm tz ref d (item :: rest) e
          = (trustMasqItem false nm tz ref d item >>= fun _ =>
             processTrustMasq false nm tz ref d rest) e := rfl
      rcases trustMasqItem_cm nm tz ref d item e with heq | ⟨hd, htry, hex⟩
      · rw [heqT, heqF, bind_eval, bind_eval, heq]
        rcases hit : trustMasqItem false nm tz ref d item e with ⟨res, e1⟩
        cases res with
        | error s => left; rfl
        | ok a =>
            rcases ih e1 with heq2 | ⟨hd, hi, e', hex2⟩
            · left
              simpa using heq2
            · right
              refine ⟨hd, ?_, e', by simpa using hex2⟩
              obtain ⟨i, hi1, hi2⟩ := hi
              exact ⟨i, List.mem_cons_of_mem _ hi1, hi2⟩
      · right
        refine ⟨hd, ⟨item, List.mem_cons_self _ _, htry⟩, ?_⟩
        rw [heqT, bind_eval, hex]
        exact ⟨_, rfl⟩

theorem categoryBlock_cm (nm : NMModel) (zone : String) (fwRef : Nat)
    (target d : String) (items : List String) (e : Engine) :
    categoryBlock true nm zone fwRef target d items e
      = categoryBlock false nm zone fwRef target d items e ∨
    (d = "disabled" ∧ (∃ i ∈ items, try_set_zone_of_interface nm "" i = .ok true) ∧
     ∃ e', categoryBlock true nm zone fwRef target d items e
       = (Except.error (.exit true), e')) := by
  cases items with
  | nil => left; rfl
  | cons item rest =>
      by_cases hzt : zone ≠ target
      · cases hperm : alookup target e.ds.permanent with
        | none =>
            left
            simp [categoryBlock, hzt, bind_eval, getZoneByName_fail hperm]
        | some s =>
            cases hcz : alookup target e.changedZones with
            | some r =>
                have heq : ∀ cm, categoryBlock cm nm zone fwRef target d (item :: rest) e
                    = processTrustMasq cm nm target r d (item :: rest) e := by
                  intro cm
                  simp [categoryBlock, hzt, bind_eval, getZoneByName_eval hperm,
                    getEng_eval, hcz, pure_eval]
                rw [heq true, heq false]
                rcases processTrustMasq_cm nm target r d (item :: rest) e with h | ⟨hd, hi, e', hex⟩
                · left; exact h
                · right; exact ⟨hd, hi, e', hex⟩
            | none =>
                have heq : ∀ cm, categoryBlock cm nm zone fwRef target d (item :: rest) e
                    = processTrustMasq cm nm target e.nextRef d (item :: rest)
                        { e with
                          heap := aset e.nextRef s e.heap,
                          nextRef := e.nextRef + 1,
                          trace := e.trace ++ [.getSettings target] } := by
                  intro cm
                  simp [categoryBlock, hzt, bind_eval, getZoneByName_eval hperm,
                    getEng_eval, hcz, getSettings_eval hperm, pure_eval]
                rw [heq true, heq false]
                rcases processTrustMasq_cm nm target e.nextRef d (item :: rest) _
                    with h | ⟨hd, hi, e', hex⟩
                · left; exact h
                · right; exact ⟨hd, hi, e', hex⟩
      · have heq : ∀ cm, categoryBlock cm nm zone fwRef target d (item :: rest) e
            = processTrustMasq cm nm zone fwRef d (item :: rest) e := by
          intro cm
          simp [categoryBlock, hzt, bind_eval, pure_eval]
        rw [heq true, heq false]
        rcases processTrustMasq_cm nm zone fwRef d (item :: rest) e with h | ⟨hd, hi, e', hex⟩
        · left; exact h
        · right; exact ⟨hd, hi, e', hex⟩

theorem rulesPhase_cm (nm : NMModel) (zone : String) (fwRef : Nat) (d : String)
    (svc : List String) (ports : List PortProto) (trust masq : List String)
    (fwds : List ParsedFwd) (e : Engine) :
    rulesPhase true nm zone fwRef d svc ports trust masq fwds e
      = rulesPhase false nm zone fwRef d svc ports trust masq fwds e ∨
    (d = "disabled" ∧
     (∃ i ∈ trust ++ masq, try_set_zone_of_interface nm "" i = .ok true) ∧
     ∃ e', rulesPhase true nm zone fwRef d svc ports trust masq fwds e
       = (Except.error (.exit true), e')) := by
  rcases hps : processService zone fwRef d svc e with ⟨r1, e1⟩
  cases r1 with
  | error s => left; simp [rulesPhase, bind_eval, hps]
  | ok a1 =>
      rcases hpp : processPort zone fwRef d ports e1 with ⟨r2, e2⟩
      cases r2 with
      | error s => left; simp [rulesPhase, bind_eval, hps, hpp]
      | ok a2 =>
          rcases categoryBlock_cm nm zone fwRef "trusted" d trust e2
              with heqT | ⟨hd, hi, e', hex⟩
          · rcases hct : categoryBlock false nm zone fwRef "trusted" d trust e2
                with ⟨r3, e3⟩
            cases r3 with
            | error s => left; simp [rulesPhase, bind_eval, hps, hpp, heqT, hct]
            | ok a3 =>
                rcases categoryBlock_cm nm zone fwRef "external" d masq e3
                    with heqM | ⟨hd, hi, e', hex⟩
                · left
                  simp [rulesPhase, bind_eval, hps, hpp, heqT, hct, heqM]
                · right
                  obtain ⟨i, hi1, hi2⟩ := hi
                  refine ⟨hd, ⟨i, List.mem_append_right _ hi1, hi2⟩, e', ?_⟩
                  simp [rulesPhase, bind_eval, hps, hpp, heqT, hct, hex]
          · right
            obtain ⟨i, hi1, hi2⟩ := hi
            refine ⟨hd, ⟨i, List.mem_append_left _ hi1, hi2⟩, e', ?_⟩
            simp [rulesPhase, bind_eval, hps, hpp, hex]

/-- C10: check mode changes nothing about what the engine does — every
runtime mutation, every permanent-settings mutation and every commit is
issued exactly as in a normal run (the two runs are equal, final daemon
state and call trace included) — except in the trust/masq `disabled`
branch: when the connection-manager fast path succeeds for some trust or
masq interface under intent `disabled`, the check-mode run exits early
reporting `changed = true`. -/
theorem c10_check_mode (p : Params) (nm : NMModel) (ds : DaemonState) :
    runMain { p with check_mode := true } nm ds
      = runMain { p with check_mode := false } nm ds ∨
    (p.state = "disabled" ∧
     (∃ i ∈ p.trust ++ p.masq, try_set_zone_of_interface nm "" i = .ok true) ∧
     ∃ e, runMain { p with check_mode := true } nm ds = ⟨.ok true, e⟩) := by
  have hsetup : ∀ b, setupPhase { p with check_mode := b } = setupPhase p := fun _ => rfl
  rcases hsu : setupPhase p (initEngine ds) with ⟨rsu, e1⟩
  cases rsu with
  | error s =>
      left
      simp [runMain, mainM, bind_eval, hsetup, hsu]
  | ok x =>
      obtain ⟨zone, fwRef, ports, fwds⟩ := x
      rcases rulesPhase_cm nm zone fwRef p.state p.service ports p.trust p.masq fwds e1
          with heqR | ⟨hd, hi, e', hex⟩
      · left
        rcases hru : rulesPhase false nm zone fwRef p.state p.service ports p.trust
            p.masq fwds e1 with ⟨r2, e2⟩
        simp [runMain, mainM, bind_eval, hsetup, hsu, heqR, hru]
      · right
        refine ⟨hd, hi, e', ?_⟩
        simp [runMain, mainM, bind_eval, hsetup, hsu, hex]


theorem c9_service (item z0 : String) (nm : NMModel) (ds : DaemonState)
    (zr0 : ZoneRuntime) (s0 : ZoneSettings)
    (hc : ds.connected = true)
    (h1 : (ds.runtime.map Prod.fst).contains z0 = true)
    (h2 : (ds.permanent.map Prod.fst).contains z0 = true)
    (hr0 : alookup z0 ds.runtime = some zr0)
    (hs0 : alookup z0 ds.permanent = some s0)
    (habs : item ∉ zr0.services)
    (habs2 : item ∉ s0.services) :
    (runMain ⟨[item], [], [], [], [], some z0, "disabled", false⟩ nm
      ((runMain ⟨[item], [], [], [], [], some z0, "enabled", false⟩ nm ds).eng.ds)).eng.ds
      = ds := by
  have hsetup1 := setupPhase_ok (p := ⟨[item], [], [], [], [], some z0, "enabled", false⟩)
    (d := ds) rfl rfl rfl hc h1 h2 hs0
  have hds1 : (runMain ⟨[item], [], [], [], [], some z0, "enabled", false⟩ nm ds).eng.ds
      = { ds with
          runtime := aset z0 { zr0 with services := zr0.services ++ [item] } ds.runtime,
          permanent := aset z0 { s0 with services := s0.services ++ [item] } ds.permanent } := by
    simp [runMain, mainM, bind_eval, hsetup1, rulesPhase, processService, processPort,
      categoryBlock, processForwardPort, pure_eval, queryService_eval, habs, habs2,
      settingsQueryService_total, addService_eval, setChanged_eval,
      settingsAddService_total, registerChanged_eval, alookup, aset, finishPhase,
      getEng_eval, commitAll, update_total, readRef_total, modifyEng_eval, emit,
      exitJson_eval, hr0, hs0]
  rw [hds1]
  have h1' : ((( { ds with
          runtime := aset z0 { zr0 with services := zr0.services ++ [item] } ds.runtime,
          permanent := aset z0 { s0 with services := s0.services ++ [item] } ds.permanent } : DaemonState).runtime.map
        Prod.fst).contains z0) = true := by
    rw [show ( { ds with
          runtime := aset z0 { zr0 with services := zr0.services ++ [item] } ds.runtime,
          permanent := aset z0 { s0 with services := s0.services ++ [item] } ds.permanent } : DaemonState).runtime
        = aset z0 { zr0 with services := zr0.services ++ [item] } ds.runtime from rfl]
    rw [map_fst_aset_of_mem _ (alookup_mem_keys hr0)]
    exact h1
  have h2' : ((( { ds with
          runtime := aset z0 { zr0 with services := zr0.services ++ [item] } ds.runtime,
          permanent := aset z0 { s0 with services := s0.services ++ [item] } ds.permanent } : DaemonState).permanent.map
        Prod.fst).contains z0) = true := by
    rw [show ( { ds with
          runtime := aset z0 { zr0 with services := zr0.services ++ [item] } ds.runtime,
          permanent := aset z0 { s0 with services := s0.services ++ [item] } ds.permanent } : DaemonState).permanent
        = aset z0 { s0 with services := s0.services ++ [item] } ds.permanent from rfl]
    rw [map_fst_aset_of_mem _ (alookup_mem_keys hs0)]
    exact h2
  have hsetup2 := setupPhase_ok (p := ⟨[item], [], [], [], [], some z0, "disabled", false⟩)
    (d := { ds with
          runtime := aset z0 { zr0 with services := zr0.services ++ [item] } ds.runtime,
          permanent := aset z0 { s0 with services := s0.services ++ [item] } ds.permanent })
    rfl rfl rfl hc h1' h2' (alookup_aset_self z0 _ ds.permanent)
  simp [runMain, mainM, bind_eval, hsetup2, rulesPhase, processService, processPort,
    categoryBlock, processForwardPort, pure_eval, queryService_eval,
    settingsQueryService_total, removeService_eval, settingsRemoveService_total,
    setChanged_eval, registerChanged_eval, alookup, aset, finishPhase, getEng_eval,
    commitAll, update_total, readRef_total, modifyEng_eval, emit, exitJson_eval,
    alookup_aset_self, aset_aset, aset_of_alookup_eq, hr0, hs0,
    erase_append_self, habs, habs2]

theorem try_set_zone_irrel (nm : NMModel) (z1 z2 i : String) :
    try_set_zone_of_interface nm z1 i = try_set_zone_of_interface nm z2 i := rfl

theorem c9_port (s p proto z0 : String) (nm : NMModel) (ds : DaemonState)
    (zr0 : ZoneRuntime) (s0 : ZoneSettings)
    (hparse : parse_port s = .ok (p, proto))
    (hc : ds.connected = true)
    (h1 : (ds.runtime.map Prod.fst).contains z0 = true)
    (h2 : (ds.permanent.map Prod.fst).contains z0 = true)
    (hr0 : alookup z0 ds.runtime = some zr0)
    (hs0 : alookup z0 ds.permanent = some s0)
    (habs : (p, proto) ∉ zr0.ports)
    (habs2 : (p, proto) ∉ s0.ports) :
    (runMain ⟨[], [s], [], [], [], some z0, "disabled", false⟩ nm
      ((runMain ⟨[], [s], [], [], [], some z0, "enabled", false⟩ nm ds).eng.ds)).eng.ds
      = ds := by
  have hpp : parsePorts [s] = .ok [(p, proto)] := by simp [parsePorts, hparse]
  have hsetup1 := setupPhase_ok (p := ⟨[], [s], [], [], [], some z0, "enabled", false⟩)
    (d := ds) rfl hpp rfl hc h1 h2 hs0
  have hds1 : (runMain ⟨[], [s], [], [], [], some z0, "enabled", false⟩ nm ds).eng.ds
      = { ds with
          runtime := aset z0 { zr0 with ports := zr0.ports ++ [(p, proto)] } ds.runtime,
          permanent := aset z0 { s0 with ports := s0.ports ++ [(p, proto)] } ds.permanent } := by
    simp [runMain, mainM, bind_eval, hsetup1, rulesPhase, processService, processPort,
      categoryBlock, processForwardPort, pure_eval, queryPort_eval, habs, habs2,
      settingsQueryPort_total, addPort_eval, setChanged_eval,
      settingsAddPort_total, registerChanged_eval, alookup, aset, finishPhase,
      getEng_eval, commitAll, update_total, readRef_total, modifyEng_eval, emit,
      exitJson_eval, hr0, hs0]
  rw [hds1]
  have h1' : ((( { ds with
          runtime := aset z0 { zr0 with ports := zr0.ports ++ [(p, proto)] } ds.runtime,
          permanent := aset z0 { s0 with ports := s0.ports ++ [(p, proto)] } ds.permanent } : DaemonState).runtime.map
        Prod.fst).contains z0) = true := by
    rw [show ( { ds with
          runtime := aset z0 { zr0 with ports := zr0.ports ++ [(p, proto)] } ds.runtime,
          permanent := aset z0 { s0 with ports := s0.ports ++ [(p, proto)] } ds.permanent } : DaemonState).runtime
        = aset z0 { zr0 with ports := zr0.ports ++ [(p, proto)] } ds.runtime from rfl]
    rw [map_fst_aset_of_mem _ (alookup_mem_keys hr0)]
    exact h1
  have h2' : ((( { ds with
          runtime := aset z0 { zr0 with ports := zr0.ports ++ [(p, proto)] } ds.runtime,
          permanent := aset z0 { s0 with ports := s0.ports ++ [(p, proto)] } ds.permanent } : DaemonState).permanent.map
        Prod.fst).contains z0) = true := by
    rw [show ( { ds with
          runtime := aset z0 { zr0 with ports := zr0.ports ++ [(p, proto)] } ds.runtime,
          permanent := aset z0 { s0 with ports := s0.ports ++ [(p, proto)] } ds.permanent } : DaemonState).permanent
        = aset z0 { s0 with ports := s0.ports ++ [(p, proto)] } ds.permanent from rfl]
    rw [map_fst_aset_of_mem _ (alookup_mem_keys hs0)]
    exact h2
  have hsetup2 := setupPhase_ok (p := ⟨[], [s], [], [], [], some z0, "disabled", false⟩)
    (d := { ds with
          runtime := aset z0 { zr0 with ports := zr0.ports ++ [(p, proto)] } ds.runtime,
          permanent := aset z0 { s0 with ports := s0.ports ++ [(p, proto)] } ds.permanent })
    rfl hpp rfl hc h1' h2' (alookup_aset_self z0 _ ds.permanent)
  simp [runMain, mainM, bind_eval, hsetup2, rulesPhase, processService, processPort,
    categoryBlock, processForwardPort, pure_eval, queryPort_eval,
    settingsQueryPort_total, removePort_eval, settingsRemovePort_total,
    setChanged_eval, registerChanged_eval, alookup, aset, finishPhase, getEng_eval,
    commitAll, update_total, readRef_total, modifyEng_eval, emit, exitJson_eval,
    alookup_aset_self, aset_aset, aset_of_alookup_eq, hr0, hs0,
    erase_append_self, habs, habs2]

theorem c9_fwd (s p proto : String) (tp ta : Option String) (z0 : String)
    (nm : NMModel) (ds : DaemonState) (zr0 : ZoneRuntime) (s0 : ZoneSettings)
    (hparse : parse_forward_port s none = .ok ("", p, proto, tp, ta))
    (hc : ds.connected = true)
    (h1 : (ds.runtime.map Prod.fst).contains z0 = true)
    (h2 : (ds.permanent.map Prod.fst).contains z0 = true)
    (hr0 : alookup z0 ds.runtime = some zr0)
    (hs0 : alookup z0 ds.permanent = some s0)
    (habs : (⟨p, proto, tp, ta⟩ : FwdPort) ∉ zr0.forwardPorts)
    (habs2 : (⟨p, proto, tp, ta⟩ : FwdPort) ∉ s0.forwardPorts) :
    (runMain ⟨[], [], [], [], [s], some z0, "disabled", false⟩ nm
      ((runMain ⟨[], [], [], [], [s], some z0, "enabled", false⟩ nm ds).eng.ds)).eng.ds
      = ds := by
  have hfw : parseFwds [s] = .ok [("", p, proto, tp, ta)] := by simp [parseFwds, hparse]
  have hsetup1 := setupPhase_ok (p := ⟨[], [], [], [], [s], some z0, "enabled", false⟩)
    (d := ds) rfl rfl hfw hc h1 h2 hs0
  have hds1 : (runMain ⟨[], [], [], [], [s], some z0, "enabled", false⟩ nm ds).eng.ds
      = { ds with
          runtime := aset z0 { zr0 with forwardPorts := zr0.forwardPorts ++ [⟨p, proto, tp, ta⟩] } ds.runtime,
          permanent := aset z0 { s0 with forwardPorts := s0.forwardPorts ++ [⟨p, proto, tp, ta⟩] } ds.permanent } := by
    simp [runMain, mainM, bind_eval, hsetup1, rulesPhase, processService, processPort,
      categoryBlock, processForwardPort, pure_eval, queryForwardPort_eval, habs, habs2,
      settingsQueryForwardPort_total, addForwardPort_eval, setChanged_eval,
      settingsAddForwardPort_total, registerChanged_eval, alookup, aset, finishPhase,
      getEng_eval, commitAll, update_total, readRef_total, modifyEng_eval, emit,
      exitJson_eval, hr0, hs0]
  rw [hds1]
  have h1' : ((( { ds with
          runtime := aset z0 { zr0 with forwardPorts := zr0.forwardPorts ++ [⟨p, proto, tp, ta⟩] } ds.runtime,
          permanent := aset z0 { s0 with forwardPorts := s0.forwardPorts ++ [⟨p, proto, tp, ta⟩] } ds.permanent } : DaemonState).runtime.map
        Prod.fst).contains z0) = true := by
    rw [show ( { ds with
          runtime := aset z0 { zr0 with forwardPorts := zr0.forwardPorts ++ [⟨p, proto, tp, ta⟩] } ds.runtime,
          permanent := aset z0 { s0 with forwardPorts := s0.forwardPorts ++ [⟨p, proto, tp, ta⟩] } ds.permanent } : DaemonState).runtime
        = aset z0 { zr0 with forwardPorts := zr0.forwardPorts ++ [⟨p, proto, tp, ta⟩] } ds.runtime from rfl]
    rw [map_fst_aset_of_mem _ (alookup_mem_keys hr0)]
    exact h1
  have h2' : ((( { ds with
          runtime := aset z0 { zr0 with forwardPorts := zr0.forwardPorts ++ [⟨p, proto, tp, ta⟩] } ds.runtime,
          permanent := aset z0 { s0 with forwardPorts := s0.forwardPorts ++ [⟨p, proto, tp, ta⟩] } ds.permanent } : DaemonState).permanent.map
        Prod.fst).contains z0) = true := by
    rw [show ( { ds with
          runtime := aset z0 { zr0 with forwardPorts := zr0.forwardPorts ++ [⟨p, proto, tp, ta⟩] } ds.runtime,
          permanent := aset z0 { s0 with forwardPorts := s0.forwardPorts ++ [⟨p, proto, tp, ta⟩] } ds.permanent } : DaemonState).permanent
        = aset z0 { s0 with forwardPorts := s0.forwardPorts ++ [⟨p, proto, tp, ta⟩] } ds.permanent from rfl]
    rw [map_fst_aset_of_mem _ (alookup_mem_keys hs0)]
    exact h2
  have hsetup2 := setupPhase_ok (p := ⟨[], [], [], [], [s], some z0, "disabled", false⟩)
    (d := { ds with
          runtime := aset z0 { zr0 with forwardPorts := zr0.forwardPorts ++ [⟨p, proto, tp, ta⟩] } ds.runtime,
          permanent := aset z0 { s0 with forwardPorts := s0.forwardPorts ++ [⟨p, proto, tp, ta⟩] } ds.permanent })
    rfl rfl hfw hc h1' h2' (alookup_aset_self z0 _ ds.permanent)
  simp [runMain, mainM, bind_eval, hsetup2, rulesPhase, processService, processPort,
    categoryBlock, processForwardPort, pure_eval, queryForwardPort_eval,
    settingsQueryForwardPort_total, removeForwardPort_eval, settingsRemoveForwardPort_total,
    setChanged_eval, registerChanged_eval, alookup, aset, finishPhase, getEng_eval,
    commitAll, update_total, readRef_total, modifyEng_eval, emit, exitJson_eval,
    alookup_aset_self, aset_aset, aset_of_alookup_eq, hr0, hs0,
    erase_append_self, habs, habs2]

theorem c9_trust (item z0 : String) (nm : NMModel) (ds : DaemonState)
    (zrT : ZoneRuntime) (s0 sT : ZoneSettings)
    (hc : ds.connected = true)
    (h1 : (ds.runtime.map Prod.fst).contains z0 = true)
    (h2 : (ds.permanent.map Prod.fst).contains z0 = true)
    (hs0 : alookup z0 ds.permanent = some s0)
    (hzt : z0 ≠ "trusted")
    (hrT : alookup "trusted" ds.runtime = some zrT)
    (hsT : alookup "trusted" ds.permanent = some sT)
    (hif : alookup item ds.ifaceZone = none)
    (habs2 : item ∉ sT.interfaces) :
    (runMain ⟨[], [], [item], [], [], some z0, "disabled", false⟩ nm
      ((runMain ⟨[], [], [item], [], [], some z0, "enabled", false⟩ nm ds).eng.ds)).eng.ds
      = ds := by
  have hsetup1 := setupPhase_ok (p := ⟨[], [], [item], [], [], some z0, "enabled", false⟩)
    (d := ds) rfl rfl rfl hc h1 h2 hs0
  have hsetup2 := setupPhase_ok (p := ⟨[], [], [item], [], [], some z0, "disabled", false⟩)
    (d := ds) rfl rfl rfl hc h1 h2 hs0
  cases htry : try_set_zone_of_interface nm "" item with
  | raised =>
      have htT : try_set_zone_of_interface nm "trusted" item = .raised :=
        (try_set_zone_irrel nm "trusted" "" item).trans htry
      have hds1 : (runMain ⟨[], [], [item], [], [], some z0, "enabled", false⟩ nm ds).eng.ds
          = ds := by
        simp [runMain, mainM, bind_eval, hsetup1, rulesPhase, processService, processPort,
          categoryBlock, processTrustMasq, trustMasqItem, htT, pure_eval, hzt,
          getZoneByName_eval, hsT, getEng_eval, alookup, getSettings_eval,
          failJson_eval]
      rw [hds1]
      simp [runMain, mainM, bind_eval, hsetup2, rulesPhase, processService, processPort,
        categoryBlock, processTrustMasq, trustMasqItem, htry, pure_eval, hzt,
        getZoneByName_eval, hsT, getEng_eval, alookup, getSettings_eval,
        failJson_eval]
  | ok b =>
      cases b with
      | true =>
          have htT : try_set_zone_of_interface nm "trusted" item = .ok true :=
            (try_set_zone_irrel nm "trusted" "" item).trans htry
          have hds1 : (runMain ⟨[], [], [item], [], [], some z0, "enabled", false⟩ nm ds).eng.ds
              = ds := by
            simp [runMain, mainM, bind_eval, hsetup1, rulesPhase, processService,
              processPort, categoryBlock, processTrustMasq, trustMasqItem, htT,
              pure_eval, hzt, getZoneByName_eval, hsT, getEng_eval, alookup,
              getSettings_eval, emit_eval, setChanged_eval, processForwardPort,
              finishPhase, commitAll, exitJson_eval]
          rw [hds1]
          simp [runMain, mainM, bind_eval, hsetup2, rulesPhase, processService,
            processPort, categoryBlock, processTrustMasq, trustMasqItem, htry,
            pure_eval, hzt, getZoneByName_eval, hsT, getEng_eval, alookup,
            getSettings_eval, emit_eval, processForwardPort, finishPhase,
            exitJson_eval]
      | false =>
          have htT : try_set_zone_of_interface nm "trusted" item = .ok false :=
            (try_set_zone_irrel nm "trusted" "" item).trans htry
          have hds1 : (runMain ⟨[], [], [item], [], [], some z0, "enabled", false⟩ nm ds).eng.ds
              = { ds with
                  ifaceZone := aset item "trusted" ds.ifaceZone,
                  permanent := aset "trusted" { sT with interfaces := sT.interfaces ++ [item] } ds.permanent } := by
            simp [runMain, mainM, bind_eval, hsetup1, rulesPhase, processService,
              processPort, categoryBlock, processTrustMasq, trustMasqItem, htT,
              pure_eval, hzt, getZoneByName_eval, hsT, getEng_eval, alookup,
              getSettings_eval, queryInterface_eval, hrT, hif,
              changeZoneOfInterface_eval, setChanged_eval, settingsQueryInterface_total,
              habs2, settingsAddInterface_total, registerChanged_eval, aset,
              processForwardPort, finishPhase, commitAll, update_total, readRef_total,
              modifyEng_eval, emit, exitJson_eval, hsT]
          rw [hds1]
          have h2' : ((( { ds with
                  ifaceZone := aset item "trusted" ds.ifaceZone,
                  permanent := aset "trusted" { sT with interfaces := sT.interfaces ++ [item] } ds.permanent } : DaemonState).permanent.map
                Prod.fst).contains z0) = true := by
            rw [show ( { ds with
                  ifaceZone := aset item "trusted" ds.ifaceZone,
                  permanent := aset "trusted" { sT with interfaces := sT.interfaces ++ [item] } ds.permanent } : DaemonState).permanent
                = aset "trusted" { sT with interfaces := sT.interfaces ++ [item] } ds.permanent from rfl]
            rw [map_fst_aset_of_mem _ (alookup_mem_keys hsT)]
            exact h2
          have hs0' : alookup z0 (( { ds with
                  ifaceZone := aset item "trusted" ds.ifaceZone,
                  permanent := aset "trusted" { sT with interfaces := sT.interfaces ++ [item] } ds.permanent } : DaemonState)).permanent = some s0 :=
            (alookup_aset_ne _ ds.permanent hzt).trans hs0
          have hsetup2b := setupPhase_ok
            (p := ⟨[], [], [item], [], [], some z0, "disabled", false⟩)
            (d := { ds with
                  ifaceZone := aset item "trusted" ds.ifaceZone,
                  permanent := aset "trusted" { sT with interfaces := sT.interfaces ++ [item] } ds.permanent })
            rfl rfl rfl hc h1 h2' hs0'
          simp [runMain, mainM, bind_eval, hsetup2b, rulesPhase, processService,
            processPort, categoryBlock, processTrustMasq, trustMasqItem, htry,
            pure_eval, hzt, getEng_eval, alookup, queryInterface_eval, hrT,
            removeInterface_eval, setChanged_eval, settingsQueryInterface_total,
            settingsRemoveInterface_total, registerChanged_eval, aset,
            processForwardPort, finishPhase, commitAll, update_total, readRef_total,
            modifyEng_eval, emit, exitJson_eval, alookup_aset_self, alookup_aset_ne,
            aset_aset, aset_of_alookup_eq, hsT, aerase_aset, aerase_of_alookup_none,
            hif, erase_append_self, habs2, getZoneByName_eval, getSettings_eval]



theorem c9_masq (item z0 : String) (nm : NMModel) (ds : DaemonState)
    (zrT : ZoneRuntime) (s0 sT : ZoneSettings)
    (hc : ds.connected = true)
    (h1 : (ds.runtime.map Prod.fst).contains z0 = true)
    (h2 : (ds.permanent.map Prod.fst).contains z0 = true)
    (hs0 : alookup z0 ds.permanent = some s0)
    (hzt : z0 ≠ "external")
    (hrT : alookup "external" ds.runtime = some zrT)
    (hsT : alookup "external" ds.permanent = some sT)
    (hif : alookup item ds.ifaceZone = none)
    (habs2 : item ∉ sT.interfaces) :
    (runMain ⟨[], [], [], [item], [], some z0, "disabled", false⟩ nm
      ((runMain ⟨[], [], [], [item], [], some z0, "enabled", false⟩ nm ds).eng.ds)).eng.ds
      = ds := by
  have hsetup1 := setupPhase_ok (p := ⟨[], [], [], [item], [], some z0, "enabled", false⟩)
    (d := ds) rfl rfl rfl hc h1 h2 hs0
  have hsetup2 := setupPhase_ok (p := ⟨[], [], [], [item], [], some z0, "disabled", false⟩)
    (d := ds) rfl rfl rfl hc h1 h2 hs0
  cases htry : try_set_zone_of_interface nm "" item with
  | raised =>
      have htT : try_set_zone_of_interface nm "external" item = .raised :=
        (try_set_zone_irrel nm "external" "" item).trans htry
      have hds1 : (runMain ⟨[], [], [], [item], [], some z0, "enabled", false⟩ nm ds).eng.ds
          = ds := by
        simp [runMain, mainM, bind_eval, hsetup1, rulesPhase, processService, processPort,
          categoryBlock, processTrustMasq, trustMasqItem, htT, pure_eval, hzt,
          getZoneByName_eval, hsT, getEng_eval, alookup, getSettings_eval,
          failJson_eval]
      rw [hds1]
      simp [runMain, mainM, bind_eval, hsetup2, rulesPhase, processService, processPort,
        categoryBlock, processTrustMasq, trustMasqItem, htry, pure_eval, hzt,
        getZoneByName_eval, hsT, getEng_eval, alookup, getSettings_eval,
        failJson_eval]
  | ok b =>
      cases b with
      | true =>
          have htT : try_set_zone_of_interface nm "external" item = .ok true :=
            (try_set_zone_irrel nm "external" "" item).trans htry
          have hds1 : (runMain ⟨[], [], [], [item], [], some z0, "enabled", false⟩ nm ds).eng.ds
              = ds := by
            simp [runMain, mainM, bind_eval, hsetup1, rulesPhase, processService,
              processPort, categoryBlock, processTrustMasq, trustMasqItem, htT,
              pure_eval, hzt, getZoneByName_eval, hsT, getEng_eval, alookup,
              getSettings_eval, emit_eval, setChanged_eval, processForwardPort,
              finishPhase, commitAll, exitJson_eval]
          rw [hds1]
          simp [runMain, mainM, bind_eval, hsetup2, rulesPhase, processService,
            processPort, categoryBlock, processTrustMasq, trustMasqItem, htry,
            pure_eval, hzt, getZoneByName_eval, hsT, getEng_eval, alookup,
            getSettings_eval, emit_eval, processForwardPort, finishPhase,
            exitJson_eval]
      | false =>
          have htT : try_set_zone_of_interface nm "external" item = .ok false :=
            (try_set_zone_irrel nm "external" "" item).trans htry
          have hds1 : (runMain ⟨[], [], [], [item], [], some z0, "enabled", false⟩ nm ds).eng.ds
              = { ds with
                  ifaceZone := aset item "external" ds.ifaceZone,
                  permanent := aset "external" { sT with interfaces := sT.interfaces ++ [item] } ds.permanent } := by
            simp [runMain, mainM, bind_eval, hsetup1, rulesPhase, processService,
              processPort, categoryBlock, processTrustMasq, trustMasqItem, htT,
              pure_eval, hzt, getZoneByName_eval, hsT, getEng_eval, alookup,
              getSettings_eval, queryInterface_eval, hrT, hif,
              changeZoneOfInterface_eval, setChanged_eval, settingsQueryInterface_total,
              habs2, settingsAddInterface_total, registerChanged_eval, aset,
              processForwardPort, finishPhase, commitAll, update_total, readRef_total,
              modifyEng_eval, emit, exitJson_eval, hsT]
          rw [hds1]
          have h2' : ((( { ds with
                  ifaceZone := aset item "external" ds.ifaceZone,
                  permanent := aset "external" { sT with interfaces := sT.interfaces ++ [item] } ds.permanent } : DaemonState).permanent.map
                Prod.fst).contains z0) = true := by
            rw [show ( { ds with
                  ifaceZone := aset item "external" ds.ifaceZone,
                  permanent := aset "external" { sT with interfaces := sT.interfaces ++ [item] } ds.permanent } : DaemonState).permanent
                = aset "external" { sT with interfaces := sT.interfaces ++ [item] } ds.permanent from rfl]
            rw [map_fst_aset_of_mem _ (alookup_mem_keys hsT)]
            exact h2
          have hs0' : alookup z0 (( { ds with
                  ifaceZone := aset item "external" ds.ifaceZone,
                  permanent := aset "external" { sT with interfaces := sT.interfaces ++ [item] } ds.permanent } : DaemonState)).permanent = some s0 :=
            (alookup_aset_ne _ ds.permanent hzt).trans hs0
          have hsetup2b := setupPhase_ok
            (p := ⟨[], [], [], [item], [], some z0, "disabled", false⟩)
            (d := { ds with
                  ifaceZone := aset item "external" ds.ifaceZone,
                  permanent := aset "external" { sT with interfaces := sT.interfaces ++ [item] } ds.permanent })
            rfl rfl rfl hc h1 h2' hs0'
          simp [runMain, mainM, bind_eval, hsetup2b, rulesPhase, processService,
            processPort, categoryBlock, processTrustMasq, trustMasqItem, htry,
            pure_eval, hzt, getEng_eval, alookup, queryInterface_eval, hrT,
            removeInterface_eval, setChanged_eval, settingsQueryInterface_total,
            settingsRemoveInterface_total, registerChanged_eval, aset,
            processForwardPort, finishPhase, commitAll, update_total, readRef_total,
            modifyEng_eval, emit, exitJson_eval, alookup_aset_self, alookup_aset_ne,
            aset_aset, aset_of_alookup_eq, hsT, aerase_aset, aerase_of_alookup_none,
            hif, erase_append_self, habs2, getZoneByName_eval, getSettings_eval]

/-- C9 amended: running `enabled` and then immediately `disabled` for the
same single rule and the same nominal zone restores the daemon state
exactly — runtime layer, permanent layer and interface ownership — in every
rule category, provided the daemon is connected, the zones involved exist
in both layers, and the rule is not already present in either layer
beforehand (for `trust`/`masq`: the interface is not yet owned by any zone
nor listed in the target zone's permanent interfaces; for `forward_port`:
the rule names no interface).  The unconditional law of the claim fails
(see the counterexample): a rule already present is removed, not restored. -/
theorem c9_amended :
    (∀ (item z0 : String) (nm : NMModel) (ds : DaemonState)
       (zr0 : ZoneRuntime) (s0 : ZoneSettings),
       ds.connected = true →
       (ds.runtime.map Prod.fst).contains z0 = true →
       (ds.permanent.map Prod.fst).contains z0 = true →
       alookup z0 ds.runtime = some zr0 →
       alookup z0 ds.permanent = some s0 →
       item ∉ zr0.services → item ∉ s0.services →
       (runMain ⟨[item], [], [], [], [], some z0, "disabled", false⟩ nm
         ((runMain ⟨[item], [], [], [], [], some z0, "enabled", false⟩ nm ds).eng.ds)).eng.ds
         = ds) ∧
    (∀ (s p proto z0 : String) (nm : NMModel) (ds : DaemonState)
       (zr0 : ZoneRuntime) (s0 : ZoneSettings),
       parse_port s = .ok (p, proto) →
       ds.connected = true →
       (ds.runtime.map Prod.fst).contains z0 = true →
       (ds.permanent.map Prod.fst).contains z0 = true →
       alookup z0 ds.runtime = some zr0 →
       alookup z0 ds.permanent = some s0 →
       (p, proto) ∉ zr0.ports → (p, proto) ∉ s0.ports →
       (runMain ⟨[], [s], [], [], [], some z0, "disabled", false⟩ nm
         ((runMain ⟨[], [s], [], [], [], some z0, "enabled", false⟩ nm ds).eng.ds)).eng.ds
         = ds) ∧
    (∀ (item z0 : String) (nm : NMModel) (ds : DaemonState)
       (zrT : ZoneRuntime) (s0 sT : ZoneSettings),
       ds.connected = true →
       (ds.runtime.map Prod.fst).contains z0 = true →
       (ds.permanent.map Prod.fst).contains z0 = true →
       alookup z0 ds.permanent = some s0 →
       z0 ≠ "trusted" →
       alookup "trusted" ds.runtime = some zrT →
       alookup "trusted" ds.permanent = some sT →
       alookup item ds.ifaceZone = none →
       item ∉ sT.interfaces →
       (runMain ⟨[], [], [item], [], [], some z0, "disabled", false⟩ nm
         ((runMain ⟨[], [], [item], [], [], some z0, "enabled", false⟩ nm ds).eng.ds)).eng.ds
         = ds) ∧
    (∀ (item z0 : String) (nm : NMModel) (ds : DaemonState)
       (zrT : ZoneRuntime) (s0 sT : ZoneSettings),
       ds.connected = true →
       (ds.runtime.map Prod.fst).contains z0 = true →
       (ds.permanent.map Prod.fst).contains z0 = true →
       alookup z0 ds.permanent = some s0 →
       z0 ≠ "external" →
       alookup "external" ds.runtime = some zrT →
       alookup "external" ds.permanent = some sT →
       alookup item ds.ifaceZone = none →
       item ∉ sT.interfaces →
       (runMain ⟨[], [], [], [item], [], some z0, "disabled", false⟩ nm
         ((runMain ⟨[], [], [], [item], [], some z0, "enabled", false⟩ nm ds).eng.ds)).eng.ds
         = ds) ∧
    (∀ (s p proto : String) (tp ta : Option String) (z0 : String)
       (nm : NMModel) (ds : DaemonState) (zr0 : ZoneRuntime) (s0 : ZoneSettings),
       parse_forward_port s none = .ok ("", p, proto, tp, ta) →
       ds.connected = true →
       (ds.runtime.map Prod.fst).contains z0 = true →
       (ds.permanent.map Prod.fst).contains z0 = true →
       alookup z0 ds.runtime = some zr0 →
       alookup z0 ds.permanent = some s0 →
       (⟨p, proto, tp, ta⟩ : FwdPort) ∉ zr0.forwardPorts →
       (⟨p, proto, tp, ta⟩ : FwdPort) ∉ s0.forwardPorts →
       (runMain ⟨[], [], [], [], [s], some z0, "disabled", false⟩ nm
         ((runMain ⟨[], [], [], [], [s], some z0, "enabled", false⟩ nm ds).eng.ds)).eng.ds
         = ds) :=
  ⟨fun item z0 nm ds zr0 s0 hc h1 h2 hr0 hs0 ha hb =>
     c9_service item z0 nm ds zr0 s0 hc h1 h2 hr0 hs0 ha hb,
   fun s p proto z0 nm ds zr0 s0 hp hc h1 h2 hr0 hs0 ha hb =>
     c9_port s p proto z0 nm ds zr0 s0 hp hc h1 h2 hr0 hs0 ha hb,
   fun item z0 nm ds zrT s0 sT hc h1 h2 hs0 hzt hrT hsT hif hb =>
     c9_trust item z0 nm ds zrT s0 sT hc h1 h2 hs0 hzt hrT hsT hif hb,
   fun item z0 nm ds zrT s0 sT hc h1 h2 hs0 hzt hrT hsT hif hb =>
     c9_masq item z0 nm ds zrT s0 sT hc h1 h2 hs0 hzt hrT hsT hif hb,
   fun s p proto tp ta z0 nm ds zr0 s0 hp hc h1 h2 hr0 hs0 ha hb =>
     c9_fwd s p proto tp ta z0 nm ds zr0 s0 hp hc h1 h2 hr0 hs0 ha hb⟩

/-- The round-trip law of `c9_amended` at a concrete instance: enabling and
then disabling the `https` service on `public` against a one-zone daemon
returns it to its initial state. -/
theorem c9_amended_witness :
    (runMain ⟨["https"], [], [], [], [], some "public", "disabled", false⟩ nmOff
      ((runMain ⟨["https"], [], [], [], [], some "public", "enabled", false⟩ nmOff
        c9ds).eng.ds)).eng.ds = c9ds :=
  c9_amended.1 "https" "public" nmOff c9ds emptyRt emptySettings rfl (by decide)
    (by decide) rfl rfl (by decide) (by decide)


theorem c2_service_en (item z0 : String) (nm : NMModel) (ds : DaemonState)
    (zr0 : ZoneRuntime) (s0 : ZoneSettings)
    (hc : ds.connected = true)
    (h1 : (ds.runtime.map Prod.fst).contains z0 = true)
    (h2 : (ds.permanent.map Prod.fst).contains z0 = true)
    (hr0 : alookup z0 ds.runtime = some zr0)
    (hs0 : alookup z0 ds.permanent = some s0)
    (habs : item ∉ zr0.services)
    (habs2 : item ∉ s0.services) :
    (runMain ⟨[item], [], [], [], [], some z0, "enabled", false⟩ nm ds).outcome
      = .ok true ∧
    (runMain ⟨[item], [], [], [], [], some z0, "enabled", false⟩ nm
      ((runMain ⟨[item], [], [], [], [], some z0, "enabled", false⟩ nm ds).eng.ds)).outcome
      = .ok false := by
  have hsetup1 := setupPhase_ok (p := ⟨[item], [], [], [], [], some z0, "enabled", false⟩)
    (d := ds) rfl rfl rfl hc h1 h2 hs0
  have hout1 : (runMain ⟨[item], [], [], [], [], some z0, "enabled", false⟩ nm ds).outcome
      = .ok true := by
    simp [runMain, mainM, bind_eval, hsetup1, rulesPhase, processService, processPort,
      categoryBlock, processForwardPort, pure_eval, queryService_eval, habs, habs2,
      settingsQueryService_total, addService_eval, setChanged_eval,
      settingsAddService_total, registerChanged_eval, alookup, aset, finishPhase,
      getEng_eval, commitAll, update_total, readRef_total, modifyEng_eval, emit,
      exitJson_eval, hr0, hs0]
  have hds1 : (runMain ⟨[item], [], [], [], [], some z0, "enabled", false⟩ nm ds).eng.ds
      = { ds with
          runtime := aset z0 { zr0 with services := zr0.services ++ [item] } ds.runtime,
          permanent := aset z0 { s0 with services := s0.services ++ [item] } ds.permanent } := by
    simp [runMain, mainM, bind_eval, hsetup1, rulesPhase, processService, processPort,
      categoryBlock, processForwardPort, pure_eval, queryService_eval, habs, habs2,
      settingsQueryService_total, addService_eval, setChanged_eval,
      settingsAddService_total, registerChanged_eval, alookup, aset, finishPhase,
      getEng_eval, commitAll, update_total, readRef_total, modifyEng_eval, emit,
      exitJson_eval, hr0, hs0]
  refine ⟨hout1, ?_⟩
  rw [hds1]
  have h1' : ((( { ds with
          runtime := aset z0 { zr0 with services := zr0.services ++ [item] } ds.runtime,
          permanent := aset z0 { s0 with services := s0.services ++ [item] } ds.permanent } : DaemonState).runtime.map
        Prod.fst).contains z0) = true := by
    rw [show ( { ds with
          runtime := aset z0 { zr0 with services := zr0.services ++ [item] } ds.runtime,
          permanent := aset z0 { s0 with services := s0.services ++ [item] } ds.permanent } : DaemonState).runtime
        = aset z0 { zr0 with services := zr0.services ++ [item] } ds.runtime from rfl]
    rw [map_fst_aset_of_mem _ (alookup_mem_keys hr0)]
    exact h1
  have h2' : ((( { ds with
          runtime := aset z0 { zr0 with services := zr0.services ++ [item] } ds.runtime,
          permanent := aset z0 { s0 with services := s0.services ++ [item] } ds.permanent } : DaemonState).permanent.map
        Prod.fst).contains z0) = true := by
    rw [show ( { ds with
          runtime := aset z0 { zr0 with services := zr0.services ++ [item] } ds.runtime,
          permanent := aset z0 { s0 with services := s0.services ++ [item] } ds.permanent } : DaemonState).permanent
        = aset z0 { s0 with services := s0.services ++ [item] } ds.permanent from rfl]
    rw [map_fst_aset_of_mem _ (alookup_mem_keys hs0)]
    exact h2
  have hsetup2 := setupPhase_ok
    (p := ⟨[item], [], [], [], [], some z0, "enabled", false⟩)
    (d := { ds with
          runtime := aset z0 { zr0 with services := zr0.services ++ [item] } ds.runtime,
          permanent := aset z0 { s0 with services := s0.services ++ [item] } ds.permanent })
    rfl rfl rfl hc h1' h2' (alookup_aset_self z0 _ ds.permanent)
  simp [runMain, mainM, bind_eval, hsetup2, rulesPhase, processService, processPort,
    categoryBlock, processForwardPort, pure_eval, queryService_eval, alookup_aset_self,
    settingsQueryService_total, alookup, finishPhase, getEng_eval, exitJson_eval]

theorem c2_service_dis (item z0 : String) (nm : NMModel) (ds : DaemonState)
    (zr0 : ZoneRuntime) (s0 : ZoneSettings)
    (hc : ds.connected = true)
    (h1 : (ds.runtime.map Prod.fst).contains z0 = true)
    (h2 : (ds.permanent.map Prod.fst).contains z0 = true)
    (hr0 : alookup z0 ds.runtime = some zr0)
    (hs0 : alookup z0 ds.permanent = some s0)
    (hin : item ∈ zr0.services)
    (hin2 : item ∈ s0.services)
    (hga : item ∉ zr0.services.erase item)
    (hga2 : item ∉ s0.services.erase item) :
    (runMain ⟨[item], [], [], [], [], some z0, "disabled", false⟩ nm ds).outcome
      = .ok true ∧
    (runMain ⟨[item], [], [], [], [], some z0, "disabled", false⟩ nm
      ((runMain ⟨[item], [], [], [], [], some z0, "disabled", false⟩ nm ds).eng.ds)).outcome
      = .ok false := by
  have hsetup1 := setupPhase_ok (p := ⟨[item], [], [], [], [], some z0, "disabled", false⟩)
    (d := ds) rfl rfl rfl hc h1 h2 hs0
  have hout1 : (runMain ⟨[item], [], [], [], [], some z0, "disabled", false⟩ nm ds).outcome
      = .ok true := by
    simp [runMain, mainM, bind_eval, hsetup1, rulesPhase, processService, processPort,
      categoryBlock, processForwardPort, pure_eval, queryService_eval, hin, hin2,
      settingsQueryService_total, removeService_eval, setChanged_eval,
      settingsRemoveService_total, registerChanged_eval, alookup, aset, finishPhase,
      getEng_eval, commitAll, update_total, readRef_total, modifyEng_eval, emit,
      exitJson_eval, hr0, hs0]
  have hds1 : (runMain ⟨[item], [], [], [], [], some z0, "disabled", false⟩ nm ds).eng.ds
      = { ds with
          runtime := aset z0 { zr0 with services := zr0.services.erase item } ds.runtime,
          permanent := aset z0 { s0 with services := s0.services.erase item } ds.permanent } := by
    simp [runMain, mainM, bind_eval, hsetup1, rulesPhase, processService, processPort,
      categoryBlock, processForwardPort, pure_eval, queryService_eval, hin, hin2,
      settingsQueryService_total, removeService_eval, setChanged_eval,
      settingsRemoveService_total, registerChanged_eval, alookup, aset, finishPhase,
      getEng_eval, commitAll, update_total, readRef_total, modifyEng_eval, emit,
      exitJson_eval, hr0, hs0]
  refine ⟨hout1, ?_⟩
  rw [hds1]
  have h1' : ((( { ds with
          runtime := aset z0 { zr0 with services := zr0.services.erase item } ds.runtime,
          permanent := aset z0 { s0 with services := s0.services.erase item } ds.permanent } : DaemonState).runtime.map
        Prod.fst).contains z0) = true := by
    rw [show ( { ds with
          runtime := aset z0 { zr0 with services := zr0.services.erase item } ds.runtime,
          permanent := aset z0 { s0 with services := s0.services.erase item } ds.permanent } : DaemonState).runtime
        = aset z0 { zr0 with services := zr0.services.erase item } ds.runtime from rfl]
    rw [map_fst_aset_of_mem _ (alookup_mem_keys hr0)]
    exact h1
  have h2' : ((( { ds with
          runtime := aset z0 { zr0 with services := zr0.services.erase item } ds.runtime,
          permanent := aset z0 { s0 with services := s0.services.erase item } ds.permanent } : DaemonState).permanent.map
        Prod.fst).contains z0) = true := by
    rw [show ( { ds with
          runtime := aset z0 { zr0 with services := zr0.services.erase item } ds.runtime,
          permanent := aset z0 { s0 with services := s0.services.erase item } ds.permanent } : DaemonState).permanent
        = aset z0 { s0 with services := s0.services.erase item } ds.permanent from rfl]
    rw [map_fst_aset_of_mem _ (alookup_mem_keys hs0)]
    exact h2
  have hsetup2 := setupPhase_ok
    (p := ⟨[item], [], [], [], [], some z0, "disabled", false⟩)
    (d := { ds with
          runtime := aset z0 { zr0 with services := zr0.services.erase item } ds.runtime,
          permanent := aset z0 { s0 with services := s0.services.erase item } ds.permanent })
    rfl rfl rfl hc h1' h2' (alookup_aset_self z0 _ ds.permanent)
  simp [runMain, mainM, bind_eval, hsetup2, rulesPhase, processService, processPort,
    categoryBlock, processForwardPort, pure_eval, queryService_eval, alookup_aset_self,
    settingsQueryService_total, alookup, finishPhase, getEng_eval, exitJson_eval,
    hga, hga2]

theorem c2_port_en (s p proto z0 : String) (nm : NMModel) (ds : DaemonState)
    (zr0 : ZoneRuntime) (s0 : ZoneSettings)
    (hparse : parse_port s = .ok (p, proto))
    (hc : ds.connected = true)
    (h1 : (ds.runtime.map Prod.fst).contains z0 = true)
    (h2 : (ds.permanent.map Prod.fst).contains z0 = true)
    (hr0 : alookup z0 ds.runtime = some zr0)
    (hs0 : alookup z0 ds.permanent = some s0)
    (habs : (p, proto) ∉ zr0.ports)
    (habs2 : (p, proto) ∉ s0.ports) :
    (runMain ⟨[], [s], [], [], [], some z0, "enabled", false⟩ nm ds).outcome
      = .ok true ∧
    (runMain ⟨[], [s], [], [], [], some z0, "enabled", false⟩ nm
      ((runMain ⟨[], [s], [], [], [], some z0, "enabled", false⟩ nm ds).eng.ds)).outcome
      = .ok false := by
  have hpp : parsePorts [s] = .ok [(p, proto)] := by simp [parsePorts, hparse]
  have hsetup1 := setupPhase_ok (p := ⟨[], [s], [], [], [], some z0, "enabled", false⟩)
    (d := ds) rfl hpp rfl hc h1 h2 hs0
  have hout1 : (runMain ⟨[], [s], [], [], [], some z0, "enabled", false⟩ nm ds).outcome
      = .ok true := by
    simp [runMain, mainM, bind_eval, hsetup1, rulesPhase, processService, processPort,
      categoryBlock, processForwardPort, pure_eval, queryPort_eval, habs, habs2,
      settingsQueryPort_total, addPort_eval, setChanged_eval,
      settingsAddPort_total, registerChanged_eval, alookup, aset, finishPhase,
      getEng_eval, commitAll, update_total, readRef_total, modifyEng_eval, emit,
      exitJson_eval, hr0, hs0]
  have hds1 : (runMain ⟨[], [s], [], [], [], some z0, "enabled", false⟩ nm ds).eng.ds
      = { ds with
          runtime := aset z0 { zr0 with ports := zr0.ports ++ [(p, proto)] } ds.runtime,
          permanent := aset z0 { s0 with ports := s0.ports ++ [(p, proto)] } ds.permanent } := by
    simp [runMain, mainM, bind_eval, hsetup1, rulesPhase, processService, processPort,
      categoryBlock, processForwardPort, pure_eval, queryPort_eval, habs, habs2,
      settingsQueryPort_total, addPort_eval, setChanged_eval,
      settingsAddPort_total, registerChanged_eval, alookup, aset, finishPhase,
      getEng_eval, commitAll, update_total, readRef_total, modifyEng_eval, emit,
      exitJson_eval, hr0, hs0]
  refine ⟨hout1, ?_⟩
  rw [hds1]
  have h1' : ((( { ds with
          runtime := aset z0 { zr0 with ports := zr0.ports ++ [(p, proto)] } ds.runtime,
          permanent := aset z0 { s0 with ports := s0.ports ++ [(p, proto)] } ds.permanent } : DaemonState).runtime.map
        Prod.fst).contains z0) = true := by
    rw [show ( { ds with
          runtime := aset z0 { zr0 with ports := zr0.ports ++ [(p, proto)] } ds.runtime,
          permanent := aset z0 { s0 with ports := s0.ports ++ [(p, proto)] } ds.permanent } : DaemonState).runtime
        = aset z0 { zr0 with ports := zr0.ports ++ [(p, proto)] } ds.runtime from rfl]
    rw [map_fst_aset_of_mem _ (alookup_mem_keys hr0)]
    exact h1
  have h2' : ((( { ds with
          runtime := aset z0 { zr0 with ports := zr0.ports ++ [(p, proto)] } ds.runtime,
          permanent := aset z0 { s0 with ports := s0.ports ++ [(p, proto)] } ds.permanent } : DaemonState).permanent.map
        Prod.fst).contains z0) = true := by
    rw [show ( { ds with
          runtime := aset z0 { zr0 with ports := zr0.ports ++ [(p, proto)] } ds.runtime,
          permanent := aset z0 { s0 with ports := s0.ports ++ [(p, proto)] } ds.permanent } : DaemonState).permanent
        = aset z0 { s0 with ports := s0.ports ++ [(p, proto)] } ds.permanent from rfl]
    rw [map_fst_aset_of_mem _ (alookup_mem_keys hs0)]
    exact h2
  have hsetup2 := setupPhase_ok
    (p := ⟨[], [s], [], [], [], some z0, "enabled", false⟩)
    (d := { ds with
          runtime := aset z0 { zr0 with ports := zr0.ports ++ [(p, proto)] } ds.runtime,
          permanent := aset z0 { s0 with ports := s0.ports ++ [(p, proto)] } ds.permanent })
    rfl hpp rfl hc h1' h2' (alookup_aset_self z0 _ ds.permanent)
  simp [runMain, mainM, bind_eval, hsetup2, rulesPhase, processService, processPort,
    categoryBlock, processForwardPort, pure_eval, queryPort_eval, alookup_aset_self,
    settingsQueryPort_total, alookup, finishPhase, getEng_eval, exitJson_eval]

theorem c2_port_dis (s p proto z0 : String) (nm : NMModel) (ds : DaemonState)
    (zr0 : ZoneRuntime) (s0 : ZoneSettings)
    (hparse : parse_port s = .ok (p, proto))
    (hc : ds.connected = true)
    (h1 : (ds.runtime.map Prod.fst).contains z0 = true)
    (h2 : (ds.permanent.map Prod.fst).contains z0 = true)
    (hr0 : alookup z0 ds.runtime = some zr0)
    (hs0 : alookup z0 ds.permanent = some s0)
    (hin : (p, proto) ∈ zr0.ports)
    (hin2 : (p, proto) ∈ s0.ports)
    (hga : (p, proto) ∉ zr0.ports.erase (p, proto))
    (hga2 : (p, proto) ∉ s0.ports.erase (p, proto)) :
    (runMain ⟨[], [s], [], [], [], some z0, "disabled", false⟩ nm ds).outcome
      = .ok true ∧
    (runMain ⟨[], [s], [], [], [], some z0, "disabled", false⟩ nm
      ((runMain ⟨[], [s], [], [], [], some z0, "disabled", false⟩ nm ds).eng.ds)).outcome
      = .ok false := by
  have hpp : parsePorts [s] = .ok [(p, proto)] := by simp [parsePorts, hparse]
  have hsetup1 := setupPhase_ok (p := ⟨[], [s], [], [], [], some z0, "disabled", false⟩)
    (d := ds) rfl hpp rfl hc h1 h2 hs0
  have hout1 : (runMain ⟨[], [s], [], [], [], some z0, "disabled", false⟩ nm ds).outcome
      = .ok true := by
    simp [runMain, mainM, bind_eval, hsetup1, rulesPhase, processService, processPort,
      categoryBlock, processForwardPort, pure_eval, queryPort_eval, hin, hin2,
      settingsQueryPort_total, removePort_eval, setChanged_eval,
      settingsRemovePort_total, registerChanged_eval, alookup, aset, finishPhase,
      getEng_eval, commitAll, update_total, readRef_total, modifyEng_eval, emit,
      exitJson_eval, hr0, hs0]
  have hds1 : (runMain ⟨[], [s], [], [], [], some z0, "disabled", false⟩ nm ds).eng.ds
      = { ds with
          runtime := aset z0 { zr0 with ports := zr0.ports.erase (p, proto) } ds.runtime,
          permanent := aset z0 { s0 with ports := s0.ports.erase (p, proto) } ds.permanent } := by
    simp [runMain, mainM, bind_eval, hsetup1, rulesPhase, processService, processPort,
      categoryBlock, processForwardPort, pure_eval, queryPort_eval, hin, hin2,
      settingsQueryPort_total, removePort_eval, setChanged_eval,
      settingsRemovePort_total, registerChanged_eval, alookup, aset, finishPhase,
      getEng_eval, commitAll, update_total, readRef_total, modifyEng_eval, emit,
      exitJson_eval, hr0, hs0]
  refine ⟨hout1, ?_⟩
  rw [hds1]
  have h1' : ((( { ds with
          runtime := aset z0 { zr0 with ports := zr0.ports.erase (p, proto) } ds.runtime,
          permanent := aset z0 { s0 with ports := s0.ports.erase (p, proto) } ds.permanent } : DaemonState).runtime.map
        Prod.fst).contains z0) = true := by
    rw [show ( { ds with
          runtime := aset z0 { zr0 with ports := zr0.ports.erase (p, proto) } ds.runtime,
          permanent := aset z0 { s0 with ports := s0.ports.erase (p, proto) } ds.permanent } : DaemonState).runtime
        = aset z0 { zr0 with ports := zr0.ports.erase (p, proto) } ds.runtime from rfl]
    rw [map_fst_aset_of_mem _ (alookup_mem_keys hr0)]
    exact h1
  have h2' : ((( { ds with
          runtime := aset z0 { zr0 with ports := zr0.ports.erase (p, proto) } ds.runtime,
          permanent := aset z0 { s0 with ports := s0.ports.erase (p, proto) } ds.permanent } : DaemonState).permanent.map
        Prod.fst).contains z0) = true := by
    rw [show ( { ds with
          runtime := aset z0 { zr0 with ports := zr0.ports.erase (p, proto) } ds.runtime,
          permanent := aset z0 { s0 with ports := s0.ports.erase (p, proto) } ds.permanent } : DaemonState).permanent
        = aset z0 { s0 with ports := s0.ports.erase (p, proto) } ds.permanent from rfl]
    rw [map_fst_aset_of_mem _ (alookup_mem_keys hs0)]
    exact h2
  have hsetup2 := setupPhase_ok
    (p := ⟨[], [s], [], [], [], some z0, "disabled", false⟩)
    (d := { ds with
          runtime := aset z0 { zr0 with ports := zr0.ports.erase (p, proto) } ds.runtime,
          permanent := aset z0 { s0 with ports := s0.ports.erase (p, proto) } ds.permanent })
    rfl hpp rfl hc h1' h2' (alookup_aset_self z0 _ ds.permanent)
  simp [runMain, mainM, bind_eval, hsetup2, rulesPhase, processService, processPort,
    categoryBlock, processForwardPort, pure_eval, queryPort_eval, alookup_aset_self,
    settingsQueryPort_total, alookup, finishPhase, getEng_eval, exitJson_eval,
    hga, hga2]

theorem c2_fwd_en (s p proto : String) (tp ta : Option String) (z0 : String) (nm : NMModel) (ds : DaemonState)
    (zr0 : ZoneRuntime) (s0 : ZoneSettings)
    (hparse : parse_forward_port s none = .ok ("", p, proto, tp, ta))
    (hc : ds.connected = true)
    (h1 : (ds.runtime.map Prod.fst).contains z0 = true)
    (h2 : (ds.permanent.map Prod.fst).contains z0 = true)
    (hr0 : alookup z0 ds.runtime = some zr0)
    (hs0 : alookup z0 ds.permanent = some s0)
    (habs : (⟨p, proto, tp, ta⟩ : FwdPort) ∉ zr0.forwardPorts)
    (habs2 : (⟨p, proto, tp, ta⟩ : FwdPort) ∉ s0.forwardPorts) :
    (runMain ⟨[], [], [], [], [s], some z0, "enabled", false⟩ nm ds).outcome
      = .ok true ∧
    (runMain ⟨[], [], [], [], [s], some z0, "enabled", false⟩ nm
      ((runMain ⟨[], [], [], [], [s], some z0, "enabled", false⟩ nm ds).eng.ds)).outcome
      = .ok false := by
  have hfw : parseFwds [s] = .ok [("", p, proto, tp, ta)] := by simp [parseFwds, hparse]
  have hsetup1 := setupPhase_ok (p := ⟨[], [], [], [], [s], some z0, "enabled", false⟩)
    (d := ds) rfl rfl hfw hc h1 h2 hs0
  have hout1 : (runMain ⟨[], [], [], [], [s], some z0, "enabled", false⟩ nm ds).outcome
      = .ok true := by
    simp [runMain, mainM, bind_eval, hsetup1, rulesPhase, processService, processPort,
      categoryBlock, processForwardPort, pure_eval, queryForwardPort_eval, habs, habs2,
      settingsQueryForwardPort_total, addForwardPort_eval, setChanged_eval,
      settingsAddForwardPort_total, registerChanged_eval, alookup, aset, finishPhase,
      getEng_eval, commitAll, update_total, readRef_total, modifyEng_eval, emit,
      exitJson_eval, hr0, hs0]
  have hds1 : (runMain ⟨[], [], [], [], [s], some z0, "enabled", false⟩ nm ds).eng.ds
      = { ds with
          runtime := aset z0 { zr0 with forwardPorts := zr0.forwardPorts ++ [⟨p, proto, tp, ta⟩] } ds.runtime,
          permanent := aset z0 { s0 with forwardPorts := s0.forwardPorts ++ [⟨p, proto, tp, ta⟩] } ds.permanent } := by
    simp [runMain, mainM, bind_eval, hsetup1, rulesPhase, processService, processPort,
      categoryBlock, processForwardPort, pure_eval, queryForwardPort_eval, habs, habs2,
      settingsQueryForwardPort_total, addForwardPort_eval, setChanged_eval,
      settingsAddForwardPort_total, registerChanged_eval, alookup, aset, finishPhase,
      getEng_eval, commitAll, update_total, readRef_total, modifyEng_eval, emit,
      exitJson_eval, hr0, hs0]
  refine ⟨hout1, ?_⟩
  rw [hds1]
  have h1' : ((( { ds with
          runtime := aset z0 { zr0 with forwardPorts := zr0.forwardPorts ++ [⟨p, proto, tp, ta⟩] } ds.runtime,
          permanent := aset z0 { s0 with forwardPorts := s0.forwardPorts ++ [⟨p, proto, tp, ta⟩] } ds.permanent } : DaemonState).runtime.map
        Prod.fst).contains z0) = true := by
    rw [show ( { ds with
          runtime := aset z0 { zr0 with forwardPorts := zr0.forwardPorts ++ [⟨p, proto, tp, ta⟩] } ds.runtime,
          permanent := aset z0 { s0 with forwardPorts := s0.forwardPorts ++ [⟨p, proto, tp, ta⟩] } ds.permanent } : DaemonState).runtime
        = aset z0 { zr0 with forwardPorts := zr0.forwardPorts ++ [⟨p, proto, tp, ta⟩] } ds.runtime from rfl]
    rw [map_fst_aset_of_mem _ (alookup_mem_keys hr0)]
    exact h1
  have h2' : ((( { ds with
          runtime := aset z0 { zr0 with forwardPorts := zr0.forwardPorts ++ [⟨p, proto, tp, ta⟩] } ds.runtime,
          permanent := aset z0 { s0 with forwardPorts := s0.forwardPorts ++ [⟨p, proto, tp, ta⟩] } ds.permanent } : DaemonState).permanent.map
        Prod.fst).contains z0) = true := by
    rw [show ( { ds with
          runtime := aset z0 { zr0 with forwardPorts := zr0.forwardPorts ++ [⟨p, proto, tp, ta⟩] } ds.runtime,
          permanent := aset z0 { s0 with forwardPorts := s0.forwardPorts ++ [⟨p, proto, tp, ta⟩] } ds.permanent } : DaemonState).permanent
        = aset z0 { s0 with forwardPorts := s0.forwardPorts ++ [⟨p, proto, tp, ta⟩] } ds.permanent from rfl]
    rw [map_fst_aset_of_mem _ (alookup_mem_keys hs0)]
    exact h2
  have hsetup2 := setupPhase_ok
    (p := ⟨[], [], [], [], [s], some z0, "enabled", false⟩)
    (d := { ds with
          runtime := aset z0 { zr0 with forwardPorts := zr0.forwardPorts ++ [⟨p, proto, tp, ta⟩] } ds.runtime,
          permanent := aset z0 { s0 with forwardPorts := s0.forwardPorts ++ [⟨p, proto, tp, ta⟩] } ds.permanent })
    rfl rfl hfw hc h1' h2' (alookup_aset_self z0 _ ds.permanent)
  simp [runMain, mainM, bind_eval, hsetup2, rulesPhase, processService, processPort,
    categoryBlock, processForwardPort, pure_eval, queryForwardPort_eval, alookup_aset_self,
    settingsQueryForwardPort_total, alookup, finishPhase, getEng_eval, exitJson_eval]

theorem c2_fwd_dis (s p proto : String) (tp ta : Option String) (z0 : String) (nm : NMModel) (ds : DaemonState)
    (zr0 : ZoneRuntime) (s0 : ZoneSettings)
    (hparse : parse_forward_port s none = .ok ("", p, proto, tp, ta))
    (hc : ds.connected = true)
    (h1 : (ds.runtime.map Prod.fst).contains z0 = true)
    (h2 : (ds.permanent.map Prod.fst).contains z0 = true)
    (hr0 : alookup z0 ds.runtime = some zr0)
    (hs0 : alookup z0 ds.permanent = some s0)
    (hin : (⟨p, proto, tp, ta⟩ : FwdPort) ∈ zr0.forwardPorts)
    (hin2 : (⟨p, proto, tp, ta⟩ : FwdPort) ∈ s0.forwardPorts)
    (hga : (⟨p, proto, tp, ta⟩ : FwdPort) ∉ zr0.forwardPorts.erase ⟨p, proto, tp, ta⟩)
    (hga2 : (⟨p, proto, tp, ta⟩ : FwdPort) ∉ s0.forwardPorts.erase ⟨p, proto, tp, ta⟩) :
    (runMain ⟨[], [], [], [], [s], some z0, "disabled", false⟩ nm ds).outcome
      = .ok true ∧
    (runMain ⟨[], [], [], [], [s], some z0, "disabled", false⟩ nm
      ((runMain ⟨[], [], [], [], [s], some z0, "disabled", false⟩ nm ds).eng.ds)).outcome
      = .ok false := by
  have hfw : parseFwds [s] = .ok [("", p, proto, tp, ta)] := by simp [parseFwds, hparse]
  have hsetup1 := setupPhase_ok (p := ⟨[], [], [], [], [s], some z0, "disabled", false⟩)
    (d := ds) rfl rfl hfw hc h1 h2 hs0
  have hout1 : (runMain ⟨[], [], [], [], [s], some z0, "disabled", false⟩ nm ds).outcome
      = .ok true := by
    simp [runMain, mainM, bind_eval, hsetup1, rulesPhase, processService, processPort,
      categoryBlock, processForwardPort, pure_eval, queryForwardPort_eval, hin, hin2,
      settingsQueryForwardPort_total, removeForwardPort_eval, setChanged_eval,
      settingsRemoveForwardPort_total, registerChanged_eval, alookup, aset, finishPhase,
      getEng_eval, commitAll, update_total, readRef_total, modifyEng_eval, emit,
      exitJson_eval, hr0, hs0]
  have hds1 : (runMain ⟨[], [], [], [], [s], some z0, "disabled", false⟩ nm ds).eng.ds
      = { ds with
          runtime := aset z0 { zr0 with forwardPorts := zr0.forwardPorts.erase ⟨p, proto, tp, ta⟩ } ds.runtime,
          permanent := aset z0 { s0 with forwardPorts := s0.forwardPorts.erase ⟨p, proto, tp, ta⟩ } ds.permanent } := by
    simp [runMain, mainM, bind_eval, hsetup1, rulesPhase, processService, processPort,
      categoryBlock, processForwardPort, pure_eval, queryForwardPort_eval, hin, hin2,
      settingsQueryForwardPort_total, removeForwardPort_eval, setChanged_eval,
      settingsRemoveForwardPort_total, registerChanged_eval, alookup, aset, finishPhase,
      getEng_eval, commitAll, update_total, readRef_total, modifyEng_eval, emit,
      exitJson_eval, hr0, hs0]
  refine ⟨hout1, ?_⟩
  rw [hds1]
  have h1' : ((( { ds with
          runtime := aset z0 { zr0 with forwardPorts := zr0.forwardPorts.erase ⟨p, proto, tp, ta⟩ } ds.runtime,
          permanent := aset z0 { s0 with forwardPorts := s0.forwardPorts.erase ⟨p, proto, tp, ta⟩ } ds.permanent } : DaemonState).runtime.map
        Prod.fst).contains z0) = true := by
    rw [show ( { ds with
          runtime := aset z0 { zr0 with forwardPorts := zr0.forwardPorts.erase ⟨p, proto, tp, ta⟩ } ds.runtime,
          permanent := aset z0 { s0 with forwardPorts := s0.forwardPorts.erase ⟨p, proto, tp, ta⟩ } ds.permanent } : DaemonState).runtime
        = aset z0 { zr0 with forwardPorts := zr0.forwardPorts.erase ⟨p, proto, tp, ta⟩ } ds.runtime from rfl]
    rw [map_fst_aset_of_mem _ (alookup_mem_keys hr0)]
    exact h1
  have h2' : ((( { ds with
          runtime := aset z0 { zr0 with forwardPorts := zr0.forwardPorts.erase ⟨p, proto, tp, ta⟩ } ds.runtime,
          permanent := aset z0 { s0 with forwardPorts := s0.forwardPorts.erase ⟨p, proto, tp, ta⟩ } ds.permanent } : DaemonState).permanent.map
        Prod.fst).contains z0) = true := by
    rw [show ( { ds with
          runtime := aset z0 { zr0 with forwardPorts := zr0.forwardPorts.erase ⟨p, proto, tp, ta⟩ } ds.runtime,
          permanent := aset z0 { s0 with forwardPorts := s0.forwardPorts.erase ⟨p, proto, tp, ta⟩ } ds.permanent } : DaemonState).permanent
        = aset z0 { s0 with forwardPorts := s0.forwardPorts.erase ⟨p, proto, tp, ta⟩ } ds.permanent from rfl]
    rw [map_fst_aset_of_mem _ (alookup_mem_keys hs0)]
    exact h2
  have hsetup2 := setupPhase_ok
    (p := ⟨[], [], [], [], [s], some z0, "disabled", false⟩)
    (d := { ds with
          runtime := aset z0 { zr0 with forwardPorts := zr0.forwardPorts.erase ⟨p, proto, tp, ta⟩ } ds.runtime,
          permanent := aset z0 { s0 with forwardPorts := s0.forwardPorts.erase ⟨p, proto, tp, ta⟩ } ds.permanent })
    rfl rfl hfw hc h1' h2' (alookup_aset_self z0 _ ds.permanent)
  simp [runMain, mainM, bind_eval, hsetup2, rulesPhase, processService, processPort,
    categoryBlock, processForwardPort, pure_eval, queryForwardPort_eval, alookup_aset_self,
    settingsQueryForwardPort_total, alookup, finishPhase, getEng_eval, exitJson_eval,
    hga, hga2]

theorem c2_trust_en (item z0 : String) (nm : NMModel) (ds : DaemonState)
    (zrT : ZoneRuntime) (s0 sT : ZoneSettings)
    (htry : try_set_zone_of_interface nm "" item = .ok false)
    (hc : ds.connected = true)
    (h1 : (ds.runtime.map Prod.fst).contains z0 = true)
    (h2 : (ds.permanent.map Prod.fst).contains z0 = true)
    (hs0 : alookup z0 ds.permanent = some s0)
    (hzt : z0 ≠ "trusted")
    (hrT : alookup "trusted" ds.runtime = some zrT)
    (hsT : alookup "trusted" ds.permanent = some sT)
    (hif : alookup item ds.ifaceZone = none)
    (habs2 : item ∉ sT.interfaces) :
    (runMain ⟨[], [], [item], [], [], some z0, "enabled", false⟩ nm ds).outcome
      = .ok true ∧
    (runMain ⟨[], [], [item], [], [], some z0, "enabled", false⟩ nm
      ((runMain ⟨[], [], [item], [], [], some z0, "enabled", false⟩ nm ds).eng.ds)).outcome
      = .ok false := by
  have htT : try_set_zone_of_interface nm "trusted" item = .ok false :=
    (try_set_zone_irrel nm "trusted" "" item).trans htry
  have hsetup1 := setupPhase_ok (p := ⟨[], [], [item], [], [], some z0, "enabled", false⟩)
    (d := ds) rfl rfl rfl hc h1 h2 hs0
  have hout1 : (runMain ⟨[], [], [item], [], [], some z0, "enabled", false⟩ nm ds).outcome
      = .ok true := by
    simp [runMain, mainM, bind_eval, hsetup1, rulesPhase, processService,
      processPort, categoryBlock, processTrustMasq, trustMasqItem, htT,
      pure_eval, hzt, getZoneByName_eval, hsT, getEng_eval, alookup,
      getSettings_eval, queryInterface_eval, hrT, hif,
      changeZoneOfInterface_eval, setChanged_eval, settingsQueryInterface_total,
      habs2, settingsAddInterface_total, registerChanged_eval, aset,
      processForwardPort, finishPhase, commitAll, update_total, readRef_total,
      modifyEng_eval, emit, exitJson_eval]
  have hds1 : (runMain ⟨[], [], [item], [], [], some z0, "enabled", false⟩ nm ds).eng.ds
      = { ds with
          ifaceZone := aset item "trusted" ds.ifaceZone,
          permanent := aset "trusted" { sT with interfaces := sT.interfaces ++ [item] } ds.permanent } := by
    simp [runMain, mainM, bind_eval, hsetup1, rulesPhase, processService,
      processPort, categoryBlock, processTrustMasq, trustMasqItem, htT,
      pure_eval, hzt, getZoneByName_eval, hsT, getEng_eval, alookup,
      getSettings_eval, queryInterface_eval, hrT, hif,
      changeZoneOfInterface_eval, setChanged_eval, settingsQueryInterface_total,
      habs2, settingsAddInterface_total, registerChanged_eval, aset,
      processForwardPort, finishPhase, commitAll, update_total, readRef_total,
      modifyEng_eval, emit, exitJson_eval]
  refine ⟨hout1, ?_⟩
  rw [hds1]
  have h2' : ((( { ds with
          ifaceZone := aset item "trusted" ds.ifaceZone,
          permanent := aset "trusted" { sT with interfaces := sT.interfaces ++ [item] } ds.permanent } : DaemonState).permanent.map
        Prod.fst).contains z0) = true := by
    rw [show ( { ds with
          ifaceZone := aset item "trusted" ds.ifaceZone,
          permanent := aset "trusted" { sT with interfaces := sT.interfaces ++ [item] } ds.permanent } : DaemonState).permanent
        = aset "trusted" { sT with interfaces := sT.interfaces ++ [item] } ds.permanent from rfl]
    rw [map_fst_aset_of_mem _ (alookup_mem_keys hsT)]
    exact h2
  have hs0' : alookup z0 (( { ds with
          ifaceZone := aset item "trusted" ds.ifaceZone,
          permanent := aset "trusted" { sT with interfaces := sT.interfaces ++ [item] } ds.permanent } : DaemonState)).permanent = some s0 :=
    (alookup_aset_ne _ ds.permanent hzt).trans hs0
  have hsetup2 := setupPhase_ok
    (p := ⟨[], [], [item], [], [], some z0, "enabled", false⟩)
    (d := { ds with
          ifaceZone := aset item "trusted" ds.ifaceZone,
          permanent := aset "trusted" { sT with interfaces := sT.interfaces ++ [item] } ds.permanent })
    rfl rfl rfl hc h1 h2' hs0'
  simp [runMain, mainM, bind_eval, hsetup2, rulesPhase, processService,
    processPort, categoryBlock, processTrustMasq, trustMasqItem, htT,
    pure_eval, hzt, getEng_eval, alookup, queryInterface_eval, hrT,
    setChanged_eval, settingsQueryInterface_total, registerChanged_eval, aset,
    processForwardPort, finishPhase, getZoneByName_eval, getSettings_eval,
    exitJson_eval, alookup_aset_self, alookup_aset_ne, hsT]

theorem c2_trust_dis (item z0 : String) (nm : NMModel) (ds : DaemonState)
    (zrT : ZoneRuntime) (s0 sT : ZoneSettings)
    (htry : try_set_zone_of_interface nm "" item = .ok false)
    (hc : ds.connected = true)
    (h1 : (ds.runtime.map Prod.fst).contains z0 = true)
    (h2 : (ds.permanent.map Prod.fst).contains z0 = true)
    (hs0 : alookup z0 ds.permanent = some s0)
    (hzt : z0 ≠ "trusted")
    (hrT : alookup "trusted" ds.runtime = some zrT)
    (hsT : alookup "trusted" ds.permanent = some sT)
    (hif : alookup item ds.ifaceZone = some "trusted")
    (hif1 : alookup item (aerase item ds.ifaceZone) = none)
    (hin2 : item ∈ sT.interfaces)
    (hga2 : item ∉ sT.interfaces.erase item) :
    (runMain ⟨[], [], [item], [], [], some z0, "disabled", false⟩ nm ds).outcome
      = .ok true ∧
    (runMain ⟨[], [], [item], [], [], some z0, "disabled", false⟩ nm
      ((runMain ⟨[], [], [item], [], [], some z0, "disabled", false⟩ nm ds).eng.ds)).outcome
      = .ok false := by
  have hsetup1 := setupPhase_ok (p := ⟨[], [], [item], [], [], some z0, "disabled", false⟩)
    (d := ds) rfl rfl rfl hc h1 h2 hs0
  have hout1 : (runMain ⟨[], [], [item], [], [], some z0, "disabled", false⟩ nm ds).outcome
      = .ok true := by
    simp [runMain, mainM, bind_eval, hsetup1, rulesPhase, processService,
      processPort, categoryBlock, processTrustMasq, trustMasqItem, htry,
      pure_eval, hzt, getZoneByName_eval, hsT, getEng_eval, alookup,
      getSettings_eval, queryInterface_eval, hrT, hif,
      removeInterface_eval, setChanged_eval, settingsQueryInterface_total,
      hin2, settingsRemoveInterface_total, registerChanged_eval, aset,
      processForwardPort, finishPhase, commitAll, update_total, readRef_total,
      modifyEng_eval, emit, exitJson_eval]
  have hds1 : (runMain ⟨[], [], [item], [], [], some z0, "disabled", false⟩ nm ds).eng.ds
      = { ds with
          ifaceZone := aerase item ds.ifaceZone,
          permanent := aset "trusted" { sT with interfaces := sT.interfaces.erase item } ds.permanent } := by
    simp [runMain, mainM, bind_eval, hsetup1, rulesPhase, processService,
      processPort, categoryBlock, processTrustMasq, trustMasqItem, htry,
      pure_eval, hzt, getZoneByName_eval, hsT, getEng_eval, alookup,
      getSettings_eval, queryInterface_eval, hrT, hif,
      removeInterface_eval, setChanged_eval, settingsQueryInterface_total,
      hin2, settingsRemoveInterface_total, registerChanged_eval, aset,
      processForwardPort, finishPhase, commitAll, update_total, readRef_total,
      modifyEng_eval, emit, exitJson_eval]
  refine ⟨hout1, ?_⟩
  rw [hds1]
  have h2' : ((( { ds with
          ifaceZone := aerase item ds.ifaceZone,
          permanent := aset "trusted" { sT with interfaces := sT.interfaces.erase item } ds.permanent } : DaemonState).permanent.map
        Prod.fst).contains z0) = true := by
    rw [show ( { ds with
          ifaceZone := aerase item ds.ifaceZone,
          permanent := aset "trusted" { sT with interfaces := sT.interfaces.erase item } ds.permanent } : DaemonState).permanent
        = aset "trusted" { sT with interfaces := sT.interfaces.erase item } ds.permanent from rfl]
    rw [map_fst_aset_of_mem _ (alookup_mem_keys hsT)]
    exact h2
  have hs0' : alookup z0 (( { ds with
          ifaceZone := aerase item ds.ifaceZone,
          permanent := aset "trusted" { sT with interfaces := sT.interfaces.erase item } ds.permanent } : DaemonState)).permanent = some s0 :=
    (alookup_aset_ne _ ds.permanent hzt).trans hs0
  have hsetup2 := setupPhase_ok
    (p := ⟨[], [], [item], [], [], some z0, "disabled", false⟩)
    (d := { ds with
          ifaceZone := aerase item ds.ifaceZone,
          permanent := aset "trusted" { sT with interfaces := sT.interfaces.erase item } ds.permanent })
    rfl rfl rfl hc h1 h2' hs0'
  simp [runMain, mainM, bind_eval, hsetup2, rulesPhase, processService,
    processPort, categoryBlock, processTrustMasq, trustMasqItem, htry,
    pure_eval, hzt, getEng_eval, alookup, queryInterface_eval, hrT, hif1,
    setChanged_eval, settingsQueryInterface_total, hga2, registerChanged_eval, aset,
    processForwardPort, finishPhase, getZoneByName_eval, getSettings_eval,
    exitJson_eval, alookup_aset_self, alookup_aset_ne, hsT]


theorem c2_masq_en (item z0 : String) (nm : NMModel) (ds : DaemonState)
    (zrT : ZoneRuntime) (s0 sT : ZoneSettings)
    (htry : try_set_zone_of_interface nm "" item = .ok false)
    (hc : ds.connected = true)
    (h1 : (ds.runtime.map Prod.fst).contains z0 = true)
    (h2 : (ds.permanent.map Prod.fst).contains z0 = true)
    (hs0 : alookup z0 ds.permanent = some s0)
    (hzt : z0 ≠ "external")
    (hrT : alookup "external" ds.runtime = some zrT)
    (hsT : alookup "external" ds.permanent = some sT)
    (hif : alookup item ds.ifaceZone = none)
    (habs2 : item ∉ sT.interfaces) :
    (runMain ⟨[], [], [], [item], [], some z0, "enabled", false⟩ nm ds).outcome
      = .ok true ∧
    (runMain ⟨[], [], [], [item], [], some z0, "enabled", false⟩ nm
      ((runMain ⟨[], [], [], [item], [], some z0, "enabled", false⟩ nm ds).eng.ds)).outcome
      = .ok false := by
  have htT : try_set_zone_of_interface nm "external" item = .ok false :=
    (try_set_zone_irrel nm "external" "" item).trans htry
  have hsetup1 := setupPhase_ok (p := ⟨[], [], [], [item], [], some z0, "enabled", false⟩)
    (d := ds) rfl rfl rfl hc h1 h2 hs0
  have hout1 : (runMain ⟨[], [], [], [item], [], some z0, "enabled", false⟩ nm ds).outcome
      = .ok true := by
    simp [runMain, mainM, bind_eval, hsetup1, rulesPhase, processService,
      processPort, categoryBlock, processTrustMasq, trustMasqItem, htT,
      pure_eval, hzt, getZoneByName_eval, hsT, getEng_eval, alookup,
      getSettings_eval, queryInterface_eval, hrT, hif,
      changeZoneOfInterface_eval, setChanged_eval, settingsQueryInterface_total,
      habs2, settingsAddInterface_total, registerChanged_eval, aset,
      processForwardPort, finishPhase, commitAll, update_total, readRef_total,
      modifyEng_eval, emit, exitJson_eval]
  have hds1 : (runMain ⟨[], [], [], [item], [], some z0, "enabled", false⟩ nm ds).eng.ds
      = { ds with
          ifaceZone := aset item "external" ds.ifaceZone,
          permanent := aset "external" { sT with interfaces := sT.interfaces ++ [item] } ds.permanent } := by
    simp [runMain, mainM, bind_eval, hsetup1, rulesPhase, processService,
      processPort, categoryBlock, processTrustMasq, trustMasqItem, htT,
      pure_eval, hzt, getZoneByName_eval, hsT, getEng_eval, alookup,
      getSettings_eval, queryInterface_eval, hrT, hif,
      changeZoneOfInterface_eval, setChanged_eval, settingsQueryInterface_total,
      habs2, settingsAddInterface_total, registerChanged_eval, aset,
      processForwardPort, finishPhase, commitAll, update_total, readRef_total,
      modifyEng_eval, emit, exitJson_eval]
  refine ⟨hout1, ?_⟩
  rw [hds1]
  have h2' : ((( { ds with
          ifaceZone := aset item "external" ds.ifaceZone,
          permanent := aset "external" { sT with interfaces := sT.interfaces ++ [item] } ds.permanent } : DaemonState).permanent.map
        Prod.fst).contains z0) = true := by
    rw [show ( { ds with
          ifaceZone := aset item "external" ds.ifaceZone,
          permanent := aset "external" { sT with interfaces := sT.interfaces ++ [item] } ds.permanent } : DaemonState).permanent
        = aset "external" { sT with interfaces := sT.interfaces ++ [item] } ds.permanent from rfl]
    rw [map_fst_aset_of_mem _ (alookup_mem_keys hsT)]
    exact h2
  have hs0' : alookup z0 (( { ds with
          ifaceZone := aset item "external" ds.ifaceZone,
          permanent := aset "external" { sT with interfaces := sT.interfaces ++ [item] } ds.permanent } : DaemonState)).permanent = some s0 :=
    (alookup_aset_ne _ ds.permanent hzt).trans hs0
  have hsetup2 := setupPhase_ok
    (p := ⟨[], [], [], [item], [], some z0, "enabled", false⟩)
    (d := { ds with
          ifaceZone := aset item "external" ds.ifaceZone,
          permanent := aset "external" { sT with interfaces := sT.interfaces ++ [item] } ds.permanent })
    rfl rfl rfl hc h1 h2' hs0'
  simp [runMain, mainM, bind_eval, hsetup2, rulesPhase, processService,
    processPort, categoryBlock, processTrustMasq, trustMasqItem, htT,
    pure_eval, hzt, getEng_eval, alookup, queryInterface_eval, hrT,
    setChanged_eval, settingsQueryInterface_total, registerChanged_eval, aset,
    processForwardPort, finishPhase, getZoneByName_eval, getSettings_eval,
    exitJson_eval, alookup_aset_self, alookup_aset_ne, hsT]

theorem c2_masq_dis (item z0 : String) (nm : NMModel) (ds : DaemonState)
    (zrT : ZoneRuntime) (s0 sT : ZoneSettings)
    (htry : try_set_zone_of_interface nm "" item = .ok false)
    (hc : ds.connected = true)
    (h1 : (ds.runtime.map Prod.fst).contains z0 = true)
    (h2 : (ds.permanent.map Prod.fst).contains z0 = true)
    (hs0 : alookup z0 ds.permanent = some s0)
    (hzt : z0 ≠ "external")
    (hrT : alookup "external" ds.runtime = some zrT)
    (hsT : alookup "external" ds.permanent = some sT)
    (hif : alookup item ds.ifaceZone = some "external")
    (hif1 : alookup item (aerase item ds.ifaceZone) = none)
    (hin2 : item ∈ sT.interfaces)
    (hga2 : item ∉ sT.interfaces.erase item) :
    (runMain ⟨[], [], [], [item], [], some z0, "disabled", false⟩ nm ds).outcome
      = .ok true ∧
    (runMain ⟨[], [], [], [item], [], some z0, "disabled", false⟩ nm
      ((runMain ⟨[], [], [], [item], [], some z0, "disabled", false⟩ nm ds).eng.ds)).outcome
      = .ok false := by
  have hsetup1 := setupPhase_ok (p := ⟨[], [], [], [item], [], some z0, "disabled", false⟩)
    (d := ds) rfl rfl rfl hc h1 h2 hs0
  have hout1 : (runMain ⟨[], [], [], [item], [], some z0, "disabled", false⟩ nm ds).outcome
      = .ok true := by
    simp [runMain, mainM, bind_eval, hsetup1, rulesPhase, processService,
      processPort, categoryBlock, processTrustMasq, trustMasqItem, htry,
      pure_eval, hzt, getZoneByName_eval, hsT, getEng_eval, alookup,
      getSettings_eval, queryInterface_eval, hrT, hif,
      removeInterface_eval, setChanged_eval, settingsQueryInterface_total,
      hin2, settingsRemoveInterface_total, registerChanged_eval, aset,
      processForwardPort, finishPhase, commitAll, update_total, readRef_total,
      modifyEng_eval, emit, exitJson_eval]
  have hds1 : (runMain ⟨[], [], [], [item], [], some z0, "disabled", false⟩ nm ds).eng.ds
      = { ds with
          ifaceZone := aerase item ds.ifaceZone,
          permanent := aset "external" { sT with interfaces := sT.interfaces.erase item } ds.permanent } := by
    simp [runMain, mainM, bind_eval, hsetup1, rulesPhase, processService,
      processPort, categoryBlock, processTrustMasq, trustMasqItem, htry,
      pure_eval, hzt, getZoneByName_eval, hsT, getEng_eval, alookup,
      getSettings_eval, queryInterface_eval, hrT, hif,
      removeInterface_eval, setChanged_eval, settingsQueryInterface_total,
      hin2, settingsRemoveInterface_total, registerChanged_eval, aset,
      processForwardPort, finishPhase, commitAll, update_total, readRef_total,
      modifyEng_eval, emit, exitJson_eval]
  refine ⟨hout1, ?_⟩
  rw [hds1]
  have h2' : ((( { ds with
          ifaceZone := aerase item ds.ifaceZone,
          permanent := aset "external" { sT with interfaces := sT.interfaces.erase item } ds.permanent } : DaemonState).permanent.map
        Prod.fst).contains z0) = true := by
    rw [show ( { ds with
          ifaceZone := aerase item ds.ifaceZone,
          permanent := aset "external" { sT with interfaces := sT.interfaces.erase item } ds.permanent } : DaemonState).permanent
        = aset "external" { sT with interfaces := sT.interfaces.erase item } ds.permanent from rfl]
    rw [map_fst_aset_of_mem _ (alookup_mem_keys hsT)]
    exact h2
  have hs0' : alookup z0 (( { ds with
          ifaceZone := aerase item ds.ifaceZone,
          permanent := aset "external" { sT with interfaces := sT.interfaces.erase item } ds.permanent } : DaemonState)).permanent = some s0 :=
    (alookup_aset_ne _ ds.permanent hzt).trans hs0
  have hsetup2 := setupPhase_ok
    (p := ⟨[], [], [], [item], [], some z0, "disabled", false⟩)
    (d := { ds with
          ifaceZone := aerase item ds.ifaceZone,
          permanent := aset "external" { sT with interfaces := sT.interfaces.erase item } ds.permanent })
    rfl rfl rfl hc h1 h2' hs0'
  simp [runMain, mainM, bind_eval, hsetup2, rulesPhase, processService,
    processPort, categoryBlock, processTrustMasq, trustMasqItem, htry,
    pure_eval, hzt, getEng_eval, alookup, queryInterface_eval, hrT, hif1,
    setChanged_eval, settingsQueryInterface_total, hga2, registerChanged_eval, aset,
    processForwardPort, finishPhase, getZoneByName_eval, getSettings_eval,
    exitJson_eval, alookup_aset_self, alookup_aset_ne, hsT]
/-- C2 amended: idempotence holds category by category once the
connection-manager fast path is out of play.  For each single rule, running
the same desired state twice in succession yields `changed = true` on the
first run and `changed = false` on the second — under `enabled` when the
rule is initially absent from both layers, under `disabled` when it is
initially present in both (present exactly once, so that one removal
clears it) — given a connected daemon whose relevant zones exist in both
layers; for `trust`/`masq` the connection-manager lookup must yield
no usable connection (`.ok false`), since a usable connection makes every
run report `changed = true` (see the counterexample).  Forward-port rules
are taken without an interface. -/
theorem c2_amended :
    (∀ (item z0 : String),
       ∀ (nm : NMModel),
       ∀ (ds : DaemonState),
       ∀ (zr0 : ZoneRuntime),
       ∀ (s0 : ZoneSettings),
       ds.connected = true →
       (ds.runtime.map Prod.fst).contains z0 = true →
       (ds.permanent.map Prod.fst).contains z0 = true →
       alookup z0 ds.runtime = some zr0 →
       alookup z0 ds.permanent = some s0 →
       item ∉ zr0.services →
       item ∉ s0.services →
       (runMain ⟨[item], [], [], [], [], some z0, "enabled", false⟩ nm ds).outcome
      = .ok true ∧
    (runMain ⟨[item], [], [], [], [], some z0, "enabled", false⟩ nm
      ((runMain ⟨[item], [], [], [], [], some z0, "enabled", false⟩ nm ds).eng.ds)).outcome
      = .ok false) ∧
    (∀ (item z0 : String),
       ∀ (nm : NMModel),
       ∀ (ds : DaemonState),
       ∀ (zr0 : ZoneRuntime),
       ∀ (s0 : ZoneSettings),
       ds.connected = true →
       (ds.runtime.map Prod.fst).contains z0 = true →
       (ds.permanent.map Prod.fst).contains z0 = true →
       alookup z0 ds.runtime = some zr0 →
       alookup z0 ds.permanent = some s0 →
       item ∈ zr0.services →
       item ∈ s0.services →
       item ∉ zr0.services.erase item →
       item ∉ s0.services.erase item →
       (runMain ⟨[item], [], [], [], [], some z0, "disabled", false⟩ nm ds).outcome
      = .ok true ∧
    (runMain ⟨[item], [], [], [], [], some z0, "disabled", false⟩ nm
      ((runMain ⟨[item], [], [], [], [], some z0, "disabled", false⟩ nm ds).eng.ds)).outcome
      = .ok false) ∧
    (∀ (s p proto z0 : String),
       ∀ (nm : NMModel),
       ∀ (ds : DaemonState),
       ∀ (zr0 : ZoneRuntime),
       ∀ (s0 : ZoneSettings),
       parse_port s = .ok (p, proto) →
       ds.connected = true →
       (ds.runtime.map Prod.fst).contains z0 = true →
       (ds.permanent.map Prod.fst).contains z0 = true →
       alookup z0 ds.runtime = some zr0 →
       alookup z0 ds.permanent = some s0 →
       (p, proto) ∉ zr0.ports →
       (p, proto) ∉ s0.ports →
       (runMain ⟨[], [s], [], [], [], some z0, "enabled", false⟩ nm ds).outcome
      = .ok true ∧
    (runMain ⟨[], [s], [], [], [], some z0, "enabled", false⟩ nm
      ((runMain ⟨[], [s], [], [], [], some z0, "enabled", false⟩ nm ds).eng.ds)).outcome
      = .ok false) ∧
    (∀ (s p proto z0 : String),
       ∀ (nm : NMModel),
       ∀ (ds : DaemonState),
       ∀ (zr0 : ZoneRuntime),
       ∀ (s0 : ZoneSettings),
       parse_port s = .ok (p, proto) →
       ds.connected = true →
       (ds.runtime.map Prod.fst).contains z0 = true →
       (ds.permanent.map Prod.fst).contains z0 = true →
       alookup z0 ds.runtime = some zr0 →
       alookup z0 ds.permanent = some s0 →
       (p, proto) ∈ zr0.ports →
       (p, proto) ∈ s0.ports →
       (p, proto) ∉ zr0.ports.erase (p, proto) →
       (p, proto) ∉ s0.ports.erase (p, proto) →
       (runMain ⟨[], [s], [], [], [], some z0, "disabled", false⟩ nm ds).outcome
      = .ok true ∧
    (runMain ⟨[], [s], [], [], [], some z0, "disabled", false⟩ nm
      ((runMain ⟨[], [s], [], [], [], some z0, "disabled", false⟩ nm ds).eng.ds)).outcome
      = .ok false) ∧
    (∀ (item z0 : String),
       ∀ (nm : NMModel),
       ∀ (ds : DaemonState),
       ∀ (zrT : ZoneRuntime),
       ∀ (s0 sT : ZoneSettings),
       try_set_zone_of_interface nm "" item = .ok false →
       ds.connected = true →
       (ds.runtime.map Prod.fst).contains z0 = true →
       (ds.permanent.map Prod.fst).contains z0 = true →
       alookup z0 ds.permanent = some s0 →
       z0 ≠ "trusted" →
       alookup "trusted" ds.runtime = some zrT →
       alookup "trusted" ds.permanent = some sT →
       alookup item ds.ifaceZone = none →
       item ∉ sT.interfaces →
       (runMain ⟨[], [], [item], [], [], some z0, "enabled", false⟩ nm ds).outcome
      = .ok true ∧
    (runMain ⟨[], [], [item], [], [], some z0, "enabled", false⟩ nm
      ((runMain ⟨[], [], [item], [], [], some z0, "enabled", false⟩ nm ds).eng.ds)).outcome
      = .ok false) ∧
    (∀ (item z0 : String),
       ∀ (nm : NMModel),
       ∀ (ds : DaemonState),
       ∀ (zrT : ZoneRuntime),
       ∀ (s0 sT : ZoneSettings),
       try_set_zone_of_interface nm "" item = .ok false →
       ds.connected = true →
       (ds.runtime.map Prod.fst).contains z0 = true →
       (ds.permanent.map Prod.fst).contains z0 = true →
       alookup z0 ds.permanent = some s0 →
       z0 ≠ "trusted" →
       alookup "trusted" ds.runtime = some zrT →
       alookup "trusted" ds.permanent = some sT →
       alookup item ds.ifaceZone = some "trusted" →
       alookup item (aerase item ds.ifaceZone) = none →
       item ∈ sT.interfaces →
       item ∉ sT.interfaces.erase item →
       (runMain ⟨[], [], [item], [], [], some z0, "disabled", false⟩ nm ds).outcome
      = .ok true ∧
    (runMain ⟨[], [], [item], [], [], some z0, "disabled", false⟩ nm
      ((runMain ⟨[], [], [item], [], [], some z0, "disabled", false⟩ nm ds).eng.ds)).outcome
      = .ok false) ∧
    (∀ (item z0 : String),
       ∀ (nm : NMModel),
       ∀ (ds : DaemonState),
       ∀ (zrT : ZoneRuntime),
       ∀ (s0 sT : ZoneSettings),
       try_set_zone_of_interface nm "" item = .ok false →
       ds.connected = true →
       (ds.runtime.map Prod.fst).contains z0 = true →
       (ds.permanent.map Prod.fst).contains z0 = true →
       alookup z0 ds.permanent = some s0 →
       z0 ≠ "external" →
       alookup "external" ds.runtime = some zrT →
       alookup "external" ds.permanent = some sT →
       alookup item ds.ifaceZone = none →
       item ∉ sT.interfaces →
       (runMain ⟨[], [], [], [item], [], some z0, "enabled", false⟩ nm ds).outcome
      = .ok true ∧
    (runMain ⟨[], [], [], [item], [], some z0, "enabled", false⟩ nm
      ((runMain ⟨[], [], [], [item], [], some z0, "enabled", false⟩ nm ds).eng.ds)).outcome
      = .ok false) ∧
    (∀ (item z0 : String),
       ∀ (nm : NMModel),
       ∀ (ds : DaemonState),
       ∀ (zrT : ZoneRuntime),
       ∀ (s0 sT : ZoneSettings),
       try_set_zone_of_interface nm "" item = .ok false →
       ds.connected = true →
       (ds.runtime.map Prod.fst).contains z0 = true →
       (ds.permanent.map Prod.fst).contains z0 = true →
       alookup z0 ds.permanent = some s0 →
       z0 ≠ "external" →
       alookup "external" ds.runtime = some zrT →
       alookup "external" ds.permanent = some sT →
       alookup item ds.ifaceZone = some "external" →
       alookup item (aerase item ds.ifaceZone) = none →
       item ∈ sT.interfaces →
       item ∉ sT.interfaces.erase item →
       (runMain ⟨[], [], [], [item], [], some z0, "disabled", false⟩ nm ds).outcome
      = .ok true ∧
    (runMain ⟨[], [], [], [item], [], some z0, "disabled", false⟩ nm
      ((runMain ⟨[], [], [], [item], [], some z0, "disabled", false⟩ nm ds).eng.ds)).outcome
      = .ok false) ∧
    (∀ (s p proto : String),
       ∀ (tp ta : Option String),
       ∀ (z0 : String),
       ∀ (nm : NMModel),
       ∀ (ds : DaemonState),
       ∀ (zr0 : ZoneRuntime),
       ∀ (s0 : ZoneSettings),
       parse_forward_port s none = .ok ("", p, proto, tp, ta) →
       ds.connected = true →
       (ds.runtime.map Prod.fst).contains z0 = true →
       (ds.permanent.map Prod.fst).contains z0 = true →
       alookup z0 ds.runtime = some zr0 →
       alookup z0 ds.permanent = some s0 →
       (⟨p, proto, tp, ta⟩ : FwdPort) ∉ zr0.forwardPorts →
       (⟨p, proto, tp, ta⟩ : FwdPort) ∉ s0.forwardPorts →
       (runMain ⟨[], [], [], [], [s], some z0, "enabled", false⟩ nm ds).outcome
      = .ok true ∧
    (runMain ⟨[], [], [], [], [s], some z0, "enabled", false⟩ nm
      ((runMain ⟨[], [], [], [], [s], some z0, "enabled", false⟩ nm ds).eng.ds)).outcome
      = .ok false) ∧
    (∀ (s p proto : String),
       ∀ (tp ta : Option String),
       ∀ (z0 : String),
       ∀ (nm : NMModel),
       ∀ (ds : DaemonState),
       ∀ (zr0 : ZoneRuntime),
       ∀ (s0 : ZoneSettings),
       parse_forward_port s none = .ok ("", p, proto, tp, ta) →
       ds.connected = true →
       (ds.runtime.map Prod.fst).contains z0 = true →
       (ds.permanent.map Prod.fst).contains z0 = true →
       alookup z0 ds.runtime = some zr0 →
       alookup z0 ds.permanent = some s0 →
       (⟨p, proto, tp, ta⟩ : FwdPort) ∈ zr0.forwardPorts →
       (⟨p, proto, tp, ta⟩ : FwdPort) ∈ s0.forwardPorts →
       (⟨p, proto, tp, ta⟩ : FwdPort) ∉ zr0.forwardPorts.erase ⟨p, proto, tp, ta⟩ →
       (⟨p, proto, tp, ta⟩ : FwdPort) ∉ s0.forwardPorts.erase ⟨p, proto, tp, ta⟩ →
       (runMain ⟨[], [], [], [], [s], some z0, "disabled", false⟩ nm ds).outcome
      = .ok true ∧
    (runMain ⟨[], [], [], [], [s], some z0, "disabled", false⟩ nm
      ((runMain ⟨[], [], [], [], [s], some z0, "disabled", false⟩ nm ds).eng.ds)).outcome
      = .ok false) :=
  ⟨c2_service_en, c2_service_dis, c2_port_en, c2_port_dis, c2_trust_en, c2_trust_dis, c2_masq_en, c2_masq_dis, c2_fwd_en, c2_fwd_dis⟩

/-- The idempotence law of `c2_amended` at a concrete instance: enabling
the `https` service twice on `public` against a one-zone daemon reports a
change the first time only. -/
theorem c2_amended_witness :
    (runMain ⟨["https"], [], [], [], [], some "public", "enabled", false⟩ nmOff
      c9ds).outcome = Outcome.ok true ∧
    (runMain ⟨["https"], [], [], [], [], some "public", "enabled", false⟩ nmOff
      ((runMain ⟨["https"], [], [], [], [], some "public", "enabled", false⟩ nmOff
        c9ds).eng.ds)).outcome = Outcome.ok false :=
  c2_amended.1 "https" "public" nmOff c9ds emptyRt emptySettings rfl (by decide)
    (by decide) rfl rfl (by decide) (by decide)

end FW

